import Mathlib

/-!
SpecialK D3D12 presentation shim: a model of `imgui_d3d12.cpp`

A shallow embedding of the frame / resource lifecycle and of the command-list
hooks of `src/imgui/backends/imgui_d3d12.cpp`, followed by theorems about it.

Conventions of the embedding

* A COM object is known by its identity, a `Handle`; a smart or raw pointer is an
  `Option Handle`, `none` being the null pointer.
* Every call into the driver or the operating system whose result the code
  looks at is an input of the model: the environment structures (`HookEnv`,
  `DtorEnv`, `ReleaseEnv`, `InitEnv`, `UiEnv`, `PresentEnv`) carry one field per
  call site.  `none` / `false` stand for a failed `HRESULT`.
* The process-wide state (`_d3d12_rbk`, `_imgui_d3d12`, private data attached to
  objects, run-once flags) is the record `World`.  `World.trace` lists, oldest
  first, the calls that reached the device, the queue or the fence.
* `ID3D12Object::SetPrivateData` with the key `SKID_D3D12DisablePipelineState`
  always stores one `bool`; the code discards its `HRESULT`, and the model keeps
  the store as an association list, newest entry first.
* `World.ub` is raised where the code reads through storage it has already given
  up or never had (an index equal to the size of `frames_`, a frame context used
  after `frames_.clear ()`, a null allocator, command list, pipeline or device
  that it calls through).  Where that happens in `present`, the model ends the
  call there.
* The swapchain's current backbuffer index moves only when the swapchain itself
  presents, so every read of it during one call into this file gives one value.
* Counts and sizes are `Int` or `Nat`.  Where the code computes in 32 bits and
  the result is kept (the over-allocated buffer sizes, the two offsets of the
  render loop, the descriptor offsets, the row pitches of the copy hook) the
  model wraps with `wrapINT` / `wrapUINT` / `wrapUINT64`; the tracked fence
  value is a 64-bit counter that starts at zero and grows by one per signal, and
  is kept unbounded.
* The `float` arithmetic of the vertex colour transform is IEEE 754 binary32
  with every operation rounded once, to nearest, ties to even (`f32round`).
-/

namespace SKD3D12

/-- Identity of a COM object. -/
abbrev Handle := Nat

/-- Values of the `DXGI_FORMAT` enumeration. -/
abbrev DXGI_FORMAT := Nat

/-- The enumerator `DXGI_FORMAT_UNKNOWN`. -/
def DXGI_FORMAT_UNKNOWN : DXGI_FORMAT := 0

/-- The enumerator `DXGI_FORMAT_R16G16B16A16_FLOAT`. -/
def DXGI_FORMAT_R16G16B16A16_FLOAT : DXGI_FORMAT := 10

/-- The constant `DXGI_MAX_SWAP_CHAIN_BUFFERS`. -/
def DXGI_MAX_SWAP_CHAIN_BUFFERS : Nat := 16

/-- The value an `int` (`INT`) variable holds after a result `n` of 32-bit signed
arithmetic is stored in it: `n` itself when it is representable, its two's
complement wrap otherwise (what the targeted compiler produces). -/
def wrapINT (n : Int) : Int :=
  (n + 2 ^ 31) % 2 ^ 32 - 2 ^ 31

/-- The value a `UINT` holds after a result `n` of unsigned 32-bit arithmetic. -/
def wrapUINT (n : Nat) : Nat :=
  n % 2 ^ 32

/-- The value a `SIZE_T` or `UINT64` holds after a result `n` of unsigned 64-bit
arithmetic (the file builds for 64-bit targets only). -/
def wrapUINT64 (n : Nat) : Nat :=
  n % 2 ^ 64

/-- A scissor rectangle (`D3D12_RECT`). -/
structure D3D12_RECT where
  left : Int
  top : Int
  right : Int
  bottom : Int
deriving DecidableEq, Repr

/-- The enumerator `DXGI_FORMAT_R16G16B16A16_TYPELESS`. -/
def DXGI_FORMAT_R16G16B16A16_TYPELESS : DXGI_FORMAT := 9

/-- The enumerator `D3D12_RESOURCE_DIMENSION_BUFFER`. -/
def D3D12_RESOURCE_DIMENSION_BUFFER : Nat := 1

/-- The enumerator `D3D12_RESOURCE_DIMENSION_TEXTURE2D`. -/
def D3D12_RESOURCE_DIMENSION_TEXTURE2D : Nat := 3

/-- The enumerator `D3D12_COMMAND_LIST_TYPE_DIRECT`. -/
def D3D12_COMMAND_LIST_TYPE_DIRECT : Nat := 0

/-- The fields of `D3D12_RESOURCE_DESC` the copy hooks read. -/
structure D3D12_RESOURCE_DESC where
  Dimension : Nat
  Width : Nat
  Height : Nat
  Format : DXGI_FORMAT
deriving DecidableEq, Repr

/-- The structure `D3D12_SUBRESOURCE_FOOTPRINT`. -/
structure D3D12_SUBRESOURCE_FOOTPRINT where
  Format : DXGI_FORMAT
  Width : Nat
  Height : Nat
  Depth : Nat
  RowPitch : Nat
deriving DecidableEq, Repr

/-- The structure `D3D12_TEXTURE_COPY_LOCATION`, with a live resource as the API
asks for.  `SubresourceIndex` and the placed footprint share storage in the
source; the hook reads both whatever the `Type` field (`LocationType`) says, and the model keeps one field
for each, so every combination of values is covered. -/
structure D3D12_TEXTURE_COPY_LOCATION where
  pResource : Handle
  LocationType : Nat
  SubresourceIndex : Nat
  Offset : Nat
  Footprint : D3D12_SUBRESOURCE_FOOTPRINT
deriving DecidableEq, Repr

/-- The structure `D3D12_BOX`. -/
structure D3D12_BOX where
  left : Nat
  top : Nat
  front : Nat
  right : Nat
  bottom : Nat
  back : Nat
deriving DecidableEq, Repr

/-- Calls on an `ID3D12GraphicsCommandList`, with the arguments the claims look at. -/
inductive Cmd where
  | SetPipelineState (pPipelineState : Option Handle)
  | DrawInstanced (VertexCountPerInstance InstanceCount StartVertexLocation
      StartInstanceLocation : Nat)
  | DrawIndexedInstanced (IndexCountPerInstance InstanceCount StartIndexLocation : Nat)
      (BaseVertexLocation : Int) (StartInstanceLocation : Nat)
  | ExecuteIndirect (pCommandSignature : Option Handle) (MaxCommandCount : Nat)
      (pArgumentBuffer : Option Handle) (ArgumentBufferOffset : Nat)
      (pCountBuffer : Option Handle) (CountBufferOffset : Nat)
  | SetGraphicsRootSignature (pRootSignature : Option Handle)
  | SetGraphicsRoot32BitConstants (RootParameterIndex Num32BitValues : Nat)
  | SetGraphicsRootDescriptorTable (RootParameterIndex BaseDescriptor : Nat)
  | OMSetRenderTargets (hRenderOutput : Nat)
  | OMSetBlendFactor
  | SetDescriptorHeaps (pHeap : Option Handle)
  | RSSetViewports
  | RSSetScissorRects (r : D3D12_RECT)
  | IASetVertexBuffers (pBuffer : Option Handle) (SizeInBytes : Int)
  | IASetIndexBuffer (pBuffer : Option Handle) (SizeInBytes : Int)
  | IASetPrimitiveTopology (strip : Bool)
  | ResourceBarrier (count : Nat)
  | CopyResource (pDst pSrc : Option Handle)
  | CopyTextureRegion (pDst : D3D12_TEXTURE_COPY_LOCATION) (DstX DstY DstZ : Nat)
      (pSrc : D3D12_TEXTURE_COPY_LOCATION) (pSrcBox : Option D3D12_BOX)
  | SetPredication
  | UserCallback (id : Nat)
deriving DecidableEq, Repr

/-- What leaves the process: recorded commands, queue submissions, fence traffic,
object creation and teardown, and the hand-over of a texture to the dumper
(`SK_D3D12_CopyTexRegion_Dump`, a collaborator). -/
inductive Event where
  | call (This : Handle) (c : Cmd)
  | AllocatorReset (iBufferIdx : Nat)
  | CmdListReset (iBufferIdx : Nat) (ok : Bool)
  | Close (iBufferIdx : Nat) (ok : Bool)
  | ExecuteCommandLists (iBufferIdx : Nat) (pCmdList : Option Handle)
  | Signal (iBufferIdx : Nat) (pFence : Option Handle) (value : Nat) (ok : Bool)
  | SetEventOnCompletion (iBufferIdx : Nat) (value : Nat) (ok : Bool)
  | Wait (iBufferIdx : Nat)
  | Create (what : String) (ok : Bool)
  | SelectFrame (swapIdx : Nat)
  | Release
  | Dump (This : Handle) (pResource : Handle)
deriving DecidableEq, Repr

/-- The fence of a frame context (`FrameCtx::FenceCtx`): the fence object, the
value last signalled from the CPU side, and the wait handle.  `value` is a
`UINT64` that grows by one or two per presented frame, so it is kept as a
natural number. -/
structure FenceCtx where
  p : Option Handle
  value : Nat
  event : Option Handle
deriving DecidableEq, Repr

/-- The HDR side channel of a frame context.  `copyFormat` is the format the
copy buffer was created with (what `GetDesc ().Format` reports). -/
structure HdrCtx where
  pSwapChainCopy : Option Handle
  copyFormat : DXGI_FORMAT
  hSwapChainCopy_CPU : Nat
  hSwapChainCopy_GPU : Nat
  hBufferCopy_CPU : Nat
  hBufferCopy_GPU : Nat
  vpWidth : Nat
  vpHeight : Nat
  scissorRight : Nat
  scissorBottom : Nat
deriving DecidableEq, Repr

/-- One swapchain backbuffer slot (`SK_D3D12_RenderCtx::FrameCtx`).  `pRoot` tells
whether the back-reference to the manager is set. -/
structure FrameCtx where
  pRoot : Bool
  fence : FenceCtx
  pCmdList : Option Handle
  pCmdAllocator : Option Handle
  bCmdListRecording : Bool
  pRenderOutput : Option Handle
  hRenderOutput : Nat
  iBufferIdx : Nat
  hdr : HdrCtx
deriving DecidableEq, Repr

/-- The four descriptor heaps of the manager. -/
structure DescriptorHeaps where
  pBackBuffers : Option Handle
  pImGui : Option Handle
  pHDR : Option Handle
  pHDR_CopyAssist : Option Handle
deriving DecidableEq, Repr

/-- The device / queue lifecycle manager (`SK_D3D12_RenderCtx`, the global
`_d3d12_rbk`).  `frame_delay` is the atomic cooldown counter. -/
structure SK_D3D12_RenderCtx where
  _pDevice : Option Handle
  _pCommandQueue : Option Handle
  _pSwapChain : Option Handle
  pHDRPipeline : Option Handle
  pHDRSignature : Option Handle
  descriptorHeaps : DescriptorHeaps
  frames_ : List FrameCtx
  frame_delay : Int
deriving DecidableEq, Repr

/-- An upload buffer with its capacity in elements (`FrameHeap::buffer_s`). -/
structure buffer_s where
  p : Option Handle
  size : Int
deriving DecidableEq, Repr

/-- The vertex and index upload buffers of one slot. -/
structure FrameHeap where
  Vb : buffer_s
  Ib : buffer_s
deriving DecidableEq, Repr

/-- The UI translator context (`SK_ImGui_D3D12Ctx`, the global `_imgui_d3d12`).
`frame_heaps` has `DXGI_MAX_SWAP_CHAIN_BUFFERS` entries. -/
structure SK_ImGui_D3D12Ctx where
  pDevice : Option Handle
  pRootSignature : Option Handle
  pPipelineState : Option Handle
  RTVFormat : DXGI_FORMAT
  pFontTexture : Option Handle
  hFontSrvCpuDescHandle : Nat
  hFontSrvGpuDescHandle : Nat
  hWndSwapChain : Nat
  frame_heaps : List FrameHeap
deriving DecidableEq, Repr

/-- The process-wide state: the two globals, the private data attached to
objects under `SKID_D3D12DisablePipelineState`, `SKID_D3D12LastFrameUsed` and
`SKID_D3D12KnownVtxShaderDigest`, what was handed to
`SK_D3D12_AddMissingPipelineState`, the set `_criticalVertexShaders`, whether the
draw and copy hooks are in the method table, the two `SK_RunOnce` flags of the
critical-pipeline registrations, the `ub` mark and the trace. -/
structure World where
  rbk : SK_D3D12_RenderCtx
  imgui : SK_ImGui_D3D12Ctx
  disable : List (Handle × Bool)
  lastFrameUsed : List (Handle × Nat)
  knownVtxShader : List Handle
  missingPipelines : List Handle
  criticalVertexShaders : List Handle
  drawHooks : Bool
  copyHooks : Bool
  uiCriticalOnce : Bool
  hdrCriticalOnce : Bool
  ub : Bool
  trace : List Event
deriving DecidableEq, Repr

/-- Append events to the trace. -/
def World.emit (w : World) (es : List Event) : World :=
  { w with trace := w.trace ++ es }

/-- The result of `GetPrivateData (SKID_D3D12DisablePipelineState, ...)` on an
object: `none` when the call fails (nothing stored under the key). -/
def World.getDisable (w : World) (obj : Handle) : Option Bool :=
  w.disable.lookup obj

/-- The effect of `SetPrivateData (SKID_D3D12DisablePipelineState, sizeof (bool), &b)`. -/
def World.setDisable (w : World) (obj : Handle) (b : Bool) : World :=
  { w with disable := (obj, b) :: w.disable }

/-- The calls that reached command list `This`, oldest first. -/
def callsOn (This : Handle) : List Event → List Cmd
  | [] => []
  | Event.call t c :: es => if t = This then c :: callsOn This es else callsOn This es
  | _ :: es => callsOn This es

/-- What the `SetPipelineState` hook asks of its surroundings: whether
`This->GetDevice` succeeds, and the frame counter `SK_GetFramesDrawn ()`. -/
structure HookEnv where
  getDeviceOk : Bool
  framesDrawn : Nat
deriving DecidableEq, Repr

/-- The function `D3D12GraphicsCommandList_SetPipelineState_Detour`. -/
def D3D12GraphicsCommandList_SetPipelineState_Detour (w : World) (e : HookEnv)
    (This : Handle) (pPipelineState : Option Handle) : World :=
  let w1 :=
    match pPipelineState with
    | none => w
    | some pso =>
      let wa :=
        if pso ∈ w.knownVtxShader then w
        else if e.getDeviceOk then { w with missingPipelines := w.missingPipelines ++ [pso] }
        else w
      let wb := { wa with lastFrameUsed := (pso, e.framesDrawn) :: wa.lastFrameUsed }
      let disable := (wb.getDisable pso).getD false
      wb.setDisable This disable
  w1.emit [Event.call This (Cmd.SetPipelineState pPipelineState)]

/-- The function `D3D12GraphicsCommandList_DrawInstanced_Detour`. -/
def D3D12GraphicsCommandList_DrawInstanced_Detour (w : World) (This : Handle)
    (VertexCountPerInstance InstanceCount StartVertexLocation StartInstanceLocation : Nat) :
    World :=
  match w.getDisable This with
  | some true => w
  | _ => w.emit [Event.call This (Cmd.DrawInstanced VertexCountPerInstance InstanceCount
           StartVertexLocation StartInstanceLocation)]

/-- The function `D3D12GraphicsCommandList_DrawIndexedInstanced_Detour`. -/
def D3D12GraphicsCommandList_DrawIndexedInstanced_Detour (w : World) (This : Handle)
    (IndexCountPerInstance InstanceCount StartIndexLocation : Nat) (BaseVertexLocation : Int)
    (StartInstanceLocation : Nat) : World :=
  match w.getDisable This with
  | some true => w
  | _ => w.emit [Event.call This (Cmd.DrawIndexedInstanced IndexCountPerInstance InstanceCount
           StartIndexLocation BaseVertexLocation StartInstanceLocation)]

/-- The function `D3D12GraphicsCommandList_ExecuteIndirect_Detour`. -/
def D3D12GraphicsCommandList_ExecuteIndirect_Detour (w : World) (This : Handle)
    (pCommandSignature : Option Handle) (MaxCommandCount : Nat)
    (pArgumentBuffer : Option Handle) (ArgumentBufferOffset : Nat)
    (pCountBuffer : Option Handle) (CountBufferOffset : Nat) : World :=
  match w.getDisable This with
  | some true => w
  | _ => w.emit [Event.call This (Cmd.ExecuteIndirect pCommandSignature MaxCommandCount
           pArgumentBuffer ArgumentBufferOffset pCountBuffer CountBufferOffset)]

/-- The function `_InitDrawCommandHooks`: the four detours replace the entries
of the command-list method table. -/
def _InitDrawCommandHooks (w : World) : World :=
  { w with drawHooks := true }

/-- The function `_InitCopyTextureRegionHook`. -/
def _InitCopyTextureRegionHook (w : World) : World :=
  { w with copyHooks := true }

/-- A call `ctx->SetPipelineState (pso)` made by this file: through the detour once
the hooks are in the method table, straight to the command list before. -/
def callSetPipelineState (w : World) (e : HookEnv) (This : Handle)
    (pPipelineState : Option Handle) : World :=
  if w.drawHooks then D3D12GraphicsCommandList_SetPipelineState_Detour w e This pPipelineState
  else w.emit [Event.call This (Cmd.SetPipelineState pPipelineState)]

/-- A call `ctx->DrawInstanced (...)` made by this file. -/
def callDrawInstanced (w : World) (This : Handle) (a b c d : Nat) : World :=
  if w.drawHooks then D3D12GraphicsCommandList_DrawInstanced_Detour w This a b c d
  else w.emit [Event.call This (Cmd.DrawInstanced a b c d)]

/-- A call `ctx->DrawIndexedInstanced (...)` made by this file. -/
def callDrawIndexedInstanced (w : World) (This : Handle) (a b c : Nat) (d : Int) (f : Nat) :
    World :=
  if w.drawHooks then D3D12GraphicsCommandList_DrawIndexedInstanced_Detour w This a b c d f
  else w.emit [Event.call This (Cmd.DrawIndexedInstanced a b c d f)]

/-- The method `SK_ComPtr::IsEqualObject`: two pointers are equal objects when
both are null or both name the same COM identity. -/
def IsEqualObject (a b : Option Handle) : Bool :=
  a == b

/-- The function `SK_ValidatePointer` on a stored pointer: a null pointer is never
valid, another one is valid when the operating system says so. -/
def SK_ValidatePointer (p : Option Handle) (osSaysValid : Bool) : Bool :=
  p.isSome && osSaysValid

/-- The method `FrameCtx::begin_cmd_list`; `resetOk` is the result of
`pCmdList->Reset`. -/
def FrameCtx.begin_cmd_list (w : World) (e : HookEnv) (fr : FrameCtx)
    (state : Option Handle) (resetOk : Bool) : Bool × World × FrameCtx :=
  match fr.pCmdList with
  | none => (false, { w with ub := true }, fr)
  | some This =>
    if fr.bCmdListRecording then
      match state with
      | none => (true, w, fr)
      | some s => (true, callSetPipelineState w e This (some s), fr)
    else
      let w1 := w.emit [Event.CmdListReset fr.iBufferIdx resetOk]
      if resetOk then
        (true, w1.emit [Event.call This Cmd.SetPredication],
          { fr with bCmdListRecording := true })
      else (false, w1, { fr with bCmdListRecording := false })

/-- The body of `FrameCtx::exec_cmd_list` up to, and without, its call of
`release`: the frame afterwards, what reached the queue, and whether the
else-branch (`_d3d12_rbk->release (pRoot->_pSwapChain.p)`) is taken.  `closeOk`
is the result of `pCmdList->Close`, `currentIdx` that of
`GetCurrentBackBufferIndex`. -/
def FrameCtx.exec_cmd_list_core (fr : FrameCtx) (closeOk : Bool) (currentIdx : Nat) :
    FrameCtx × List Event × Bool :=
  if closeOk then
    if currentIdx = fr.iBufferIdx then
      ({ fr with bCmdListRecording := false },
        [Event.Close fr.iBufferIdx true, Event.ExecuteCommandLists fr.iBufferIdx fr.pCmdList],
        false)
    else
      ({ fr with bCmdListRecording := false }, [Event.Close fr.iBufferIdx true], true)
  else (fr, [Event.Close fr.iBufferIdx false], false)

/-- The body of `FrameCtx::wait_for_gpu`, with `exec_cmd_list_core` for its flush.
The last component tells that the flush asked for `release`; the frame context
is destroyed by it and the rest of the method is not followed. -/
def FrameCtx.wait_for_gpu_core (fr : FrameCtx) (closeOk signalOk setEventOk : Bool)
    (currentIdx : Nat) : Bool × FrameCtx × List Event × Bool :=
  let flushed :=
    if fr.bCmdListRecording then fr.exec_cmd_list_core closeOk currentIdx
    else (fr, [], false)
  let fr1 := flushed.1
  let es1 := flushed.2.1
  if flushed.2.2 then (false, fr1, es1, true)
  else
    let sync_value := fr1.fence.value + 1
    if fr1.fence.event.isNone then (false, fr1, es1, false)
    else if signalOk then
      (true, { fr1 with fence := { fr1.fence with value := sync_value } },
        es1 ++ [Event.Signal fr1.iBufferIdx fr1.fence.p sync_value true,
                Event.SetEventOnCompletion fr1.iBufferIdx sync_value setEventOk]
            ++ (if setEventOk then [Event.Wait fr1.iBufferIdx] else []),
        false)
    else (false, fr1, es1 ++ [Event.Signal fr1.iBufferIdx fr1.fence.p sync_value false], false)

/-- Results of the calls a frame context destructor makes.  The swapchain index
moves only when the swapchain itself presents, so one value serves every read
during one call into this file. -/
structure DtorEnv where
  currentIdx : Nat
  closeOk : Bool
  signalOk : Bool
  setEventOk : Bool
deriving DecidableEq, Repr

/-- The destructor `FrameCtx::~FrameCtx`: the storage it leaves and what reached
the queue.  `swapChainValid` is `SK_ValidatePointer (pRoot->_pSwapChain, true)`.
Its flush cannot ask for `release` (see `destroy_flush_no_release`), so that
component is dropped. -/
def FrameCtx.destroy (fr : FrameCtx) (swapChainValid : Bool) (e : DtorEnv) :
    FrameCtx × List Event :=
  let fr0 :=
    if !fr.pRoot || !swapChainValid || e.currentIdx != fr.iBufferIdx then
      { fr with bCmdListRecording := false }
    else fr
  let waited := fr0.wait_for_gpu_core e.closeOk e.signalOk e.setEventOk e.currentIdx
  let fr1 := waited.2.1
  ({ fr1 with pCmdList := none, pCmdAllocator := none, bCmdListRecording := false,
              pRenderOutput := none, hdr := { fr1.hdr with pSwapChainCopy := none },
              fence := { p := none, value := 0, event := none } },
   waited.2.2.1)

/-- Destroy a run of frame contexts, first to last; `pos` is the position of the
first one in `frames_`. -/
def destroyFrames (swapChainValid : Bool) (e : Nat → DtorEnv) :
    Nat → List FrameCtx → List Event
  | _, [] => []
  | pos, fr :: rest =>
    (fr.destroy swapChainValid (e pos)).2 ++ destroyFrames swapChainValid e (pos + 1) rest

/-- An upload buffer after `Release ()` with its size cleared. -/
def buffer_s.empty : buffer_s := { p := none, size := 0 }

/-- The function `ImGui_ImplDX12_InvalidateDeviceObjects`. -/
def ImGui_ImplDX12_InvalidateDeviceObjects (w : World) : World :=
  if w.imgui.pDevice.isNone then w
  else
    { w with imgui :=
        { w.imgui with
            pRootSignature := none, pPipelineState := none, pFontTexture := none,
            frame_heaps :=
              w.imgui.frame_heaps.map (fun _ => { Vb := buffer_s.empty, Ib := buffer_s.empty }) } }

/-- The function `ImGui_ImplDX12_Shutdown`. -/
def ImGui_ImplDX12_Shutdown (w : World) : World :=
  let w1 := ImGui_ImplDX12_InvalidateDeviceObjects w
  { w1 with imgui :=
      { w1.imgui with pDevice := none, hFontSrvCpuDescHandle := 0, hFontSrvGpuDescHandle := 0 } }

/-- Results of the calls `release` makes: the two `SK_ValidatePointer` answers and
the destructor inputs, by position in `frames_`.  The answer for the device
only decides whether its reference is dropped or abandoned; the pointer is null
afterwards either way. -/
structure ReleaseEnv where
  swapChainValid : Bool
  deviceValid : Bool
  dtor : Nat → DtorEnv

/-- The method `SK_D3D12_RenderCtx::release`.  `SK_D3D12_EndFrame` belongs to a
collaborator and owns no state of this file. -/
def SK_D3D12_RenderCtx.release (w : World) (pSwapChain : Option Handle) (e : ReleaseEnv) :
    World :=
  if (w.rbk._pSwapChain.isSome && pSwapChain.isNone)
      || IsEqualObject w.rbk._pSwapChain pSwapChain then
    let w1 := ImGui_ImplDX12_Shutdown w
    let sc := if SK_ValidatePointer w1.rbk._pSwapChain e.swapChainValid
              then w1.rbk._pSwapChain else none
    let es := destroyFrames sc.isSome e.dtor 0 w1.rbk.frames_
    { w1 with
        rbk :=
          { w1.rbk with
              _pDevice := none, _pSwapChain := none,
              pHDRPipeline := none, pHDRSignature := none,
              descriptorHeaps :=
                { w1.rbk.descriptorHeaps with pBackBuffers := none, pImGui := none, pHDR := none },
              frames_ := [] },
        trace := w1.trace ++ (Event.Release :: es) }
  else w

/-- The method `FrameCtx::exec_cmd_list` for the frame context at position `pos`
of `frames_`, held in `fr`: the world afterwards, the frame context, and whether
`release` ran (the frame context is then the destroyed one and must not be used). -/
def FrameCtx.exec_cmd_list (w : World) (pos : Nat) (fr : FrameCtx) (closeOk : Bool)
    (currentIdx : Nat) (re : ReleaseEnv) : World × FrameCtx × Bool :=
  let r := fr.exec_cmd_list_core closeOk currentIdx
  let w1 := w.emit r.2.1
  if r.2.2 then
    let w2 := { w1 with rbk := { w1.rbk with frames_ := w1.rbk.frames_.set pos r.1 } }
    (SK_D3D12_RenderCtx.release w2 w2.rbk._pSwapChain re,
      (r.1.destroy (SK_ValidatePointer w2.rbk._pSwapChain re.swapChainValid) (re.dtor pos)).1,
      true)
  else (w1, r.1, false)

/-- The method `FrameCtx::wait_for_gpu` for the frame context at position `pos`:
result, world, frame context, and whether `release` ran inside the flush.  In
that case the method goes on reading its own, destroyed, frame context. -/
def FrameCtx.wait_for_gpu (w : World) (pos : Nat) (fr : FrameCtx)
    (closeOk signalOk setEventOk : Bool) (currentIdx : Nat) (re : ReleaseEnv) :
    Bool × World × FrameCtx × Bool :=
  let r := fr.wait_for_gpu_core closeOk signalOk setEventOk currentIdx
  let w1 := w.emit r.2.2.1
  if r.2.2.2 then
    let w2 := { w1 with rbk := { w1.rbk with frames_ := w1.rbk.frames_.set pos r.2.1 } }
    (false, { SK_D3D12_RenderCtx.release w2 w2.rbk._pSwapChain re with ub := true },
      (r.2.1.destroy (SK_ValidatePointer w2.rbk._pSwapChain re.swapChainValid) (re.dtor pos)).1,
      true)
  else (r.1, w1, r.2.1, false)

/-- Results of the calls `init` makes, in the order of the source: the device
behind the queue, the swapchain description, the four descriptor heaps, the
objects of each frame context (by buffer index), the HDR root signature and
pipeline, and the device objects of the UI translator.  `freshFrame` is a
value-initialised `FrameCtx`, as `frames_.resize` makes them; `dtor` and
`dtorSwapChainValid` serve the destructors `resize` runs when it shrinks. -/
structure InitEnv where
  queueDevice : Option Handle
  BufferCount : Nat
  Format : DXGI_FORMAT
  Width : Nat
  Height : Nat
  hWnd : Nat
  heapImGui : Option Handle
  heapHDR : Option Handle
  heapHDR_CopyAssist : Option Handle
  heapBackBuffers : Option Handle
  rtvDescriptorSize : Nat
  srvDescriptorSize : Nat
  rtvHeapStart : Nat
  hdrCpuStart : Nat
  hdrGpuStart : Nat
  copyAssistCpuStart : Nat
  copyAssistGpuStart : Nat
  imguiCpuStart : Nat
  imguiGpuStart : Nat
  fence : Nat → Option Handle
  allocator : Nat → Option Handle
  hasDevice4 : Bool
  cmdList : Nat → Option Handle
  cmdListCloseOk : Nat → Bool
  buffer : Nat → Option Handle
  copy : Nat → Option Handle
  event : Nat → Option Handle
  serializeOk : Bool
  hdrSignature : Option Handle
  hdrPipeline : Option Handle
  uiSerializeOk : Bool
  uiRootSignature : Option Handle
  uiPipelineState : Option Handle
  uiFontTexture : Option Handle
  freshFrame : FrameCtx
  dtorSwapChainValid : Bool
  dtor : Nat → DtorEnv

/-- The trace entry of one creation call. -/
def created (what : String) (r : Option Handle) : Event :=
  Event.Create what r.isSome

/-- The call `frames_.resize (n)`: surplus frame contexts are destroyed, missing
ones are value-initialised. -/
def resizeFrames (frs : List FrameCtx) (n : Nat) (e : InitEnv) : List FrameCtx × List Event :=
  (frs.take n ++ List.replicate (n - frs.length) e.freshFrame,
   destroyFrames e.dtorSwapChainValid e.dtor n (frs.drop n))

/-- One turn of the loop over `frames_` in `init`, for buffer index `i`: whether
the turn ran to its end (no `ThrowIfFailed` fired), the frame context as the
turn leaves it, and the creation calls made.  A descriptor handle is the heap
start plus the 32-bit product of buffer index and increment size, in 64 bits. -/
def initFrame (e : InitEnv) (i : Nat) (fr : FrameCtx) : Bool × FrameCtx × List Event :=
  let f1 := { fr with iBufferIdx := i, fence := { fr.fence with p := e.fence i } }
  let e1 := [created "Fence" (e.fence i)]
  if (e.fence i).isNone then (false, f1, e1)
  else
    let f2 := { f1 with pCmdAllocator := e.allocator i }
    let e2 := e1 ++ [created "CommandAllocator" (e.allocator i)]
    if (e.allocator i).isNone then (false, f2, e2)
    else
      let f3 := { f2 with pCmdList := e.cmdList i }
      let e3 := e2 ++ [created "CommandList" (e.cmdList i)]
      if (e.cmdList i).isNone then (false, f3, e3)
      else if !e.hasDevice4 && !e.cmdListCloseOk i then (false, f3, e3)
      else
        let f4 := { f3 with pRenderOutput := e.buffer i }
        if (e.buffer i).isNone then (false, f4, e3)
        else
          let f5 := { f4 with hRenderOutput := wrapUINT64 (e.rtvHeapStart + wrapUINT (i * e.rtvDescriptorSize)),
                              hdr := { f4.hdr with pSwapChainCopy := e.copy i } }
          let e5 := e3 ++ [created "HDR Copy Buffer" (e.copy i)]
          if (e.copy i).isNone then (false, f5, e5)
          else
            (true,
              { f5 with
                  hdr := { pSwapChainCopy := e.copy i, copyFormat := e.Format,
                           hSwapChainCopy_CPU :=
                             wrapUINT64 (e.hdrCpuStart + wrapUINT (e.srvDescriptorSize * i)),
                           hSwapChainCopy_GPU :=
                             wrapUINT64 (e.hdrGpuStart + wrapUINT (e.srvDescriptorSize * i)),
                           hBufferCopy_CPU :=
                             wrapUINT64 (e.copyAssistCpuStart + wrapUINT (e.srvDescriptorSize * i)),
                           hBufferCopy_GPU :=
                             wrapUINT64 (e.copyAssistGpuStart + wrapUINT (e.srvDescriptorSize * i)),
                           vpWidth := e.Width, vpHeight := e.Height,
                           scissorRight := e.Width, scissorBottom := e.Height },
                  pRoot := true,
                  fence := { p := e.fence i, value := 0, event := e.event i },
                  bCmdListRecording := false },
              e5)

/-- The loop `for ( auto& frame : frames_ )` of `init`, from buffer index `i`
on: it stops at the first turn that throws and leaves the later frame contexts
as they were. -/
def initFrames (e : InitEnv) : Nat → List FrameCtx → Bool × List FrameCtx × List Event
  | _, [] => (true, [], [])
  | i, fr :: rest =>
    let r := initFrame e i fr
    if r.1 then
      let rs := initFrames e (i + 1) rest
      (rs.1, r.2.1 :: rs.2.1, r.2.2 ++ rs.2.2)
    else (false, r.2.1 :: rest, r.2.2)

/-- The function `ImGui_ImplDX12_Init` (it always returns true). -/
def ImGui_ImplDX12_Init (w : World) (device : Option Handle) (rtv_format : DXGI_FORMAT)
    (font_srv_cpu_desc_handle font_srv_gpu_desc_handle hwnd : Nat) : World :=
  { w with imgui :=
      { w.imgui with
          pDevice := device, RTVFormat := rtv_format,
          hFontSrvCpuDescHandle := font_srv_cpu_desc_handle,
          hFontSrvGpuDescHandle := font_srv_gpu_desc_handle,
          hWndSwapChain := hwnd,
          frame_heaps :=
            w.imgui.frame_heaps.map
              (fun _ => { Vb := { p := none, size := 25000 }, Ib := { p := none, size := 50000 } }) } }

/-- The function `ImGui_ImplDX12_CreateDeviceObjects`.  The font texture upload
(`ImGui_ImplDX12_CreateFontsTexture`) swallows its own failures. -/
def ImGui_ImplDX12_CreateDeviceObjects (w : World) (e : InitEnv) : Bool × World :=
  if w.imgui.pDevice.isNone then (false, w)
  else
    let w1 := if w.imgui.pPipelineState.isSome then ImGui_ImplDX12_InvalidateDeviceObjects w else w
    if !e.uiSerializeOk then (false, w1)
    else
      let w2 := ({ w1 with imgui := { w1.imgui with pRootSignature := e.uiRootSignature } }).emit
                  [created "ImGui Root Signature" e.uiRootSignature]
      if e.uiRootSignature.isNone then (false, w2)
      else
        let w3 := ({ w2 with imgui := { w2.imgui with pPipelineState := e.uiPipelineState } }).emit
                    [created "ImGui Pipeline State" e.uiPipelineState]
        if e.uiPipelineState.isNone then (false, w3)
        else
          (true,
            ({ w3 with imgui :=
                { w3.imgui with
                    pFontTexture :=
                      if e.uiFontTexture.isSome then e.uiFontTexture else w3.imgui.pFontTexture } }).emit
              [created "ImGui FontTexture" e.uiFontTexture])

/-- The four `CreateDescriptorHeap` calls of `init`, in order, up to the first
that fails: whether all went through, the heap pointers afterwards, and the
creation calls made. -/
def createHeaps (h : DescriptorHeaps) (e : InitEnv) : Bool × DescriptorHeaps × List Event :=
  let h1 := { h with pImGui := e.heapImGui }
  let e1 := [created "ImGui Descriptor Heap" e.heapImGui]
  if e.heapImGui.isNone then (false, h1, e1)
  else
    let h2 := { h1 with pHDR := e.heapHDR }
    let e2 := e1 ++ [created "HDR Descriptor Heap" e.heapHDR]
    if e.heapHDR.isNone then (false, h2, e2)
    else
      let h3 := { h2 with pHDR_CopyAssist := e.heapHDR_CopyAssist }
      let e3 := e2 ++ [created "HDR Copy Descriptor Heap" e.heapHDR_CopyAssist]
      if e.heapHDR_CopyAssist.isNone then (false, h3, e3)
      else
        (e.heapBackBuffers.isSome, { h3 with pBackBuffers := e.heapBackBuffers },
          e3 ++ [created "Backbuffer Descriptor Heap" e.heapBackBuffers])

/-- The HDR root signature and pipeline state of `init`: whether both were
made, the two pointers afterwards (starting from `sig` and `pipe`), and the
creation calls made. -/
def createHDR (sig pipe : Option Handle) (e : InitEnv) :
    Bool × Option Handle × Option Handle × List Event :=
  if !e.serializeOk then (false, sig, pipe, [])
  else if e.hdrSignature.isNone then
    (false, none, pipe, [created "HDR Root Signature" none])
  else
    (e.hdrPipeline.isSome, e.hdrSignature, e.hdrPipeline,
      [created "HDR Root Signature" e.hdrSignature, created "HDR Pipeline State" e.hdrPipeline])

/-- The `try` block of `init` after `frames_.resize`, up to the UI translator:
the descriptor heaps, the frame contexts, the HDR root signature and pipeline.
The first component tells that no `ThrowIfFailed` fired. -/
def createManagerObjects (w : World) (e : InitEnv) : Bool × World :=
  let hs := createHeaps w.rbk.descriptorHeaps e
  let w1 := ({ w with rbk := { w.rbk with descriptorHeaps := hs.2.1 } }).emit hs.2.2
  if !hs.1 then (false, w1)
  else
    let fs := initFrames e 0 w1.rbk.frames_
    let w2 := ({ w1 with rbk := { w1.rbk with frames_ := fs.2.1 } }).emit fs.2.2
    if !fs.1 then (false, w2)
    else
      let hd := createHDR w2.rbk.pHDRSignature w2.rbk.pHDRPipeline e
      (hd.1, ({ w2 with rbk := { w2.rbk with pHDRSignature := hd.2.1,
                                             pHDRPipeline := hd.2.2.1 } }).emit hd.2.2.2)

/-- The whole `try` block of `init`: the manager's objects, then
`ImGui_ImplDX12_Init` and `ImGui_ImplDX12_CreateDeviceObjects`, whose result is
not looked at. -/
def initCreate (w : World) (e : InitEnv) : Bool × World :=
  let m := createManagerObjects w e
  if !m.1 then (false, m.2)
  else
    (true, (ImGui_ImplDX12_CreateDeviceObjects
              (ImGui_ImplDX12_Init m.2 m.2.rbk._pDevice e.Format
                e.imguiCpuStart e.imguiGpuStart e.hWnd) e).2)

/-- The cooldown of `init`: `frame_delay.fetch_sub (1) > 0` on the counter `n`
gives whether the call is turned away, and the counter left behind (the
decrement when it is, the `exchange (0)` when it is not). -/
def cooldown (n : Int) : Bool × Int :=
  if n > 0 then (true, n - 1) else (false, 0)

/-- The device resolution of `init`: with no device yet, a queue at hand and
`GetDevice` succeeding, the device and the swapchain argument are stored. -/
def resolveDevice (w : World) (pSwapChain : Option Handle) (e : InitEnv) : World :=
  if w.rbk._pDevice.isNone && (w.rbk._pCommandQueue.isSome && e.queueDevice.isSome) then
    { w with rbk := { w.rbk with _pDevice := e.queueDevice, _pSwapChain := pSwapChain } }
  else w

/-- The world after `frames_.resize (swapDesc1.BufferCount)`. -/
def afterResize (w : World) (e : InitEnv) : World :=
  ({ w with rbk := { w.rbk with frames_ := (resizeFrames w.rbk.frames_ e.BufferCount e).1 } }).emit
    (resizeFrames w.rbk.frames_ e.BufferCount e).2

/-- The part of `init` after the cooldown: resolve the device, then create. -/
def initAfterCooldown (w : World) (pSwapChain : Option Handle) (e : InitEnv) : Bool × World :=
  let w1 := resolveDevice w pSwapChain e
  if w1.rbk._pSwapChain.isNone then (false, w1)
  else
    let w2 := afterResize w1 e
    if w2.rbk._pDevice.isNone then (false, { w2 with ub := true })
    else initCreate w2 e

/-- The head of `init`: the queue pointer after
`if (_pCommandQueue.p == nullptr && pCommandQueue != nullptr) _pCommandQueue = pCommandQueue`. -/
def capturedQueue (w : World) (pCommandQueue : Option Handle) : Option Handle :=
  if w.rbk._pCommandQueue.isNone && pCommandQueue.isSome then pCommandQueue
  else w.rbk._pCommandQueue

/-- The world after the first two statements of `init`: the queue captured, the
cooldown counter stepped. -/
def enterInit (w : World) (pCommandQueue : Option Handle) : World :=
  { w with rbk := { w.rbk with _pCommandQueue := capturedQueue w pCommandQueue,
                               frame_delay := (cooldown w.rbk.frame_delay).2 } }

/-- The method `SK_D3D12_RenderCtx::init`. -/
def SK_D3D12_RenderCtx.init (w : World) (pSwapChain pCommandQueue : Option Handle)
    (e : InitEnv) : Bool × World :=
  if (cooldown w.rbk.frame_delay).1 then (false, enterInit w pCommandQueue)
  else initAfterCooldown (enterInit w pCommandQueue) pSwapChain e

/-- A four-component vector of the UI toolkit (`ImVec4`), here over the rationals. -/
structure ImVec4 where
  x : Rat
  y : Rat
  z : Rat
  w : Rat
deriving DecidableEq, Repr

/-- A vertex of the UI toolkit: position, texture coordinate, packed colour. -/
structure ImDrawVert where
  pos : Rat × Rat
  uv : Rat × Rat
  col : Nat
deriving DecidableEq, Repr

/-- A draw command of the UI toolkit (`ImDrawCmd`). -/
structure ImDrawCmd where
  ElemCount : Nat
  ClipRect : ImVec4
  TextureId : Nat
  UserCallback : Option Nat
deriving DecidableEq, Repr

/-- A command list of the UI toolkit (`ImDrawList`). -/
structure ImDrawList where
  CmdBuffer : List ImDrawCmd
  VtxBuffer : List ImDrawVert
  IdxBuffer : List Nat
deriving DecidableEq, Repr

/-- The draw-data payload (`ImDrawData`). -/
structure ImDrawData where
  CmdLists : List ImDrawList
  TotalVtxCount : Int
  TotalIdxCount : Int
deriving DecidableEq, Repr

/-- The conversion `(LONG)` of a coordinate: truncation toward zero. -/
def toLONG (q : Rat) : Int :=
  if 0 ≤ q then Rat.floor q else -Rat.floor (-q)

/-- Results of the calls `ImGui_ImplDX12_RenderDrawData` makes: the two
`Reset`s of `begin_cmd_list`, the drain, the two buffer creations, the two
`Map`s, and what its calls of `release` meet. -/
structure UiEnv where
  hook : HookEnv
  beginResetOk : Bool
  drainCloseOk : Bool
  drainSignalOk : Bool
  drainSetEventOk : Bool
  createVb : Option Handle
  createIb : Option Handle
  mapVbOk : Bool
  mapIbOk : Bool
  rebeginResetOk : Bool
  hdr_display : Bool
  currentIdx : Nat
  release : ReleaseEnv

/-- The entry `_imgui_d3d12.frame_heaps [i]`. -/
def heapAt (w : World) (i : Nat) : FrameHeap :=
  w.imgui.frame_heaps.getD i { Vb := buffer_s.empty, Ib := buffer_s.empty }

/-- Store into `_imgui_d3d12.frame_heaps [i]`. -/
def setHeap (w : World) (i : Nat) (h : FrameHeap) : World :=
  { w with imgui := { w.imgui with frame_heaps := w.imgui.frame_heaps.set i h } }

/-- Store the frame context held in a local back at position `pos` of `frames_`. -/
def storeFrame (w : World) (pos : Nat) (fr : FrameCtx) : World :=
  { w with rbk := { w.rbk with frames_ := w.rbk.frames_.set pos fr } }

/-- The condition `sync_cmd_list` of `ImGui_ImplDX12_RenderDrawData`. -/
def sync_cmd_list (h : FrameHeap) (d : ImDrawData) : Bool :=
  (h.Vb.p.isNone || h.Vb.size < d.TotalVtxCount) ||
  (h.Ib.p.isNone || h.Ib.size < d.TotalIdxCount)

/-- The `try` block that creates or grows the two upload buffers: whether it ran
to its end (no `ThrowIfFailed` fired), the heap as it leaves it, and the
creation calls made.  The over-allocated count `overAlloc` is an `int` sum. -/
def growBuffers (h : FrameHeap) (d : ImDrawData) (e : UiEnv) :
    Bool × FrameHeap × List Event :=
  let v :=
    if h.Vb.p.isNone || h.Vb.size < d.TotalVtxCount then
      match e.createVb with
      | none => (false, { h with Vb := buffer_s.empty }, [created "VertexBuffer" none])
      | some b =>
        (true, { h with Vb := { p := some b, size := wrapINT (d.TotalVtxCount + 5000) } },
          [created "VertexBuffer" (some b)])
    else (true, h, [])
  if !v.1 then v
  else
    let h1 := v.2.1
    if h1.Ib.p.isNone || h1.Ib.size < d.TotalIdxCount then
      match e.createIb with
      | none => (false, { h1 with Ib := buffer_s.empty }, v.2.2 ++ [created "IndexBuffer" none])
      | some b =>
        (true, { h1 with Ib := { p := some b, size := wrapINT (d.TotalIdxCount + 10000) } },
          v.2.2 ++ [created "IndexBuffer" (some b)])
    else (true, h1, v.2.2)

/-- The inner loop of the render stage over the commands of one list, starting
at `idx_offset`: the world and the index offset afterwards.  The counter
`idx_offset` is an `int` that the draw call receives as `UINT`; it is kept here
as that unsigned value, and adding the unsigned `ElemCount` to it is arithmetic
modulo 2^32. -/
def renderCmds (This : Handle) (vtx_offset : Int) : World → Nat → List ImDrawCmd → World × Nat
  | w, idx_offset, [] => (w, idx_offset)
  | w, idx_offset, pcmd :: rest =>
    let w1 :=
      match pcmd.UserCallback with
      | some cb => w.emit [Event.call This (Cmd.UserCallback cb)]
      | none =>
        let r : D3D12_RECT :=
          { left := toLONG (pcmd.ClipRect.x - 0), top := toLONG (pcmd.ClipRect.y - 0),
            right := toLONG (pcmd.ClipRect.z - 0), bottom := toLONG (pcmd.ClipRect.w - 0) }
        let wa := w.emit [Event.call This (Cmd.SetGraphicsRootDescriptorTable 1 pcmd.TextureId),
                          Event.call This (Cmd.RSSetScissorRects r)]
        callDrawIndexedInstanced wa This pcmd.ElemCount 1 idx_offset vtx_offset 0
    renderCmds This vtx_offset w1 (wrapUINT (idx_offset + pcmd.ElemCount)) rest

/-- The outer loop of the render stage over the command lists.  The counter
`vtx_offset` is an `int`. -/
def renderLists (This : Handle) : World → Nat → Int → List ImDrawList → World
  | w, _, _, [] => w
  | w, idx_offset, vtx_offset, l :: rest =>
    let r := renderCmds This vtx_offset w idx_offset l.CmdBuffer
    renderLists This r.1 r.2 (wrapINT (vtx_offset + l.VtxBuffer.length)) rest

/-- The state setup of `ImGui_ImplDX12_RenderDrawData` from
`SetGraphicsRootSignature` to `OMSetBlendFactor`, on command list `This`.  The
`SizeInBytes` of the two buffer views are `UINT`s: the element count times the
element size (32 bytes a vertex, 2 bytes an index), modulo 2^32. -/
def uiSetup (w : World) (e : UiEnv) (This : Handle) (fr : FrameCtx) (h : FrameHeap) : World :=
  let w1 := w.emit [Event.call This (Cmd.SetGraphicsRootSignature w.imgui.pRootSignature)]
  let w2 := callSetPipelineState w1 e.hook This w1.imgui.pPipelineState
  let w3 := w2.emit [Event.call This (Cmd.OMSetRenderTargets fr.hRenderOutput),
                     Event.call This (Cmd.SetDescriptorHeaps w2.rbk.descriptorHeaps.pImGui)]
  let w4 :=
    match w3.imgui.pPipelineState with
    | none => { w3 with ub := true }
    | some pso =>
      let wa := w3.setDisable pso false
      if wa.uiCriticalOnce then wa
      else { wa with uiCriticalOnce := true,
                     criticalVertexShaders := pso :: wa.criticalVertexShaders }
  w4.emit [Event.call This Cmd.RSSetViewports,
           Event.call This (Cmd.IASetVertexBuffers h.Vb.p ((h.Vb.size * 32) % 2 ^ 32)),
           Event.call This (Cmd.IASetIndexBuffer h.Ib.p ((h.Ib.size * 2) % 2 ^ 32)),
           Event.call This (Cmd.IASetPrimitiveTopology false),
           Event.call This (Cmd.SetGraphicsRoot32BitConstants 0 24),
           Event.call This (Cmd.SetGraphicsRoot32BitConstants 2 4),
           Event.call This Cmd.OMSetBlendFactor]

/-- The block of `ImGui_ImplDX12_RenderDrawData` guarded by `sync_cmd_list`: the
drain, then the creation or growth of the two upload buffers.  The first
component tells that the function goes on to the copy stage; when it is false
the function returns, and the last component tells whether `release` ran
(inside the drain, or in the `catch` of a failed creation). -/
def uiSyncStage (w : World) (e : UiEnv) (draw_data : ImDrawData) (pos : Nat) (fr : FrameCtx) :
    Bool × World × FrameCtx × Bool :=
  let h := heapAt w fr.iBufferIdx
  if sync_cmd_list h draw_data then
    let d := FrameCtx.wait_for_gpu w pos fr e.drainCloseOk e.drainSignalOk
               e.drainSetEventOk e.currentIdx e.release
    if d.2.2.2 then (false, d.2.1, d.2.2.1, true)
    else if !d.1 then (false, d.2.1, d.2.2.1, false)
    else
      let gb := growBuffers h draw_data e
      let w2 := (setHeap d.2.1 fr.iBufferIdx gb.2.1).emit gb.2.2
      if gb.1 then (true, w2, d.2.2.1, false)
      else
        let w3 := storeFrame w2 pos d.2.2.1
        (false, SK_D3D12_RenderCtx.release w3 w3.rbk._pSwapChain e.release,
          (d.2.2.1.destroy (SK_ValidatePointer w3.rbk._pSwapChain e.release.swapChainValid)
             (e.release.dtor pos)).1, true)
  else (true, w, fr, false)

/-- The rest of `ImGui_ImplDX12_RenderDrawData`, from the two `Map` calls on: the
copy into the mapped buffers (a failed `Map` ends in `release`), the second
`begin_cmd_list`, the state setup and the render loops. -/
def uiRecordStage (w : World) (e : UiEnv) (draw_data : ImDrawData) (pos : Nat) (fr : FrameCtx) :
    World × FrameCtx × Bool :=
  if !(e.mapVbOk && e.mapIbOk) then
    let w3 := storeFrame w pos fr
    (SK_D3D12_RenderCtx.release w3 w3.rbk._pSwapChain e.release,
      (fr.destroy (SK_ValidatePointer w3.rbk._pSwapChain e.release.swapChainValid)
         (e.release.dtor pos)).1, true)
  else
    let b2 := fr.begin_cmd_list w e.hook none e.rebeginResetOk
    if !b2.1 then (b2.2.1, b2.2.2, false)
    else
      match b2.2.2.pCmdList with
      | none => ({ b2.2.1 with ub := true }, b2.2.2, false)
      | some This =>
        let w4 := uiSetup b2.2.1 e This b2.2.2 (heapAt b2.2.1 b2.2.2.iBufferIdx)
        (renderLists This w4 0 0 draw_data.CmdLists, b2.2.2, false)

/-- The function `ImGui_ImplDX12_RenderDrawData` for the frame context at
position `pos` of `frames_`, held in `fr`.  It gives back the world, the frame
context, and whether `release` ran, after which the caller holds a destroyed
frame context.  The bytes written to the mapped buffers are not part of the
process state and are described apart from this function. -/
def ImGui_ImplDX12_RenderDrawData (w : World) (e : UiEnv) (draw_data : ImDrawData)
    (pos : Nat) (fr : FrameCtx) : World × FrameCtx × Bool :=
  if !(w.rbk._pSwapChain.isSome || w.rbk._pDevice.isSome) then (w, fr, false)
  else
    let b := fr.begin_cmd_list w e.hook none e.beginResetOk
    if !b.1 then (b.2.1, b.2.2, false)
    else
      let s := uiSyncStage b.2.1 e draw_data pos b.2.2
      if !s.1 then (s.2.1, s.2.2.1, s.2.2.2)
      else uiRecordStage s.2.1 e draw_data pos s.2.2.1

/-- Results of the calls `present` makes: those of `init` and of the UI
translator (whose `hook`, `currentIdx` and `release` serve `present` too, one
call of `present` seeing one swapchain index), the device behind the swapchain,
the fence's completed value, `SetEventOnCompletion`, the command list `Reset`,
the configuration switches, `Close` and the final `Signal`.  `drawData` is what
`SK_ImGui_DrawFrame` hands to the UI translator, if it draws at all. -/
structure PresentEnv where
  init : InitEnv
  ui : UiEnv
  swapChainDevice : Option Handle
  completedValue : Nat
  setEventOk : Bool
  resetOk : Bool
  dump_on_load : Bool
  inject_textures : Bool
  hdr16BitSwap : Bool
  drawData : Option ImDrawData
  closeOk : Bool
  signalOk : Bool

/-- The last statement of `present`: signal the queue with `fence.value + 1` and
keep the new value when the signal went through. -/
def presentSignal (fr : FrameCtx) (signalOk : Bool) : FrameCtx × List Event :=
  let sync_value := fr.fence.value + 1
  if signalOk then
    ({ fr with fence := { fr.fence with value := sync_value } },
      [Event.Signal fr.iBufferIdx fr.fence.p sync_value true])
  else (fr, [Event.Signal fr.iBufferIdx fr.fence.p sync_value false])

/-- The HDR tonemap pass of `present` on command list `This`.  Its `CopyResource`
is between the backbuffer and the copy that `init` made in the backbuffer's
format, a call that the `CopyResource` hook hands on as it is. -/
def presentHDR (w : World) (e : PresentEnv) (This : Handle) (fr : FrameCtx) : World :=
  let w1 := _InitCopyTextureRegionHook w
  let w2 :=
    match w1.rbk.pHDRPipeline with
    | none => { w1 with ub := true }
    | some pso =>
      let wa := w1.setDisable pso false
      if wa.hdrCriticalOnce then wa
      else { wa with hdrCriticalOnce := true,
                     criticalVertexShaders := pso :: wa.criticalVertexShaders }
  let w3 := w2.emit [Event.call This (Cmd.SetGraphicsRootSignature w2.rbk.pHDRSignature)]
  let w4 := callSetPipelineState w3 e.ui.hook This w3.rbk.pHDRPipeline
  let w5 := w4.emit
    [Event.call This (Cmd.SetGraphicsRoot32BitConstants 0 4),
     Event.call This (Cmd.SetGraphicsRoot32BitConstants 1 16),
     Event.call This Cmd.OMSetBlendFactor,
     Event.call This (Cmd.IASetPrimitiveTopology true),
     Event.call This (Cmd.CopyResource fr.hdr.pSwapChainCopy fr.pRenderOutput),
     Event.call This (Cmd.ResourceBarrier 2),
     Event.call This (Cmd.SetDescriptorHeaps w4.rbk.descriptorHeaps.pHDR),
     Event.call This (Cmd.SetGraphicsRootDescriptorTable 2 fr.hdr.hSwapChainCopy_GPU),
     Event.call This (Cmd.OMSetRenderTargets fr.hRenderOutput),
     Event.call This Cmd.RSSetViewports,
     Event.call This (Cmd.RSSetScissorRects
       { left := 0, top := 0, right := fr.hdr.scissorRight, bottom := fr.hdr.scissorBottom })]
  let w6 := callDrawInstanced w5 This 3 1 0 0
  w6.emit [Event.call This (Cmd.ResourceBarrier 1)]

/-- The end of `present`, from the transition back to `PRESENT` on: close and
submit, signal, and the frame context goes back to its place.  When
`exec_cmd_list` ran `release`, the signal would read a destroyed frame context. -/
def presentSubmit (w : World) (e : PresentEnv) (This : Handle) (pos : Nat) (fr : FrameCtx) :
    World :=
  let w1 := w.emit [Event.call This (Cmd.ResourceBarrier 1)]
  let x := FrameCtx.exec_cmd_list w1 pos fr e.closeOk e.ui.currentIdx e.ui.release
  if x.2.2 then { x.1 with ub := true }
  else
    let sg := presentSignal x.2.1 e.signalOk
    storeFrame (x.1.emit sg.2) pos sg.1

/-- The middle of `present`, for a frame context that is recording on command
list `This`: hook installation, the HDR pass or the plain transition, the UI
translator (through `SK_ImGui_DrawFrame`), then `presentSubmit`.  The screenshot
queue, `SK_D3D12_WriteResources` and `SK_D3D12_CommitUploadQueue` belong to
collaborators. -/
def presentRecord (w : World) (e : PresentEnv) (This : Handle) (pos : Nat) (fr : FrameCtx) :
    World :=
  let w1 := _InitDrawCommandHooks w
  let w2 := if e.dump_on_load || e.inject_textures then _InitCopyTextureRegionHook w1 else w1
  let bHDR :=
    e.hdr16BitSwap && fr.hdr.pSwapChainCopy.isSome &&
    fr.hdr.copyFormat == DXGI_FORMAT_R16G16B16A16_FLOAT &&
    w2.rbk.pHDRPipeline.isSome && w2.rbk.pHDRSignature.isSome
  let w3 :=
    if bHDR then presentHDR w2 e This fr
    else w2.emit [Event.call This (Cmd.ResourceBarrier 1)]
  match e.drawData with
  | none => presentSubmit w3 e This pos fr
  | some d =>
    let u := ImGui_ImplDX12_RenderDrawData w3 e.ui d pos fr
    if u.2.2 then { u.1 with ub := true }
    else presentSubmit u.1 e This pos u.2.1

/-- The part of `present` that works on the selected frame context: the null
fence test, the wait for the GPU to reach `fence.value`, the allocator reset and
`begin_cmd_list` when the list is not already recording, then `presentRecord`. -/
def presentFrame (w : World) (e : PresentEnv) (pos : Nat) (fr : FrameCtx) : World :=
  if fr.fence.p.isNone then w
  else
    let w1 :=
      if e.completedValue < fr.fence.value then
        w.emit ([Event.SetEventOnCompletion fr.iBufferIdx fr.fence.value e.setEventOk]
                 ++ (if e.setEventOk then [Event.Wait fr.iBufferIdx] else []))
      else w
    if fr.bCmdListRecording then
      match fr.pCmdList with
      | none => { w1 with ub := true }
      | some This => presentRecord w1 e This pos fr
    else
      match fr.pCmdAllocator with
      | none => { w1 with ub := true }
      | some _ =>
        let b := fr.begin_cmd_list (w1.emit [Event.AllocatorReset fr.iBufferIdx]) e.ui.hook
                   none e.resetOk
        if !b.1 then storeFrame b.2.1 pos b.2.2
        else
          match b.2.2.pCmdList with
          | none => { b.2.1 with ub := true }
          | some This => presentRecord b.2.1 e This pos b.2.2

/-- The guard of `present` on the swapchain format and the backbuffer index
(`swapIdx > frames_.size ()` in the source). -/
def presentRejects (w : World) (Format : DXGI_FORMAT) (swapIdx : Nat) : Bool :=
  (w.imgui.RTVFormat != Format && w.imgui.RTVFormat != DXGI_FORMAT_UNKNOWN) ||
  decide (swapIdx > w.rbk.frames_.length)

/-- The method `SK_D3D12_RenderCtx::present`.  Selecting `frames_ [swapIdx]` is
recorded in the trace; with `swapIdx` equal to the size of `frames_` the
selection reads past the end. -/
def SK_D3D12_RenderCtx.present (w : World) (pSwapChain : Option Handle) (e : PresentEnv) :
    World :=
  let r :=
    if w.rbk._pDevice.isNone || w.rbk.frames_.isEmpty then
      SK_D3D12_RenderCtx.init w pSwapChain w.rbk._pCommandQueue e.init
    else (true, w)
  if !r.1 then r.2
  else
    let w1 := r.2
    if w1.rbk._pCommandQueue.isNone then w1
    else if e.swapChainDevice.isNone then w1
    else if !IsEqualObject e.swapChainDevice w1.rbk._pDevice then w1
    else if presentRejects w1 e.init.Format e.ui.currentIdx then w1
    else
      let w2 := w1.emit [Event.SelectFrame e.ui.currentIdx]
      match w2.rbk.frames_[e.ui.currentIdx]? with
      | none => { w2 with ub := true }
      | some fr => presentFrame w2 e e.ui.currentIdx fr

/-- Results of the calls `SK_D3D12_HDR_CopyBuffer` makes. -/
structure BlitEnv where
  hook : HookEnv
  swapChainDeviceOk : Bool
  currentIdx : Nat
  Format : DXGI_FORMAT
deriving DecidableEq, Repr

/-- The function `SK_D3D12_HDR_CopyBuffer`, the HDR blitter, recording on
`pCommandList`.  Its guard reads `swapIdx > frames_.size ()` like the one of
`present`, and it has no exception for an unknown render-target format. -/
def SK_D3D12_HDR_CopyBuffer (w : World) (e : BlitEnv) (pCommandList : Handle)
    (pResource : Option Handle) : World :=
  if w.rbk._pCommandQueue.isNone then w
  else if !e.swapChainDeviceOk then w
  else if w.imgui.RTVFormat != e.Format || decide (e.currentIdx > w.rbk.frames_.length) then w
  else
    let w1 := w.emit [Event.SelectFrame e.currentIdx]
    match w1.rbk.frames_[e.currentIdx]? with
    | none => { w1 with ub := true }
    | some stagingFrame =>
      if stagingFrame.fence.p.isNone then w1
      else
        let w2 := w1.emit
          [Event.call pCommandList (Cmd.SetGraphicsRootSignature w1.rbk.pHDRSignature)]
        let w3 := callSetPipelineState w2 e.hook pCommandList w2.rbk.pHDRPipeline
        let w4 := w3.emit
          [Event.call pCommandList (Cmd.SetGraphicsRoot32BitConstants 0 4),
           Event.call pCommandList (Cmd.SetGraphicsRoot32BitConstants 1 16),
           Event.call pCommandList Cmd.OMSetBlendFactor,
           Event.call pCommandList (Cmd.IASetPrimitiveTopology true),
           created "HDR Copy SRV" pResource,
           Event.call pCommandList (Cmd.ResourceBarrier 1),
           Event.call pCommandList (Cmd.SetDescriptorHeaps w3.rbk.descriptorHeaps.pHDR_CopyAssist),
           Event.call pCommandList
             (Cmd.SetGraphicsRootDescriptorTable 2 stagingFrame.hdr.hBufferCopy_GPU),
           Event.call pCommandList (Cmd.OMSetRenderTargets stagingFrame.hRenderOutput),
           Event.call pCommandList Cmd.RSSetViewports,
           Event.call pCommandList (Cmd.RSSetScissorRects
             { left := 0, top := 0, right := stagingFrame.hdr.scissorRight,
               bottom := stagingFrame.hdr.scissorBottom })]
        let w5 := callDrawInstanced w4 pCommandList 3 1 0 0
        w5.emit [Event.call pCommandList (Cmd.ResourceBarrier 1)]

/-- A run of `present` calls on the same swapchain. -/
def presentRun (w : World) (pSwapChain : Option Handle) : List PresentEnv → World
  | [] => w
  | e :: es => presentRun (SK_D3D12_RenderCtx.present w pSwapChain e) pSwapChain es

/-- A run of `init` calls with the same arguments: the world after the last. -/
def initRun (w : World) (pSwapChain pCommandQueue : Option Handle) : List InitEnv → World
  | [] => w
  | e :: es => initRun (SK_D3D12_RenderCtx.init w pSwapChain pCommandQueue e).2
                 pSwapChain pCommandQueue es

/-- The results of a run of `init` calls, in order. -/
def initResults (w : World) (pSwapChain pCommandQueue : Option Handle) :
    List InitEnv → List Bool
  | [] => []
  | e :: es =>
    (SK_D3D12_RenderCtx.init w pSwapChain pCommandQueue e).1 ::
      initResults (SK_D3D12_RenderCtx.init w pSwapChain pCommandQueue e).2
        pSwapChain pCommandQueue es

/-- How many `Signal` calls on the fence of slot `i` went through. -/
def countSignals (i : Nat) : List Event → Nat
  | [] => 0
  | Event.Signal j _ _ true :: es => (if j = i then 1 else 0) + countSignals i es
  | _ :: es => countSignals i es

/-- How many times the command list of slot `i` was handed to the queue. -/
def countSubmits (i : Nat) : List Event → Nat
  | [] => 0
  | Event.ExecuteCommandLists j _ :: es => (if j = i then 1 else 0) + countSubmits i es
  | _ :: es => countSubmits i es

/-- Whether an event is GPU work: a recorded command, a reset, a close, a
submission or fence traffic (everything but object creation, the selection
mark and the release mark). -/
def Event.isWork : Event → Bool
  | Event.Create _ _ => false
  | Event.SelectFrame _ => false
  | Event.Release => false
  | _ => true

/-- The manager is uninitialised in the sense of `present`: the device or the
per-frame collection is absent, so `present` calls `init` first. -/
def Uninitialized (w : World) : Bool :=
  w.rbk._pDevice.isNone || w.rbk.frames_.isEmpty

/-- A value-initialised frame context, as a sample for `InitEnv.freshFrame`. -/
def sampleFreshFrame : FrameCtx :=
  { pRoot := false, fence := { p := none, value := 0, event := none },
    pCmdList := none, pCmdAllocator := none, bCmdListRecording := false,
    pRenderOutput := none, hRenderOutput := 0, iBufferIdx := 4294967295,
    hdr := { pSwapChainCopy := none, copyFormat := 0, hSwapChainCopy_CPU := 0,
             hSwapChainCopy_GPU := 0, hBufferCopy_CPU := 0, hBufferCopy_GPU := 0,
             vpWidth := 0, vpHeight := 0, scissorRight := 0, scissorBottom := 0 } }

/-- The world of a process that has seen the game's command queue (object 1) and
nothing else: no device, no swapchain, no frame context, sixteen empty frame
heaps, no hook installed, counter at `delay`. -/
def bootWorld (delay : Int) : World :=
  { rbk := { _pDevice := none, _pCommandQueue := some 1, _pSwapChain := none,
             pHDRPipeline := none, pHDRSignature := none,
             descriptorHeaps := { pBackBuffers := none, pImGui := none, pHDR := none,
                                  pHDR_CopyAssist := none },
             frames_ := [], frame_delay := delay },
    imgui := { pDevice := none, pRootSignature := none, pPipelineState := none,
               RTVFormat := DXGI_FORMAT_UNKNOWN, pFontTexture := none,
               hFontSrvCpuDescHandle := 0, hFontSrvGpuDescHandle := 0, hWndSwapChain := 0,
               frame_heaps :=
                 List.replicate DXGI_MAX_SWAP_CHAIN_BUFFERS
                   { Vb := buffer_s.empty, Ib := buffer_s.empty } },
    disable := [], lastFrameUsed := [], knownVtxShader := [], missingPipelines := [],
    criticalVertexShaders := [], drawHooks := false, copyHooks := false,
    uiCriticalOnce := false, hdrCriticalOnce := false, ub := false, trace := [] }

/-- Destructor inputs in which every call succeeds, at swapchain index `idx`. -/
def okDtor (idx : Nat) : DtorEnv :=
  { currentIdx := idx, closeOk := true, signalOk := true, setEventOk := true }

/-- Inputs of `release` in which both pointers are valid and every call succeeds. -/
def okRelease (idx : Nat) : ReleaseEnv :=
  { swapChainValid := true, deviceValid := true, dtor := fun _ => okDtor idx }

/-- Inputs of `init` in which every call succeeds, for a swapchain of `n`
buffers of format 28 (`DXGI_FORMAT_R8G8B8A8_UNORM`); the device is object 2. -/
def okInit (n : Nat) : InitEnv :=
  { queueDevice := some 2, BufferCount := n, Format := 28, Width := 1920, Height := 1080,
    hWnd := 7, heapImGui := some 10, heapHDR := some 11, heapHDR_CopyAssist := some 12,
    heapBackBuffers := some 13, rtvDescriptorSize := 32, srvDescriptorSize := 64,
    rtvHeapStart := 4096, hdrCpuStart := 8192, hdrGpuStart := 12288,
    copyAssistCpuStart := 16384, copyAssistGpuStart := 20480,
    imguiCpuStart := 24576, imguiGpuStart := 28672,
    fence := fun i => some (100 + i), allocator := fun i => some (200 + i),
    hasDevice4 := true, cmdList := fun i => some (300 + i), cmdListCloseOk := fun _ => true,
    buffer := fun i => some (400 + i), copy := fun i => some (500 + i),
    event := fun i => some (600 + i), serializeOk := true,
    hdrSignature := some 20, hdrPipeline := some 21, uiSerializeOk := true,
    uiRootSignature := some 30, uiPipelineState := some 31, uiFontTexture := some 32,
    freshFrame := sampleFreshFrame, dtorSwapChainValid := true, dtor := fun _ => okDtor 0 }

/-- Inputs of the UI translator in which every call succeeds, at swapchain
index `idx`. -/
def okUi (idx : Nat) : UiEnv :=
  { hook := { getDeviceOk := true, framesDrawn := 0 }, beginResetOk := true,
    drainCloseOk := true, drainSignalOk := true, drainSetEventOk := true,
    createVb := some 700, createIb := some 701, mapVbOk := true, mapIbOk := true,
    rebeginResetOk := true, hdr_display := false, currentIdx := idx,
    release := okRelease idx }

/-- Inputs of `present` in which every call succeeds, for a swapchain of `n`
buffers at index `idx`, the UI handing over `d`. -/
def okPresent (n idx : Nat) (d : Option ImDrawData) : PresentEnv :=
  { init := okInit n, ui := okUi idx, swapChainDevice := some 2, completedValue := 0,
    setEventOk := true, resetOk := true, dump_on_load := false, inject_textures := false,
    hdr16BitSwap := false, drawData := d, closeOk := true, signalOk := true }

/-- A draw-data payload of one list with three vertices, three indices and one
draw command. -/
def sampleDrawData : ImDrawData :=
  { CmdLists :=
      [{ CmdBuffer := [{ ElemCount := 3, ClipRect := { x := 0, y := 0, z := 640, w := 480 },
                         TextureId := 28672, UserCallback := none }],
         VtxBuffer := List.replicate 3 { pos := (0, 0), uv := (0, 0), col := 4294967295 },
         IdxBuffer := [0, 1, 2] }],
    TotalVtxCount := 3, TotalIdxCount := 3 }


/-- What a turn of the frame loop of `init` that ran to its end leaves in the
frame context of buffer index `i`: its own index, a fence value of zero, not
recording, the back-reference set, and every object of the turn present. -/
def FrameCtx.Complete (fr : FrameCtx) (i : Nat) : Prop :=
  fr.iBufferIdx = i ∧ fr.fence.value = 0 ∧ fr.bCmdListRecording = false ∧ fr.pRoot = true ∧
  fr.fence.p.isSome = true ∧ fr.pCmdAllocator.isSome = true ∧ fr.pCmdList.isSome = true ∧
  fr.pRenderOutput.isSome = true ∧ fr.hdr.pSwapChainCopy.isSome = true

instance (fr : FrameCtx) (i : Nat) : Decidable (fr.Complete i) := by
  unfold FrameCtx.Complete
  infer_instance

/-- Inputs of `init` for two buffers in which the fence of buffer 1 cannot be
created. -/
def fenceFailInit : InitEnv :=
  { okInit 2 with fence := fun i => if i = 1 then none else some (100 + i) }

/-- Inputs of `init` for two buffers in which only the pipeline state of the UI
translator cannot be created. -/
def uiFailInit : InitEnv :=
  { okInit 2 with uiPipelineState := none }

/-- Inputs of `present` in which every call succeeds, on a swapchain of two
buffers whose format is `DXGI_FORMAT_R16G16B16A16_FLOAT`, at index 0, without UI. -/
def okPresentFloat16 : PresentEnv :=
  { okPresent 2 0 none with init := { okInit 2 with Format := DXGI_FORMAT_R16G16B16A16_FLOAT } }

/-- No event of the list is GPU work. -/
def quiet (es : List Event) : Bool :=
  es.all (fun ev => !ev.isWork)

/-- Slot 0 of a manager initialised with `okInit`, while it records on its
command list (object 300). -/
def sampleRecordingFrame : FrameCtx :=
  { sampleFreshFrame with
      pRoot := true, iBufferIdx := 0, pCmdList := some 300, pCmdAllocator := some 200,
      bCmdListRecording := true, pRenderOutput := some 400, hRenderOutput := 4096,
      fence := { p := some 100, value := 0, event := some 600 } }

/-- Inputs of `present` on a swapchain of two buffers at index 0, without UI,
in which the `init` it triggers stops at the fence of buffer 1. -/
def fenceFailPresent : PresentEnv :=
  { okPresent 2 0 none with init := fenceFailInit }

/-- The inputs of `init` with other results for the four creation steps of the
UI translator. -/
def InitEnv.withUi (e : InitEnv) (serializeOk : Bool) (rootSignature pipelineState
    fontTexture : Option Handle) : InitEnv :=
  { e with uiSerializeOk := serializeOk, uiRootSignature := rootSignature,
           uiPipelineState := pipelineState, uiFontTexture := fontTexture }

/-- World `w'` continues `w`: its trace is the trace of `w` followed by events
among which exactly `n` are successful signals of slot `i` and none is a
successful signal of another slot. -/
def Extends (w w' : World) (i n : Nat) : Prop :=
  ∃ d, w'.trace = w.trace ++ d ∧ countSignals i d = n ∧ ∀ j, j ≠ i → countSignals j d = 0

/-- What one `present` does to the frame context `fr` found at position `pos`:
either the per-frame collection is gone (`release` ran), or the manager is as
before but for the frame context at `pos`, which keeps its buffer index and
whose fence value grew by the number of successful signals of its slot that the
call added to the trace. -/
def SlotStep (w w' : World) (pos : Nat) (fr : FrameCtx) : Prop :=
  w'.rbk.frames_ = [] ∨
  ∃ (fr' : FrameCtx) (n : Nat),
    w'.rbk = { w.rbk with frames_ := w.rbk.frames_.set pos fr' } ∧
    Extends w w' fr.iBufferIdx n ∧
    fr'.fence.value = fr.fence.value + n ∧ fr'.iBufferIdx = fr.iBufferIdx

/-- The accounting invariant of a live manager since the trace had length `n0`:
the device is there, and every frame context sits at the position of its buffer
index and tracks as fence value the number of successful signals of its slot
since then. -/
def Tracked (w : World) (n0 : Nat) : Prop :=
  n0 ≤ w.trace.length ∧ w.rbk._pDevice.isSome = true ∧
  ∀ (i : Nat) (fr : FrameCtx), w.rbk.frames_[i]? = some fr →
    fr.iBufferIdx = i ∧ fr.fence.value = countSignals i (w.trace.drop n0)

/-- What a stage of `present` does with the frame context `fr` it holds in a
local: either `release` ran and the per-frame collection is gone, or the
manager is untouched, the frame context keeps its buffer index, and its fence
value grew by the number of successful signals of its slot added to the trace. -/
def LocalStep (w : World) (fr : FrameCtx) (r : World × FrameCtx × Bool) : Prop :=
  (r.2.2 = true → r.1.rbk.frames_ = []) ∧
  (r.2.2 = false →
    r.1.rbk = w.rbk ∧ r.2.1.iBufferIdx = fr.iBufferIdx ∧
    ∃ n, Extends w r.1 fr.iBufferIdx n ∧ r.2.1.fence.value = fr.fence.value + n)

/-- Inputs of `present` on a swapchain of two buffers at index 0, without UI,
in which `pCmdList->Close ()` fails and every other call succeeds. -/
def closeFailPresent : PresentEnv :=
  { okPresent 2 0 none with closeOk := false }


/-- A manager initialised by `okInit` for a swapchain (object 5) of two buffers:
device 2, queue 1, two complete frame contexts, none recording. -/
def readyWorld : World :=
  (SK_D3D12_RenderCtx.init (bootWorld 0) (some 5) (some 1) (okInit 2)).2

/-- The manager `readyWorld` while the frame context of buffer `i` records, as
`begin_cmd_list` leaves it. -/
def recordingWorld (i : Nat) : World :=
  { readyWorld with
      rbk := { readyWorld.rbk with
                 frames_ := readyWorld.rbk.frames_.map (fun fr =>
                   if fr.iBufferIdx = i then { fr with bCmdListRecording := true } else fr) } }

/-- The event is a call recorded on a command list, or the `Reset` of one: all
that `ImGui_ImplDX12_RenderDrawData` adds to the trace outside its drain, its
buffer creation and `release`. -/
def Event.isRecording : Event → Bool
  | Event.call _ _ => true
  | Event.CmdListReset _ _ => true
  | _ => false

/-- The event is the creation of an object (`CreateCommittedResource` and the
like). -/
def Event.isCreate : Event → Bool
  | Event.Create _ _ => true
  | _ => false

/-- The event is a draw call that reached a command list. -/
def Event.isDraw : Event → Bool
  | Event.call _ (Cmd.DrawInstanced _ _ _ _) => true
  | Event.call _ (Cmd.DrawIndexedInstanced _ _ _ _ _) => true
  | Event.call _ (Cmd.ExecuteIndirect _ _ _ _ _ _) => true
  | _ => false

/-- The trace of `w'` is that of `w` followed by events that all satisfy `p`. -/
def TraceGrows (p : Event → Bool) (w w' : World) : Prop :=
  ∃ es, w'.trace = w.trace ++ es ∧ es.all p = true

/-- From `w` to `w'` nothing happened but recording: the UI translator's context
(the upload buffers and their sizes with it) and the manager are the same, and the
trace grew by recorded calls and command-list resets only. -/
def RecordsOnly (w w' : World) : Prop :=
  w'.imgui = w.imgui ∧ w'.rbk = w.rbk ∧ TraceGrows Event.isRecording w w'

/-- Consecutive calls of `ImGui_ImplDX12_RenderDrawData` for the frame context at
position `pos`, each with its own inputs and draw data; the run ends when a call
ran `release`. -/
def renderSeq (pos : Nat) : World → FrameCtx → List (UiEnv × ImDrawData) →
    World × FrameCtx × Bool
  | w, fr, [] => (w, fr, false)
  | w, fr, c :: rest =>
    let r := ImGui_ImplDX12_RenderDrawData w c.1 c.2 pos fr
    if r.2.2 then r else renderSeq pos r.1 r.2.1 rest

/-- The first UI frame of slot 0 on `readyWorld`: `sampleDrawData` drawn with
every call succeeding, which creates both upload buffers of the slot. -/
def firstDraw : World × FrameCtx × Bool :=
  ImGui_ImplDX12_RenderDrawData readyWorld (okUi 0) sampleDrawData 0
    (readyWorld.rbk.frames_.getD 0 sampleFreshFrame)

/-- Inputs of the UI translator at swapchain index 0 in which `Map` fails on the
vertex buffer and every other call succeeds. -/
def mapFailUi : UiEnv :=
  { okUi 0 with mapVbOk := false }

/-- The test `! b.p || b.size < count` under which `ImGui_ImplDX12_RenderDrawData`
creates an upload buffer anew. -/
def buffer_s.lacks (b : buffer_s) (count : Int) : Bool :=
  b.p.isNone || b.size < count

/-- The number of creation calls for the object named `what` among the events. -/
def countCreates (what : String) : List Event → Nat
  | [] => 0
  | Event.Create x _ :: es => (if x = what then 1 else 0) + countCreates what es
  | _ :: es => countCreates what es

/-- The number of creation calls for `what` that the trace gained from `w` to `w'`. -/
def createsBetween (what : String) (w w' : World) : Nat :=
  countCreates what (w'.trace.drop w.trace.length)

/-- The first `begin_cmd_list` of `ImGui_ImplDX12_RenderDrawData`: its result, the
world and the frame context it leaves. -/
def uiBegin (w : World) (e : UiEnv) (fr : FrameCtx) : Bool × World × FrameCtx :=
  fr.begin_cmd_list w e.hook none e.beginResetOk

/-- The drain `pFrame->wait_for_gpu ()` of `ImGui_ImplDX12_RenderDrawData`, run on
what its first `begin_cmd_list` left. -/
def uiDrain (w : World) (e : UiEnv) (pos : Nat) (fr : FrameCtx) :
    Bool × World × FrameCtx × Bool :=
  FrameCtx.wait_for_gpu (uiBegin w e fr).2.1 pos (uiBegin w e fr).2.2 e.drainCloseOk
    e.drainSignalOk e.drainSetEventOk e.currentIdx e.release

/-- What the creation block makes of a heap when the creations it attempts give
`createVb` and `createIb`: a buffer that is absent or too small becomes the new
object with `over` more elements than asked for, the other is kept. -/
def grownHeap (h : FrameHeap) (d : ImDrawData) (createVb createIb : Option Handle) : FrameHeap :=
  { Vb := if h.Vb.lacks d.TotalVtxCount
          then { p := createVb, size := d.TotalVtxCount + 5000 } else h.Vb,
    Ib := if h.Ib.lacks d.TotalIdxCount
          then { p := createIb, size := d.TotalIdxCount + 10000 } else h.Ib }

/-- The manager `readyWorld` with the upload buffers of slot 0 empty (no object,
capacity 0). -/
def emptyHeapWorld : World :=
  setHeap readyWorld 0 { Vb := buffer_s.empty, Ib := buffer_s.empty }

/-- A draw-data payload of one list with 10,000 vertices, 30,000 indices and one
draw command. -/
def bigDrawData : ImDrawData :=
  { CmdLists :=
      [{ CmdBuffer := [{ ElemCount := 30000, ClipRect := { x := 0, y := 0, z := 640, w := 480 },
                         TextureId := 28672, UserCallback := none }],
         VtxBuffer := List.replicate 10000 { pos := (0, 0), uv := (0, 0), col := 4294967295 },
         IdxBuffer := List.replicate 30000 0 }],
    TotalVtxCount := 10000, TotalIdxCount := 30000 }

/-- Inputs of the UI translator at swapchain index 0 in which the `Signal` of the
drain fails and every other call succeeds. -/
def drainFailUi : UiEnv :=
  { okUi 0 with drainSignalOk := false }

/-! ### The vertex colour transform and the copy loop

The channel arithmetic of the alpha-stripping loop is done in `float`.  A `float`
(IEEE 754 binary32) value `x` is kept here as the natural number `x * 2 ^ 64`;
every value met in the loop is zero or lies between `2 ^ (-17)` and `2 ^ 8`, where
binary32 values are multiples of `2 ^ (-41)`, so the number is exact. -/

/-- One step of the search for the leading binary digit of `v`: with the digit
known to lie at position `acc` or above, decide whether it lies at `acc + k` or
above. -/
def lgStep (v acc k : Nat) : Nat :=
  if 2 ^ (acc + k) ≤ v then acc + k else acc

/-- The position of the leading binary digit of `v`, for `1 ≤ v < 2 ^ 256`. -/
def ilog2 (v : Nat) : Nat :=
  [128, 64, 32, 16, 8, 4, 2, 1].foldl (lgStep v) 0

/-- The binary32 value nearest to the exact quotient `n / d`, ties to the even
significand (the rounding of every `float` operation), for quotients of at least
`2 ^ (-41)`: with `L - 64` the binary exponent of the quotient, the quotient is
rounded to a multiple of `2 ^ (L - 64 - 23)`, 24 significant digits. -/
def f32round (n d : Nat) : Nat :=
  if n = 0 ∨ d = 0 then 0
  else
    let L := ilog2 (n * 2 ^ 64 / d)
    let D := d * 2 ^ (L - 23)
    let q := n * 2 ^ 64 / D
    let r := n * 2 ^ 64 % D
    (if D < 2 * r ∨ (2 * r = D ∧ q % 2 = 1) then q + 1 else q) * 2 ^ (L - 23)

/-- The conversion `(float) n` of an integer below `2 ^ 24`, which is exact. -/
def f32ofNat (n : Nat) : Nat :=
  n * 2 ^ 64

/-- The `float` division `x / y`. -/
def f32div (x y : Nat) : Nat :=
  f32round x y

/-- The `float` product `x * y`. -/
def f32mul (x y : Nat) : Nat :=
  f32round (x * y) (2 ^ 128)

/-- The conversion `(UINT) x` of a non-negative `float` below `2 ^ 32`: the
fraction is dropped. -/
def f32toUINT (x : Nat) : Nat :=
  x / 2 ^ 64

/-- One colour channel of the alpha-stripping loop: with
`a = (float)alpha / 255.0f` and `r = (float)c / 255.0f`, the value
`(UINT)((r * a) * 255U)`. -/
def premultiply (c alpha : Nat) : Nat :=
  let a := f32div (f32ofNat alpha) (f32ofNat 255)
  let r := f32div (f32ofNat c) (f32ofNat 255)
  f32toUINT (f32mul (f32mul r a) (f32ofNat 255))

/-- The alpha boost of the alpha-stripping loop on the `uint8_t alpha`:
`if (alpha < 93 && alpha != 0) alpha += (93 - alpha) / 2;`. -/
def boostAlpha (alpha : Nat) : Nat :=
  if alpha < 93 ∧ alpha ≠ 0 then (alpha + (93 - alpha) / 2) % 2 ^ 8 else alpha

/-- The alpha-stripping transform of one packed 32-bit colour (`ImU32 color`):
the alpha byte is boosted, each of the three colour bytes is multiplied by the
boosted alpha, and the alpha byte of the result is `0xFF`. -/
def stripAlpha (color : Nat) : Nat :=
  let alpha := boostAlpha (((color &&& 0xFF000000) >>> 24) &&& 0xFF)
  0xFF000000 |||
  wrapUINT (premultiply ((color &&& 0xFF0000) >>> 16) alpha <<< 16) |||
  wrapUINT (premultiply ((color &&& 0x00FF00) >>> 8) alpha <<< 8) |||
  premultiply (color &&& 0x0000FF) alpha

/-- The alpha-stripping transform of a vertex.  The vertex colour is kept in its
packed form, the one `ImColor` converts it to and back from. -/
def stripVert (v : ImDrawVert) : ImDrawVert :=
  { v with col := stripAlpha v.col }

/-- A command list as the copy loop leaves it: with
`config.imgui.render.strip_alpha` set every vertex colour is transformed in place,
without it the list is untouched. -/
def copiedList (strip_alpha : Bool) (l : ImDrawList) : ImDrawList :=
  if strip_alpha then { l with VtxBuffer := l.VtxBuffer.map stripVert } else l

/-- The copy loop of `ImGui_ImplDX12_RenderDrawData` over the command lists.
`vtx_heap` and `idx_heap` are what has been written so far behind the two mapped
pointers; each `std::copy_n` appends one list's array, the vertices after the
list went through the alpha-stripping loop.  The result is the command lists as
the loop leaves them, then the vertices and the indices written. -/
def copyLists (strip_alpha : Bool) :
    List ImDrawVert → List Nat → List ImDrawList →
      List ImDrawList × List ImDrawVert × List Nat
  | vtx_heap, idx_heap, [] => ([], vtx_heap, idx_heap)
  | vtx_heap, idx_heap, cmd_list :: rest =>
    let l1 := copiedList strip_alpha cmd_list
    let r := copyLists strip_alpha (vtx_heap ++ l1.VtxBuffer) (idx_heap ++ l1.IdxBuffer) rest
    (l1 :: r.1, r.2.1, r.2.2)

/-- Every colour channel whose product with the alpha is a multiple of 255, for
all bytes: whether the `float` computation gives the exact quotient. -/
def premultiplyIntegerCases : Bool :=
  (List.range 256).all fun c => (List.range 256).all fun a =>
    !(c * a % 255 == 0) || premultiply c a == c * a / 255

/-- The sum of `VtxBuffer.Size` over command lists. -/
def vtxTotal (ls : List ImDrawList) : Nat :=
  (ls.map (fun l => l.VtxBuffer.length)).sum

/-- The sum of `IdxBuffer.Size` over command lists. -/
def idxTotal (ls : List ImDrawList) : Nat :=
  (ls.map (fun l => l.IdxBuffer.length)).sum

/-- The integer `t` is the rational `q` truncated toward zero: no larger in
magnitude, and less than one away. -/
def Truncates (q : Rat) (t : Int) : Prop :=
  |(t : Rat)| ≤ |q| ∧ |q - (t : Rat)| < 1

/-- A draw command with a fractional clip rectangle that reaches below zero. -/
def fractionalClipCmd : ImDrawCmd :=
  { ElemCount := 6, ClipRect := { x := -5 / 2, y := 3 / 4, z := 1279 / 2, w := 1439 / 3 },
    TextureId := 28672, UserCallback := none }


/-- The projection matrix `mvp` that `ImGui_ImplDX12_RenderDrawData` builds from
`io.DisplaySize`, with `L = 0`, `R = 0 + DisplaySize.x`, `T = 0`,
`B = 0 + DisplaySize.y`; row `i`, column `j` is `mvp [i][j]`.  The entries are
kept as the exact quotients, before their rounding to `float`. -/
def mvp (DisplaySize : Rat × Rat) : Matrix (Fin 4) (Fin 4) Rat :=
  let L : Rat := 0
  let R : Rat := 0 + DisplaySize.1
  let T : Rat := 0
  let B : Rat := 0 + DisplaySize.2
  !![2 / (R - L), 0, 0, 0;
     0, 2 / (T - B), 0, 0;
     0, 0, 1 / 2, 0;
     (R + L) / (L - R), (T + B) / (B - T), 1 / 2, 1]

/-- A descriptor heap of `n` entries of `inc` bytes from address `start` on lies
inside the 64-bit address space, and the byte offset of every entry fits the
32-bit product the frame loop of `init` computes. -/
def heapFits (start inc n : Nat) : Prop :=
  start < 2 ^ 64 ∧ n * inc < 2 ^ 32 ∧ start + n * inc ≤ 2 ^ 64

instance (start inc n : Nat) : Decidable (heapFits start inc n) := by
  unfold heapFits
  infer_instance

/-- The five descriptor ranges the frame loop of `init` hands out (the
render-target views, and the CPU and GPU sides of the HDR and the HDR
copy-assist heaps) fit, for `BufferCount` entries each. -/
def InitEnv.HeapsFit (e : InitEnv) : Prop :=
  heapFits e.rtvHeapStart e.rtvDescriptorSize e.BufferCount ∧
  heapFits e.hdrCpuStart e.srvDescriptorSize e.BufferCount ∧
  heapFits e.hdrGpuStart e.srvDescriptorSize e.BufferCount ∧
  heapFits e.copyAssistCpuStart e.srvDescriptorSize e.BufferCount ∧
  heapFits e.copyAssistGpuStart e.srvDescriptorSize e.BufferCount

instance (e : InitEnv) : Decidable e.HeapsFit := by
  unfold InitEnv.HeapsFit
  infer_instance

/-- The fields of `DXGI_SWAP_CHAIN_DESC::BufferDesc` the copy hooks read. -/
structure DXGI_MODE_DESC where
  Width : Nat
  Height : Nat
  Format : DXGI_FORMAT
deriving DecidableEq, Repr

/-- What the two copy hooks ask of their surroundings: the switch
`__SK_HDR_16BitSwap`, the description of a resource (`GetDesc`), the two format
helpers `DirectX::MakeTypeless` and `DirectX::BitsPerPixel` of the texture
library, the type of the command list (`This->GetType ()`), the description of
the render backend's swapchain (`none` when `rb.swapchain` gives no
`IDXGISwapChain`), the inputs of the HDR blitter, the texture-injection switch
(`SK_D3D12_IsTextureInjectionNeeded`, read once), and the flag stored on a
resource under `SKID_D3D12IgnoredTextureCopy` (`false` when there is none). -/
structure CopyEnv where
  hdr16BitSwap : Bool
  desc : Handle → D3D12_RESOURCE_DESC
  makeTypeless : DXGI_FORMAT → DXGI_FORMAT
  bitsPerPixel : DXGI_FORMAT → Nat
  listType : Nat
  swapDesc : Option DXGI_MODE_DESC
  blit : BlitEnv
  bUseInjection : Bool
  ignoredCopy : Handle → Bool

/-- The test both copy hooks make on the swapchain: there is none, or the source
has its width and height and the source or the destination has its format. -/
def CopyEnv.swapChainCopy (e : CopyEnv) (src_desc dst_desc : D3D12_RESOURCE_DESC) : Bool :=
  match e.swapDesc with
  | none => true
  | some swapDesc =>
    decide (src_desc.Width = swapDesc.Width) && decide (src_desc.Height = swapDesc.Height) &&
      (decide (src_desc.Format = swapDesc.Format) || decide (dst_desc.Format = swapDesc.Format))

/-- The function `D3D12GraphicsCommandList_CopyResource_Detour`.  With the override
active it reads the descriptions of both resources, which have to be there. -/
def D3D12GraphicsCommandList_CopyResource_Detour (w : World) (e : CopyEnv) (This : Handle)
    (pDstResource pSrcResource : Option Handle) : World :=
  let original := w.emit [Event.call This (Cmd.CopyResource pDstResource pSrcResource)]
  if e.hdr16BitSwap then
    match pSrcResource, pDstResource with
    | some src, some dst =>
      let src_desc := e.desc src
      let dst_desc := e.desc dst
      if dst_desc.Dimension = D3D12_RESOURCE_DIMENSION_TEXTURE2D ∧
          dst_desc.Format = DXGI_FORMAT_R16G16B16A16_FLOAT then
        let typelessSrc := e.makeTypeless src_desc.Format
        let typelessDst := e.makeTypeless dst_desc.Format
        if typelessSrc ≠ typelessDst ∧
            e.bitsPerPixel src_desc.Format ≠ e.bitsPerPixel dst_desc.Format then
          if e.listType = D3D12_COMMAND_LIST_TYPE_DIRECT then
            if e.swapChainCopy src_desc dst_desc then
              SK_D3D12_HDR_CopyBuffer w e.blit This pSrcResource
            else w
          else w
        else original
      else original
    | _, _ => { w with ub := true }
  else original

/-- The texture-dump branch at the head of the `CopyTextureRegion` hook: whether
it is entered, and whether it hands the destination to the dumper. -/
def dumpStage (w : World) (e : CopyEnv) (This : Handle)
    (pDst : D3D12_TEXTURE_COPY_LOCATION) (DstX DstY DstZ : Nat)
    (pSrc : D3D12_TEXTURE_COPY_LOCATION) (pSrcBox : Option D3D12_BOX) : World :=
  if e.bUseInjection ∧
      D3D12_RESOURCE_DIMENSION_BUFFER = (e.desc pSrc.pResource).Dimension ∧
      D3D12_RESOURCE_DIMENSION_TEXTURE2D = (e.desc pDst.pResource).Dimension ∧
      pDst.SubresourceIndex = 0 ∧ pSrc.SubresourceIndex = 0 ∧ pSrcBox = none ∧
      DstX = 0 ∧ DstY = 0 ∧ DstZ = 0 then
    let ignore := e.ignoredCopy pSrc.pResource
    let ignore := if !ignore then e.ignoredCopy pDst.pResource else ignore
    if !ignore then w.emit [Event.Dump This pDst.pResource] else w
  else w

/-- The function `D3D12GraphicsCommandList_CopyTextureRegion_Detour`.  The size
test of the swapchain-copy branch is 64-bit arithmetic, the two row pitches are
32-bit products. -/
def D3D12GraphicsCommandList_CopyTextureRegion_Detour (w : World) (e : CopyEnv)
    (This : Handle) (pDst : D3D12_TEXTURE_COPY_LOCATION) (DstX DstY DstZ : Nat)
    (pSrc : D3D12_TEXTURE_COPY_LOCATION) (pSrcBox : Option D3D12_BOX) : World :=
  let src_desc := e.desc pSrc.pResource
  let dst_desc := e.desc pDst.pResource
  let w1 := dumpStage w e This pDst DstX DstY DstZ pSrc pSrcBox
  let original :=
    w1.emit [Event.call This (Cmd.CopyTextureRegion pDst DstX DstY DstZ pSrc pSrcBox)]
  let pitchStage :=
    let typelessFootprintSrc := e.makeTypeless pSrc.Footprint.Format
    let typelessFootprintDst := e.makeTypeless pDst.Footprint.Format
    if typelessFootprintSrc = DXGI_FORMAT_R16G16B16A16_TYPELESS ∨
        typelessFootprintDst = DXGI_FORMAT_R16G16B16A16_TYPELESS then
      let src_row_pitch :=
        wrapUINT (pSrc.Footprint.Width * wrapUINT (e.bitsPerPixel typelessFootprintSrc / 8))
      let dst_row_pitch :=
        wrapUINT (pDst.Footprint.Width * wrapUINT (e.bitsPerPixel typelessFootprintDst / 8))
      if pSrc.Footprint.RowPitch < src_row_pitch ∨ pDst.Footprint.RowPitch < dst_row_pitch then w1
      else original
    else original
  if e.hdr16BitSwap then
    if D3D12_RESOURCE_DIMENSION_TEXTURE2D = src_desc.Dimension then
      if e.swapChainCopy src_desc dst_desc then
        if dst_desc.Dimension = D3D12_RESOURCE_DIMENSION_BUFFER ∧ dst_desc.Height = 1 ∧
            DstX = 0 ∧ DstY = 0 ∧ DstZ = 0 ∧ pSrcBox = none ∧
            dst_desc.Width <
              wrapUINT64 (wrapUINT64 (src_desc.Width * src_desc.Height) *
                e.bitsPerPixel src_desc.Format) / 8 then
          w1
        else if dst_desc.Dimension = D3D12_RESOURCE_DIMENSION_TEXTURE2D then
          let typelessSrc := e.makeTypeless src_desc.Format
          let typelessDst := e.makeTypeless dst_desc.Format
          if typelessSrc ≠ typelessDst ∧
              e.bitsPerPixel src_desc.Format ≠ e.bitsPerPixel dst_desc.Format then
            if e.listType = D3D12_COMMAND_LIST_TYPE_DIRECT ∧
                typelessSrc ≠ DXGI_FORMAT_R16G16B16A16_TYPELESS then
              SK_D3D12_HDR_CopyBuffer w1 e.blit This (some pSrc.pResource)
            else w1
          else pitchStage
        else pitchStage
      else pitchStage
    else original
  else original

/-- The event is a `CopyResource` call that reached a command list. -/
def Event.isCopyResource : Event → Bool
  | Event.call _ (Cmd.CopyResource _ _) => true
  | _ => false

/-- The event is a `CopyTextureRegion` call that reached a command list. -/
def Event.isCopyTextureRegion : Event → Bool
  | Event.call _ (Cmd.CopyTextureRegion _ _ _ _ _ _) => true
  | _ => false
/-- The condition under which, in the words of the specification, the
`CopyResource` hook skips the original: the override is active, the destination
is a 2D texture of format `R16G16B16A16_FLOAT`, and source and destination
differ both in typeless format and in bits per pixel. -/
def specCopyResourceSkips (e : CopyEnv) (dst src : Handle) : Prop :=
  e.hdr16BitSwap = true ∧
  (e.desc dst).Dimension = D3D12_RESOURCE_DIMENSION_TEXTURE2D ∧
  (e.desc dst).Format = DXGI_FORMAT_R16G16B16A16_FLOAT ∧
  e.makeTypeless (e.desc src).Format ≠ e.makeTypeless (e.desc dst).Format ∧
  e.bitsPerPixel (e.desc src).Format ≠ e.bitsPerPixel (e.desc dst).Format

instance (e : CopyEnv) (dst src : Handle) : Decidable (specCopyResourceSkips e dst src) := by
  unfold specCopyResourceSkips
  infer_instance

/-- The condition under which, in the words of the specification, a skipped
`CopyResource` is redirected through the HDR blitter: a direct command list, and
no swapchain known or the source with the swapchain's width and height and the
source or the destination with the swapchain's format. -/
def specCopyResourceBlits (e : CopyEnv) (dst src : Handle) : Prop :=
  e.listType = D3D12_COMMAND_LIST_TYPE_DIRECT ∧
  (e.swapDesc = none ∨
    ∃ sd, e.swapDesc = some sd ∧ (e.desc src).Width = sd.Width ∧
      (e.desc src).Height = sd.Height ∧
      ((e.desc src).Format = sd.Format ∨ (e.desc dst).Format = sd.Format))

/-- Inputs of the copy hooks for a title that renders in `R8G8B8A8_UNORM` (28,
typeless 27, 32 bits per pixel) on a swapchain overridden to
`R16G16B16A16_FLOAT` (10, typeless 9, 64 bits per pixel) of 640 by 480:
resource 400 is a backbuffer, resource 700 a 640 by 480 texture in the title's
format, any other resource a buffer of 2457600 bytes. -/
def okCopy : CopyEnv :=
  { hdr16BitSwap := true,
    desc := fun h =>
      if h = 400 then { Dimension := 3, Width := 640, Height := 480, Format := 10 }
      else if h = 700 then { Dimension := 3, Width := 640, Height := 480, Format := 28 }
      else { Dimension := 1, Width := 2457600, Height := 1, Format := 0 },
    makeTypeless := fun f => if f = 10 then 9 else if f = 28 then 27 else f,
    bitsPerPixel := fun f => if f = 10 ∨ f = 9 then 64 else if f = 28 ∨ f = 27 then 32 else 0,
    listType := 0,
    swapDesc := some { Width := 640, Height := 480, Format := 10 },
    blit := { hook := { getDeviceOk := true, framesDrawn := 1 }, swapChainDeviceOk := true,
              currentIdx := 0, Format := 28 },
    bUseInjection := true,
    ignoredCopy := fun _ => false }

/-- A copy location on `pResource` with a placed footprint of the given format,
width and row pitch. -/
def placedAt (pResource : Handle) (Format : DXGI_FORMAT) (Width RowPitch : Nat) :
    D3D12_TEXTURE_COPY_LOCATION :=
  { pResource := pResource, LocationType := 1, SubresourceIndex := 0, Offset := 0,
    Footprint := { Format := Format, Width := Width, Height := 480, Depth := 1,
                   RowPitch := RowPitch } }

/-- A world with the draw hooks installed in which the HDR pipeline (object 21)
and command list 300 both carry a true `SKID_D3D12DisablePipelineState` flag. -/
def hdrDisabledWorld : World :=
  { readyWorld with drawHooks := true, disable := [(21, true), (300, true)] }


/-- Slot 0 of a manager initialised with `okInit`, idle: its command list is
closed, its fence (object 100) stands at value 4. -/
def sampleIdleFrame : FrameCtx :=
  { sampleRecordingFrame with
      bCmdListRecording := false, fence := { p := some 100, value := 4, event := some 600 } }


/-- A draw-data payload that asks for `n` vertices and `n` indices (its lists play
no part in the creation block). -/
def countData (n : Int) : ImDrawData :=
  { CmdLists := [], TotalVtxCount := n, TotalIdxCount := n }

/-- Consecutive runs of the creation block on one pair of upload buffers, one for
each required count of the list: the buffers afterwards, and the counts at which
the vertex buffer was created anew. -/
def growRun (e : UiEnv) : FrameHeap → List Int → FrameHeap × List Int
  | h, [] => (h, [])
  | h, n :: rest =>
    let r := growRun e (growBuffers h (countData n) e).2.1 rest
    (r.1, if h.Vb.lacks n then n :: r.2 else r.2)

/-- The required counts `first`, `first + 1`, ..., `first + calls - 1` of a run of
calls in which the count goes up by one each time. -/
def risingCounts (first : Int) (calls : Nat) : List Int :=
  (List.range calls).map (fun (i : Nat) => first + (i : Int))

/-- Inputs of the UI translator at swapchain index 0 in which the
`SetEventOnCompletion` of the drain fails and every other call succeeds. -/
def waitFailUi : UiEnv :=
  { okUi 0 with drainSetEventOk := false }

/-- The event is the wait on a fence's completion event. -/
def Event.isWait : Event → Bool
  | Event.Wait _ => true
  | _ => false

/-! ## Theorems -/

/-! ### Initialisation: what `init` creates and what it leaves -/

theorem quiet_append (a b : List Event) : quiet (a ++ b) = (quiet a && quiet b) := by
  simp [quiet, List.all_append]

theorem createHeaps_quiet (h : DescriptorHeaps) (e : InitEnv) :
    quiet (createHeaps h e).2.2 = true := by
  unfold createHeaps
  split_ifs <;> simp [quiet, created, Event.isWork]

theorem createHDR_quiet (s p : Option Handle) (e : InitEnv) :
    quiet (createHDR s p e).2.2.2 = true := by
  unfold createHDR
  split_ifs <;> simp [quiet, created, Event.isWork]

theorem initFrame_quiet (e : InitEnv) (i : Nat) (fr : FrameCtx) :
    quiet (initFrame e i fr).2.2 = true := by
  unfold initFrame
  split_ifs <;> simp [quiet, created, Event.isWork]

theorem initFrames_quiet (e : InitEnv) (frs : List FrameCtx) :
    ∀ i, quiet (initFrames e i frs).2.2 = true := by
  induction frs with
  | nil => intro i; simp [initFrames, quiet]
  | cons f rest ih =>
    intro i
    simp only [initFrames]
    split
    · simp [quiet_append, initFrame_quiet, ih]
    · simp [initFrame_quiet]

theorem createDeviceObjects_rbk (w : World) (e : InitEnv) :
    (ImGui_ImplDX12_CreateDeviceObjects w e).2.rbk = w.rbk := by
  unfold ImGui_ImplDX12_CreateDeviceObjects
  simp only [ImGui_ImplDX12_InvalidateDeviceObjects, World.emit]
  split_ifs <;> rfl

theorem createDeviceObjects_trace (w : World) (e : InitEnv) :
    ∃ d, (ImGui_ImplDX12_CreateDeviceObjects w e).2.trace = w.trace ++ d ∧ quiet d = true := by
  unfold ImGui_ImplDX12_CreateDeviceObjects
  simp only [ImGui_ImplDX12_InvalidateDeviceObjects, World.emit]
  split_ifs
  all_goals first
    | exact ⟨[], (List.append_nil _).symm, rfl⟩
    | exact ⟨_, by simp only [List.append_assoc]; rfl, by simp [quiet, created, Event.isWork]⟩

theorem resolveDevice_keeps (w : World) (sc : Option Handle) (e : InitEnv) :
    (resolveDevice w sc e).trace = w.trace ∧
    (resolveDevice w sc e).rbk.frames_ = w.rbk.frames_ ∧
    (resolveDevice w sc e).rbk.frame_delay = w.rbk.frame_delay := by
  unfold resolveDevice
  split <;> simp

theorem createManagerObjects_trace (w : World) (e : InitEnv) :
    ∃ d, (createManagerObjects w e).2.trace = w.trace ++ d ∧ quiet d = true := by
  simp only [createManagerObjects, World.emit]
  split_ifs
  · exact ⟨_, rfl, createHeaps_quiet _ _⟩
  · exact ⟨_, by simp only [List.append_assoc]; rfl,
      by simp [quiet_append, createHeaps_quiet, initFrames_quiet]⟩
  · exact ⟨_, by simp only [List.append_assoc]; rfl,
      by simp [quiet_append, createHeaps_quiet, initFrames_quiet, createHDR_quiet]⟩

theorem createManagerObjects_frame_delay (w : World) (e : InitEnv) :
    (createManagerObjects w e).2.rbk.frame_delay = w.rbk.frame_delay := by
  simp only [createManagerObjects, World.emit]
  split_ifs <;> rfl

theorem initCreate_trace (w : World) (e : InitEnv) :
    ∃ d, (initCreate w e).2.trace = w.trace ++ d ∧ quiet d = true := by
  obtain ⟨d1, h1, q1⟩ := createManagerObjects_trace w e
  simp only [initCreate]
  split_ifs
  · exact ⟨d1, h1, q1⟩
  · obtain ⟨d2, h2, q2⟩ := createDeviceObjects_trace
      (ImGui_ImplDX12_Init (createManagerObjects w e).2 (createManagerObjects w e).2.rbk._pDevice
        e.Format e.imguiCpuStart e.imguiGpuStart e.hWnd) e
    refine ⟨d1 ++ d2, ?_, by simp [quiet_append, q1, q2]⟩
    rw [h2]
    simp only [ImGui_ImplDX12_Init, h1, List.append_assoc]

theorem initCreate_frame_delay (w : World) (e : InitEnv) :
    (initCreate w e).2.rbk.frame_delay = w.rbk.frame_delay := by
  simp only [initCreate]
  split_ifs
  · exact createManagerObjects_frame_delay w e
  · rw [createDeviceObjects_rbk]
    simp only [ImGui_ImplDX12_Init]
    exact createManagerObjects_frame_delay w e

theorem afterResize_keeps (w : World) (e : InitEnv) :
    (afterResize w e).rbk.frame_delay = w.rbk.frame_delay ∧
    (afterResize w e).rbk._pDevice = w.rbk._pDevice ∧
    (w.rbk.frames_.length ≤ e.BufferCount → (afterResize w e).trace = w.trace) := by
  refine ⟨rfl, rfl, ?_⟩
  intro hlen
  simp only [afterResize, World.emit, resizeFrames]
  rw [List.drop_eq_nil_of_le hlen]
  simp [destroyFrames]

theorem initAfterCooldown_frame_delay (w : World) (sc : Option Handle) (e : InitEnv) :
    (initAfterCooldown w sc e).2.rbk.frame_delay = w.rbk.frame_delay := by
  simp only [initAfterCooldown]
  split_ifs
  · exact (resolveDevice_keeps w sc e).2.2
  · exact (resolveDevice_keeps w sc e).2.2
  · rw [initCreate_frame_delay]
    exact (resolveDevice_keeps w sc e).2.2

theorem init_frame_delay (w : World) (sc q : Option Handle) (e : InitEnv) :
    (SK_D3D12_RenderCtx.init w sc q e).2.rbk.frame_delay = max (w.rbk.frame_delay - 1) 0 := by
  by_cases h0 : w.rbk.frame_delay > 0
  · have hc : cooldown w.rbk.frame_delay = (true, w.rbk.frame_delay - 1) := by
      simp [cooldown, h0]
    simp only [SK_D3D12_RenderCtx.init, enterInit, hc, if_true]
    omega
  · have hc : cooldown w.rbk.frame_delay = (false, 0) := by
      simp [cooldown, h0]
    simp only [SK_D3D12_RenderCtx.init, hc, Bool.false_eq_true, if_false]
    rw [initAfterCooldown_frame_delay]
    simp only [enterInit, hc]
    omega

theorem init_trace_quiet (w : World) (sc q : Option Handle) (e : InitEnv)
    (hlen : w.rbk.frames_.length ≤ e.BufferCount) :
    ∃ d, (SK_D3D12_RenderCtx.init w sc q e).2.trace = w.trace ++ d ∧ quiet d = true := by
  have hk := resolveDevice_keeps (enterInit w q) sc e
  have hlen2 : (resolveDevice (enterInit w q) sc e).rbk.frames_.length ≤ e.BufferCount := by
    rw [hk.2.1]; exact hlen
  have hr := (afterResize_keeps (resolveDevice (enterInit w q) sc e) e).2.2 hlen2
  simp only [SK_D3D12_RenderCtx.init]
  split_ifs
  · exact ⟨[], (List.append_nil _).symm, rfl⟩
  · simp only [initAfterCooldown]
    split_ifs
    · exact ⟨[], by simp only [List.append_nil]; exact hk.1, rfl⟩
    · exact ⟨[], by simp only [List.append_nil]; exact hr.trans hk.1, rfl⟩
    · obtain ⟨d, hd, hq⟩ := initCreate_trace (afterResize (resolveDevice (enterInit w q) sc e) e) e
      refine ⟨d, ?_, hq⟩
      rw [hd, hr, hk.1]
      rfl

theorem createHeaps_ok (h : DescriptorHeaps) (e : InitEnv)
    (hok : (createHeaps h e).1 = true) :
    (createHeaps h e).2.1.pImGui.isSome = true ∧ (createHeaps h e).2.1.pHDR.isSome = true ∧
    (createHeaps h e).2.1.pHDR_CopyAssist.isSome = true ∧
    (createHeaps h e).2.1.pBackBuffers.isSome = true := by
  unfold createHeaps at hok ⊢
  split_ifs at hok ⊢
  all_goals simp_all [Option.isSome_iff_ne_none]

theorem createHDR_ok (s p : Option Handle) (e : InitEnv)
    (hok : (createHDR s p e).1 = true) :
    (createHDR s p e).2.1.isSome = true ∧ (createHDR s p e).2.2.1.isSome = true := by
  unfold createHDR at hok ⊢
  split_ifs at hok ⊢
  all_goals simp_all [Option.isSome_iff_ne_none]

theorem initFrame_ok (e : InitEnv) (i : Nat) (fr : FrameCtx)
    (hok : (initFrame e i fr).1 = true) : (initFrame e i fr).2.1.Complete i := by
  unfold initFrame at hok ⊢
  unfold FrameCtx.Complete
  split_ifs at hok ⊢
  all_goals simp_all [Option.isSome_iff_ne_none]

theorem initFrames_length (e : InitEnv) (frs : List FrameCtx) :
    ∀ i, (initFrames e i frs).2.1.length = frs.length := by
  induction frs with
  | nil => intro i; simp [initFrames]
  | cons fr rest ih =>
    intro i
    simp only [initFrames]
    split <;> simp [ih]

theorem initFrames_ok (e : InitEnv) (frs : List FrameCtx) :
    ∀ i, (initFrames e i frs).1 = true →
      ∀ (k : Nat) (fr : FrameCtx),
        (initFrames e i frs).2.1[k]? = some fr → fr.Complete (i + k) := by
  induction frs with
  | nil => intro i _ k fr h; simp [initFrames] at h
  | cons f rest ih =>
    intro i hok k fr h
    simp only [initFrames] at hok h
    by_cases h1 : (initFrame e i f).1 = true
    · simp only [h1, if_true] at hok h
      cases k with
      | zero =>
        simp only [List.getElem?_cons_zero, Option.some.injEq] at h
        subst h
        simpa using initFrame_ok e i f h1
      | succ k =>
        simp only [List.getElem?_cons_succ] at h
        have := ih (i + 1) hok k fr h
        have heq : i + 1 + k = i + (k + 1) := by omega
        rwa [heq] at this
    · simp [h1] at hok

theorem resizeFrames_length (frs : List FrameCtx) (n : Nat) (e : InitEnv) :
    (resizeFrames frs n e).1.length = n := by
  simp only [resizeFrames, List.length_append, List.length_take, List.length_replicate]
  omega

theorem createManagerObjects_ok (w : World) (e : InitEnv)
    (hok : (createManagerObjects w e).1 = true) :
    (createManagerObjects w e).2.rbk._pDevice = w.rbk._pDevice ∧
    (createManagerObjects w e).2.rbk.descriptorHeaps.pImGui.isSome = true ∧
    (createManagerObjects w e).2.rbk.descriptorHeaps.pHDR.isSome = true ∧
    (createManagerObjects w e).2.rbk.descriptorHeaps.pHDR_CopyAssist.isSome = true ∧
    (createManagerObjects w e).2.rbk.descriptorHeaps.pBackBuffers.isSome = true ∧
    (createManagerObjects w e).2.rbk.pHDRSignature.isSome = true ∧
    (createManagerObjects w e).2.rbk.pHDRPipeline.isSome = true ∧
    (createManagerObjects w e).2.rbk.frames_.length = w.rbk.frames_.length ∧
    ∀ (k : Nat) (fr : FrameCtx),
      (createManagerObjects w e).2.rbk.frames_[k]? = some fr → fr.Complete k := by
  simp only [createManagerObjects, World.emit] at hok ⊢
  split_ifs at hok ⊢ with h3 h4
  have hh := createHeaps_ok _ _ (by simpa using h3)
  have hd := createHDR_ok _ _ _ hok
  refine ⟨rfl, hh.1, hh.2.1, hh.2.2.1, hh.2.2.2, hd.1, hd.2, ?_, ?_⟩
  · simp [initFrames_length]
  · intro k fr hk
    have := initFrames_ok e _ 0 (by simpa using h4) k fr hk
    simpa using this

theorem init_ok (w : World) (sc q : Option Handle) (e : InitEnv)
    (hok : (SK_D3D12_RenderCtx.init w sc q e).1 = true) :
    (SK_D3D12_RenderCtx.init w sc q e).2.rbk._pDevice.isSome = true ∧
    (SK_D3D12_RenderCtx.init w sc q e).2.rbk.descriptorHeaps.pImGui.isSome = true ∧
    (SK_D3D12_RenderCtx.init w sc q e).2.rbk.descriptorHeaps.pHDR.isSome = true ∧
    (SK_D3D12_RenderCtx.init w sc q e).2.rbk.descriptorHeaps.pHDR_CopyAssist.isSome = true ∧
    (SK_D3D12_RenderCtx.init w sc q e).2.rbk.descriptorHeaps.pBackBuffers.isSome = true ∧
    (SK_D3D12_RenderCtx.init w sc q e).2.rbk.pHDRSignature.isSome = true ∧
    (SK_D3D12_RenderCtx.init w sc q e).2.rbk.pHDRPipeline.isSome = true ∧
    (SK_D3D12_RenderCtx.init w sc q e).2.rbk.frames_.length = e.BufferCount ∧
    ∀ (k : Nat) (fr : FrameCtx),
      (SK_D3D12_RenderCtx.init w sc q e).2.rbk.frames_[k]? = some fr → fr.Complete k := by
  simp only [SK_D3D12_RenderCtx.init] at hok ⊢
  split_ifs at hok ⊢ with hc
  simp only [initAfterCooldown] at hok ⊢
  split_ifs at hok ⊢ with h1 h2
  simp only [initCreate] at hok ⊢
  split_ifs at hok ⊢ with h3
  have hm := createManagerObjects_ok (afterResize (resolveDevice (enterInit w q) sc e) e) e
    (by simpa using h3)
  simp only [createDeviceObjects_rbk, ImGui_ImplDX12_Init]
  refine ⟨?_, hm.2.1, hm.2.2.1, hm.2.2.2.1, hm.2.2.2.2.1, hm.2.2.2.2.2.1, hm.2.2.2.2.2.2.1, ?_,
    hm.2.2.2.2.2.2.2.2⟩
  · rw [hm.1]
    simpa [Option.isSome_iff_ne_none] using h2
  · rw [hm.2.2.2.2.2.2.2.1]
    simp [afterResize, World.emit, resizeFrames_length]

theorem initFrames_withUi (e : InitEnv) (s : Bool) (r p f : Option Handle)
    (frs : List FrameCtx) :
    ∀ i, initFrames (e.withUi s r p f) i frs = initFrames e i frs := by
  induction frs with
  | nil => intro i; rfl
  | cons fr rest ih =>
    intro i
    simp only [initFrames]
    rw [ih (i + 1)]
    rfl

theorem createManagerObjects_withUi (w : World) (e : InitEnv) (s : Bool)
    (r p f : Option Handle) :
    createManagerObjects w (e.withUi s r p f) = createManagerObjects w e := by
  simp only [createManagerObjects]
  rw [initFrames_withUi]
  rfl

theorem init_withUi (w : World) (sc q : Option Handle) (e : InitEnv) (s : Bool)
    (r p f : Option Handle) :
    (SK_D3D12_RenderCtx.init w sc q (e.withUi s r p f)).1 = (SK_D3D12_RenderCtx.init w sc q e).1 ∧
    (SK_D3D12_RenderCtx.init w sc q (e.withUi s r p f)).2.rbk
      = (SK_D3D12_RenderCtx.init w sc q e).2.rbk := by
  have h1 : resolveDevice (enterInit w q) sc (e.withUi s r p f)
      = resolveDevice (enterInit w q) sc e := rfl
  have h2 : ∀ x : World, afterResize x (e.withUi s r p f) = afterResize x e := fun _ => rfl
  simp only [SK_D3D12_RenderCtx.init, initAfterCooldown, initCreate, h1, h2,
    createManagerObjects_withUi]
  split_ifs <;> simp [createDeviceObjects_rbk, ImGui_ImplDX12_Init]

/-! ### Presenting: what one `present` does to the fence value of a slot -/

theorem countSignals_append (i : Nat) (a b : List Event) :
    countSignals i (a ++ b) = countSignals i a + countSignals i b := by
  induction a with
  | nil => simp [countSignals]
  | cons ev rest ih =>
    cases ev with
    | Signal j f v ok =>
      cases ok <;> simp [countSignals, ih]; omega
    | _ => simp [countSignals, ih]

theorem Extends.refl (w : World) (i : Nat) : Extends w w i 0 :=
  ⟨[], (List.append_nil _).symm, rfl, fun _ _ => rfl⟩

theorem Extends.trans {w w1 w2 : World} {i a b : Nat}
    (h1 : Extends w w1 i a) (h2 : Extends w1 w2 i b) : Extends w w2 i (a + b) := by
  obtain ⟨d1, e1, c1, o1⟩ := h1
  obtain ⟨d2, e2, c2, o2⟩ := h2
  refine ⟨d1 ++ d2, by rw [e2, e1, List.append_assoc], ?_, ?_⟩
  · rw [countSignals_append, c1, c2]
  · intro j hj
    rw [countSignals_append, o1 j hj, o2 j hj]

theorem Extends.emit (w : World) (i : Nat) (es : List Event)
    (ho : ∀ j, j ≠ i → countSignals j es = 0) :
    Extends w (w.emit es) i (countSignals i es) :=
  ⟨es, rfl, rfl, ho⟩

theorem countSignals_zero (es : List Event)
    (h : ∀ j f v, Event.Signal j f v true ∉ es) : ∀ i, countSignals i es = 0 := by
  induction es with
  | nil => intro i; rfl
  | cons ev rest ih =>
    intro i
    have hr : ∀ j f v, Event.Signal j f v true ∉ rest := fun j f v hm =>
      h j f v (List.mem_cons_of_mem _ hm)
    cases ev with
    | Signal j f v ok =>
      cases ok with
      | false => simpa [countSignals] using ih hr i
      | true => exact absurd (List.mem_cons_self _ _) (h j f v)
    | _ => simpa [countSignals] using ih hr i

theorem Extends.emit0 (w : World) (i : Nat) (es : List Event)
    (h : ∀ j f v, Event.Signal j f v true ∉ es) : Extends w (w.emit es) i 0 :=
  ⟨es, rfl, countSignals_zero es h i, fun j _ => countSignals_zero es h j⟩

theorem Extends.of_trace {w w' : World} {i n : Nat} (w'' : World)
    (h : Extends w w' i n) (ht : w''.trace = w'.trace) : Extends w w'' i n := by
  obtain ⟨d, e, c, o⟩ := h
  exact ⟨d, by rw [ht, e], c, o⟩

theorem callSetPipelineState_keeps (w : World) (e : HookEnv) (This : Handle)
    (p : Option Handle) (i : Nat) :
    (callSetPipelineState w e This p).rbk = w.rbk ∧
    (callSetPipelineState w e This p).imgui = w.imgui ∧
    Extends w (callSetPipelineState w e This p) i 0 := by
  unfold callSetPipelineState D3D12GraphicsCommandList_SetPipelineState_Detour
  cases p with
  | none =>
    simp only [World.emit]
    split
    · exact ⟨rfl, rfl, ⟨_, rfl, rfl, fun _ _ => rfl⟩⟩
    · exact ⟨rfl, rfl, ⟨_, rfl, rfl, fun _ _ => rfl⟩⟩
  | some pso =>
    simp only [World.emit, World.setDisable]
    split
    · split
      · exact ⟨rfl, rfl, ⟨_, rfl, rfl, fun _ _ => rfl⟩⟩
      · split
        · exact ⟨rfl, rfl, ⟨_, rfl, rfl, fun _ _ => rfl⟩⟩
        · exact ⟨rfl, rfl, ⟨_, rfl, rfl, fun _ _ => rfl⟩⟩
    · exact ⟨rfl, rfl, ⟨_, rfl, rfl, fun _ _ => rfl⟩⟩

theorem callDrawInstanced_keeps (w : World) (This : Handle) (a b c d : Nat) (i : Nat) :
    (callDrawInstanced w This a b c d).rbk = w.rbk ∧
    Extends w (callDrawInstanced w This a b c d) i 0 := by
  unfold callDrawInstanced D3D12GraphicsCommandList_DrawInstanced_Detour
  simp only [World.emit]
  split
  · split
    · exact ⟨rfl, Extends.refl w i⟩
    · exact ⟨rfl, ⟨_, rfl, rfl, fun _ _ => rfl⟩⟩
  · exact ⟨rfl, ⟨_, rfl, rfl, fun _ _ => rfl⟩⟩

theorem callDrawIndexedInstanced_keeps (w : World) (This : Handle) (a b c : Nat) (d : Int)
    (f : Nat) (i : Nat) :
    (callDrawIndexedInstanced w This a b c d f).rbk = w.rbk ∧
    Extends w (callDrawIndexedInstanced w This a b c d f) i 0 := by
  unfold callDrawIndexedInstanced D3D12GraphicsCommandList_DrawIndexedInstanced_Detour
  simp only [World.emit]
  split
  · split
    · exact ⟨rfl, Extends.refl w i⟩
    · exact ⟨rfl, ⟨_, rfl, rfl, fun _ _ => rfl⟩⟩
  · exact ⟨rfl, ⟨_, rfl, rfl, fun _ _ => rfl⟩⟩

theorem begin_cmd_list_keeps (w : World) (e : HookEnv) (fr : FrameCtx) (st : Option Handle)
    (ok : Bool) (i : Nat) :
    (fr.begin_cmd_list w e st ok).2.1.rbk = w.rbk ∧
    Extends w (fr.begin_cmd_list w e st ok).2.1 i 0 ∧
    (fr.begin_cmd_list w e st ok).2.2.fence = fr.fence ∧
    (fr.begin_cmd_list w e st ok).2.2.iBufferIdx = fr.iBufferIdx := by
  unfold FrameCtx.begin_cmd_list
  split
  · exact ⟨rfl, ⟨[], (List.append_nil _).symm, rfl, fun _ _ => rfl⟩, rfl, rfl⟩
  · split
    · split
      · exact ⟨rfl, Extends.refl w i, rfl, rfl⟩
      · exact ⟨(callSetPipelineState_keeps w e _ _ i).1, (callSetPipelineState_keeps w e _ _ i).2.2,
          rfl, rfl⟩
    · split
      · exact ⟨rfl, (Extends.emit0 w i _ (by simp)).trans (Extends.emit0 _ i _ (by simp)),
          rfl, rfl⟩
      · exact ⟨rfl, Extends.emit0 w i _ (by simp), rfl, rfl⟩

theorem exec_cmd_list_core_keeps (fr : FrameCtx) (ok : Bool) (idx : Nat) :
    (fr.exec_cmd_list_core ok idx).1.fence = fr.fence ∧
    (fr.exec_cmd_list_core ok idx).1.iBufferIdx = fr.iBufferIdx ∧
    ∀ j, countSignals j (fr.exec_cmd_list_core ok idx).2.1 = 0 := by
  unfold FrameCtx.exec_cmd_list_core
  split
  · split
    · exact ⟨rfl, rfl, fun _ => rfl⟩
    · exact ⟨rfl, rfl, fun _ => rfl⟩
  · exact ⟨rfl, rfl, fun _ => rfl⟩

theorem wait_for_gpu_core_keeps (fr : FrameCtx) (c s v : Bool) (idx : Nat) :
    (fr.wait_for_gpu_core c s v idx).2.1.iBufferIdx = fr.iBufferIdx ∧
    ((fr.wait_for_gpu_core c s v idx).2.2.2 = false →
      (fr.wait_for_gpu_core c s v idx).2.1.fence.value
        = fr.fence.value + countSignals fr.iBufferIdx (fr.wait_for_gpu_core c s v idx).2.2.1 ∧
      ∀ j, j ≠ fr.iBufferIdx → countSignals j (fr.wait_for_gpu_core c s v idx).2.2.1 = 0) := by
  have hx := exec_cmd_list_core_keeps fr c idx
  unfold FrameCtx.wait_for_gpu_core
  by_cases hrec : fr.bCmdListRecording = true
  · simp only [hrec, if_true]
    split
    · exact ⟨hx.2.1, fun h => by simp at h⟩
    · split
      · exact ⟨hx.2.1, fun _ => ⟨by rw [hx.1, hx.2.2]; rfl, fun j _ => hx.2.2 j⟩⟩
      · split
        · refine ⟨hx.2.1, fun _ => ⟨?_, ?_⟩⟩
          · simp only [countSignals_append, hx.2.2, hx.1, hx.2.1]
            cases v <;> simp [countSignals]
          · intro j hj
            simp only [countSignals_append, hx.2.2, hx.2.1]
            cases v <;> simp [countSignals, Ne.symm hj]
        · refine ⟨hx.2.1, fun _ => ⟨?_, ?_⟩⟩
          · simp only [countSignals_append, hx.2.2, hx.1]
            simp [countSignals]
          · intro j _
            simp only [countSignals_append, hx.2.2]
            simp [countSignals]
  · simp only [hrec, if_false, Bool.false_eq_true]
    split
    · exact ⟨rfl, fun _ => ⟨rfl, fun _ _ => rfl⟩⟩
    · split
      · refine ⟨rfl, fun _ => ⟨?_, ?_⟩⟩
        · cases v <;> simp [countSignals]
        · intro j hj
          cases v <;> simp [countSignals, Ne.symm hj]
      · exact ⟨rfl, fun _ => ⟨by simp [countSignals], fun j _ => by simp [countSignals]⟩⟩

theorem release_self_frames (w : World) (re : ReleaseEnv) :
    (SK_D3D12_RenderCtx.release w w.rbk._pSwapChain re).rbk.frames_ = [] := by
  unfold SK_D3D12_RenderCtx.release
  have h : ((w.rbk._pSwapChain.isSome && w.rbk._pSwapChain.isNone)
      || IsEqualObject w.rbk._pSwapChain w.rbk._pSwapChain) = true := by
    simp [IsEqualObject]
  rw [if_pos h]

theorem wait_for_gpu_keeps (w : World) (pos : Nat) (fr : FrameCtx) (c s v : Bool) (idx : Nat)
    (re : ReleaseEnv) :
    ((fr.wait_for_gpu w pos c s v idx re).2.2.2 = true →
      (fr.wait_for_gpu w pos c s v idx re).2.1.rbk.frames_ = []) ∧
    ((fr.wait_for_gpu w pos c s v idx re).2.2.2 = false →
      (fr.wait_for_gpu w pos c s v idx re).2.1.rbk = w.rbk ∧
      (fr.wait_for_gpu w pos c s v idx re).2.1.imgui = w.imgui ∧
      (fr.wait_for_gpu w pos c s v idx re).2.2.1.iBufferIdx = fr.iBufferIdx ∧
      ∃ n, Extends w (fr.wait_for_gpu w pos c s v idx re).2.1 fr.iBufferIdx n ∧
        (fr.wait_for_gpu w pos c s v idx re).2.2.1.fence.value = fr.fence.value + n) := by
  have hc := wait_for_gpu_core_keeps fr c s v idx
  unfold FrameCtx.wait_for_gpu
  by_cases hrel : (fr.wait_for_gpu_core c s v idx).2.2.2 = true
  · simp only [hrel, if_true]
    refine ⟨fun _ => ?_, fun h => by simp at h⟩
    exact release_self_frames _ re
  · simp only [hrel, if_false, Bool.false_eq_true]
    refine ⟨fun h => by simp at h, fun _ => ⟨rfl, rfl, hc.1, ?_⟩⟩
    have hc2 := hc.2 (by simpa using hrel)
    exact ⟨_, ⟨_, rfl, rfl, hc2.2⟩, hc2.1⟩

theorem renderCmds_keeps (This : Handle) (vtx : Int) (i : Nat) (cmds : List ImDrawCmd) :
    ∀ (w : World) (off : Nat),
      (renderCmds This vtx w off cmds).1.rbk = w.rbk ∧
      Extends w (renderCmds This vtx w off cmds).1 i 0 := by
  induction cmds with
  | nil => intro w off; exact ⟨rfl, Extends.refl w i⟩
  | cons c rest ih =>
    intro w off
    simp only [renderCmds]
    split
    · rename_i cb _
      have h := ih (w.emit [Event.call This (Cmd.UserCallback cb)]) (wrapUINT (off + c.ElemCount))
      exact ⟨h.1, (Extends.emit0 w i _ (by simp)).trans h.2⟩
    · have hd := callDrawIndexedInstanced_keeps
        (w.emit [Event.call This (Cmd.SetGraphicsRootDescriptorTable 1 c.TextureId),
                 Event.call This (Cmd.RSSetScissorRects
                   { left := toLONG (c.ClipRect.x - 0), top := toLONG (c.ClipRect.y - 0),
                     right := toLONG (c.ClipRect.z - 0), bottom := toLONG (c.ClipRect.w - 0) })])
        This c.ElemCount 1 off vtx 0 i
      have h := ih (callDrawIndexedInstanced
        (w.emit [Event.call This (Cmd.SetGraphicsRootDescriptorTable 1 c.TextureId),
                 Event.call This (Cmd.RSSetScissorRects
                   { left := toLONG (c.ClipRect.x - 0), top := toLONG (c.ClipRect.y - 0),
                     right := toLONG (c.ClipRect.z - 0), bottom := toLONG (c.ClipRect.w - 0) })])
        This c.ElemCount 1 off vtx 0) (wrapUINT (off + c.ElemCount))
      refine ⟨h.1.trans hd.1, ?_⟩
      exact ((Extends.emit0 w i _ (by simp)).trans hd.2).trans h.2

theorem renderLists_keeps (This : Handle) (i : Nat) (ls : List ImDrawList) :
    ∀ (w : World) (off : Nat) (vtx : Int),
      (renderLists This w off vtx ls).rbk = w.rbk ∧
      Extends w (renderLists This w off vtx ls) i 0 := by
  induction ls with
  | nil => intro w off vtx; exact ⟨rfl, Extends.refl w i⟩
  | cons l rest ih =>
    intro w off vtx
    simp only [renderLists]
    have h1 := renderCmds_keeps This vtx i l.CmdBuffer w off
    have h2 := ih (renderCmds This vtx w off l.CmdBuffer).1
      (renderCmds This vtx w off l.CmdBuffer).2 (wrapINT (vtx + l.VtxBuffer.length))
    exact ⟨h2.1.trans h1.1, h1.2.trans h2.2⟩

theorem uiSetup_keeps (w : World) (e : UiEnv) (This : Handle) (fr : FrameCtx) (h : FrameHeap)
    (i : Nat) :
    (uiSetup w e This fr h).rbk = w.rbk ∧ Extends w (uiSetup w e This fr h) i 0 := by
  have h1 := Extends.emit0 w i [Event.call This (Cmd.SetGraphicsRootSignature w.imgui.pRootSignature)]
    (by simp)
  have h2 := callSetPipelineState_keeps
    (w.emit [Event.call This (Cmd.SetGraphicsRootSignature w.imgui.pRootSignature)]) e.hook This
    (w.emit [Event.call This (Cmd.SetGraphicsRootSignature
      w.imgui.pRootSignature)]).imgui.pPipelineState i
  unfold uiSetup
  simp only []
  generalize hw2 : callSetPipelineState
    (w.emit [Event.call This (Cmd.SetGraphicsRootSignature w.imgui.pRootSignature)]) e.hook This
    (w.emit [Event.call This (Cmd.SetGraphicsRootSignature
      w.imgui.pRootSignature)]).imgui.pPipelineState = w2 at h2 ⊢
  have h12 := h1.trans h2.2.2
  have h3 := Extends.emit0 w2 i
    [Event.call This (Cmd.OMSetRenderTargets fr.hRenderOutput),
     Event.call This (Cmd.SetDescriptorHeaps w2.rbk.descriptorHeaps.pImGui)] (by simp)
  have h123 := h12.trans h3
  split
  · refine ⟨h2.1, ?_⟩
    exact (Extends.of_trace _ h123 rfl).trans (Extends.emit0 _ i _ (by simp))
  · split
    · refine ⟨h2.1, ?_⟩
      exact (Extends.of_trace _ h123 rfl).trans (Extends.emit0 _ i _ (by simp))
    · refine ⟨h2.1, ?_⟩
      exact (Extends.of_trace _ h123 rfl).trans (Extends.emit0 _ i _ (by simp))

theorem growBuffers_events (h : FrameHeap) (d : ImDrawData) (e : UiEnv) :
    ∀ j f v, Event.Signal j f v true ∉ (growBuffers h d e).2.2 := by
  intro j f v
  unfold growBuffers
  cases e.createVb <;> cases e.createIb <;> simp only [] <;>
    split_ifs <;> simp [created]

theorem LocalStep.unchanged (w w' : World) (fr fr' : FrameCtx) (hr : w'.rbk = w.rbk)
    (hi : fr'.iBufferIdx = fr.iBufferIdx) (hf : fr'.fence = fr.fence)
    (hx : Extends w w' fr.iBufferIdx 0) : LocalStep w fr (w', fr', false) :=
  ⟨fun h => by simp at h, fun _ => ⟨hr, hi, 0, hx, by rw [hf]; rfl⟩⟩

theorem LocalStep.chain {w w1 : World} {fr fr1 : FrameCtx} {r : World × FrameCtx × Bool}
    (hr : w1.rbk = w.rbk) (hi : fr1.iBufferIdx = fr.iBufferIdx) {n : Nat}
    (hx : Extends w w1 fr.iBufferIdx n) (hv : fr1.fence.value = fr.fence.value + n)
    (h : LocalStep w1 fr1 r) : LocalStep w fr r := by
  refine ⟨h.1, fun hf => ?_⟩
  obtain ⟨h1, h2, m, h3, h4⟩ := h.2 hf
  refine ⟨h1.trans hr, h2.trans hi, n + m, ?_, ?_⟩
  · rw [hi] at h3
    exact hx.trans h3
  · rw [h4, hv]; omega

theorem uiSyncStage_step (w : World) (e : UiEnv) (d : ImDrawData) (pos : Nat) (fr : FrameCtx) :
    LocalStep w fr ((uiSyncStage w e d pos fr).2.1, (uiSyncStage w e d pos fr).2.2.1,
      (uiSyncStage w e d pos fr).2.2.2) := by
  have hw := wait_for_gpu_keeps w pos fr e.drainCloseOk e.drainSignalOk e.drainSetEventOk
    e.currentIdx e.release
  unfold uiSyncStage
  simp only []
  split
  · split
    · rename_i hrel
      exact ⟨fun _ => hw.1 hrel, fun h => by simp at h⟩
    · rename_i hrel
      have hk := hw.2 (by simpa using hrel)
      split
      · exact ⟨fun h => by simp at h, fun _ => ⟨hk.1, hk.2.2.1, hk.2.2.2⟩⟩
      · split
        · refine ⟨fun h => by simp at h, fun _ => ⟨hk.1, hk.2.2.1, ?_⟩⟩
          obtain ⟨n, hx, hv⟩ := hk.2.2.2
          refine ⟨n, ?_, hv⟩
          have := (Extends.of_trace (setHeap
            (FrameCtx.wait_for_gpu w pos fr e.drainCloseOk e.drainSignalOk e.drainSetEventOk
              e.currentIdx e.release).2.1 fr.iBufferIdx
            (growBuffers (heapAt w fr.iBufferIdx) d e).2.1) hx rfl).trans
            (Extends.emit0 _ fr.iBufferIdx (growBuffers (heapAt w fr.iBufferIdx) d e).2.2
              (growBuffers_events _ d e))
          simpa using this
        · exact ⟨fun _ => release_self_frames _ e.release, fun h => by simp at h⟩
  · exact LocalStep.unchanged w w fr fr rfl rfl rfl (Extends.refl w _)

theorem uiRecordStage_step (w : World) (e : UiEnv) (d : ImDrawData) (pos : Nat) (fr : FrameCtx) :
    LocalStep w fr (uiRecordStage w e d pos fr) := by
  have hb := begin_cmd_list_keeps w e.hook fr none e.rebeginResetOk fr.iBufferIdx
  unfold uiRecordStage
  simp only []
  split
  · exact ⟨fun _ => release_self_frames _ e.release, fun h => by simp at h⟩
  · split
    · exact LocalStep.unchanged w _ fr _ hb.1 hb.2.2.2 hb.2.2.1 hb.2.1
    · split
      · exact LocalStep.unchanged w _ fr _ hb.1 hb.2.2.2 hb.2.2.1 (Extends.of_trace _ hb.2.1 rfl)
      · rename_i This _
        have hs := uiSetup_keeps (fr.begin_cmd_list w e.hook none e.rebeginResetOk).2.1 e This
          (fr.begin_cmd_list w e.hook none e.rebeginResetOk).2.2
          (heapAt (fr.begin_cmd_list w e.hook none e.rebeginResetOk).2.1
            (fr.begin_cmd_list w e.hook none e.rebeginResetOk).2.2.iBufferIdx) fr.iBufferIdx
        have hl := renderLists_keeps This fr.iBufferIdx d.CmdLists
          (uiSetup (fr.begin_cmd_list w e.hook none e.rebeginResetOk).2.1 e This
            (fr.begin_cmd_list w e.hook none e.rebeginResetOk).2.2
            (heapAt (fr.begin_cmd_list w e.hook none e.rebeginResetOk).2.1
              (fr.begin_cmd_list w e.hook none e.rebeginResetOk).2.2.iBufferIdx)) 0 0
        exact LocalStep.unchanged w _ fr _ ((hl.1.trans hs.1).trans hb.1) hb.2.2.2 hb.2.2.1
          ((hb.2.1.trans hs.2).trans hl.2)

theorem renderDrawData_step (w : World) (e : UiEnv) (d : ImDrawData) (pos : Nat)
    (fr : FrameCtx) : LocalStep w fr (ImGui_ImplDX12_RenderDrawData w e d pos fr) := by
  have hb := begin_cmd_list_keeps w e.hook fr none e.beginResetOk fr.iBufferIdx
  unfold ImGui_ImplDX12_RenderDrawData
  simp only []
  split
  · exact LocalStep.unchanged w w fr fr rfl rfl rfl (Extends.refl w _)
  · split
    · exact LocalStep.unchanged w _ fr _ hb.1 hb.2.2.2 hb.2.2.1 hb.2.1
    · have hs := uiSyncStage_step (fr.begin_cmd_list w e.hook none e.beginResetOk).2.1 e d pos
        (fr.begin_cmd_list w e.hook none e.beginResetOk).2.2
      have hv0 : (fr.begin_cmd_list w e.hook none e.beginResetOk).2.2.fence.value
          = fr.fence.value + 0 := by rw [hb.2.2.1]; rfl
      split
      · exact LocalStep.chain hb.1 hb.2.2.2 hb.2.1 hv0 hs
      · rename_i hcont
        by_cases hrel : (uiSyncStage (fr.begin_cmd_list w e.hook none e.beginResetOk).2.1 e d pos
            (fr.begin_cmd_list w e.hook none e.beginResetOk).2.2).2.2.2 = true
        · -- the sync stage never continues after a release
          exfalso
          revert hcont hrel
          unfold uiSyncStage
          simp only []
          split_ifs <;> simp
        · obtain ⟨h1, h2, n, h3, h4⟩ := hs.2 (by simpa using hrel)
          have hr := uiRecordStage_step
            (uiSyncStage (fr.begin_cmd_list w e.hook none e.beginResetOk).2.1 e d pos
              (fr.begin_cmd_list w e.hook none e.beginResetOk).2.2).2.1 e d pos
            (uiSyncStage (fr.begin_cmd_list w e.hook none e.beginResetOk).2.1 e d pos
              (fr.begin_cmd_list w e.hook none e.beginResetOk).2.2).2.2.1
          have h5 := LocalStep.chain h1 h2 h3 h4 hr
          exact LocalStep.chain hb.1 hb.2.2.2 hb.2.1 hv0 h5

theorem presentHDR_keeps (w : World) (e : PresentEnv) (This : Handle) (fr : FrameCtx) (i : Nat) :
    (presentHDR w e This fr).rbk = w.rbk ∧ Extends w (presentHDR w e This fr) i 0 := by
  unfold presentHDR
  simp only []
  generalize hw2 : (match (_InitCopyTextureRegionHook w).rbk.pHDRPipeline with
    | none => ({ _InitCopyTextureRegionHook w with ub := true } : World)
    | some pso =>
      if ((_InitCopyTextureRegionHook w).setDisable pso false).hdrCriticalOnce = true then
        (_InitCopyTextureRegionHook w).setDisable pso false
      else
        { (_InitCopyTextureRegionHook w).setDisable pso false with
            hdrCriticalOnce := true,
            criticalVertexShaders :=
              pso :: ((_InitCopyTextureRegionHook w).setDisable pso false).criticalVertexShaders })
    = w2
  have hk : w2.rbk = w.rbk ∧ w2.trace = w.trace := by
    subst hw2
    split
    · exact ⟨rfl, rfl⟩
    · split <;> exact ⟨rfl, rfl⟩
  have h0 : Extends w w2 i 0 := Extends.of_trace w2 (Extends.refl w i) hk.2
  have h1 := Extends.emit0 w2 i
    [Event.call This (Cmd.SetGraphicsRootSignature w2.rbk.pHDRSignature)] (by simp)
  have h2 := callSetPipelineState_keeps
    (w2.emit [Event.call This (Cmd.SetGraphicsRootSignature w2.rbk.pHDRSignature)]) e.ui.hook This
    (w2.emit [Event.call This (Cmd.SetGraphicsRootSignature
      w2.rbk.pHDRSignature)]).rbk.pHDRPipeline i
  generalize hw4 : callSetPipelineState
    (w2.emit [Event.call This (Cmd.SetGraphicsRootSignature w2.rbk.pHDRSignature)]) e.ui.hook This
    (w2.emit [Event.call This (Cmd.SetGraphicsRootSignature
      w2.rbk.pHDRSignature)]).rbk.pHDRPipeline = w4 at h2 ⊢
  have h3 := Extends.emit0 w4 i
    [Event.call This (Cmd.SetGraphicsRoot32BitConstants 0 4),
     Event.call This (Cmd.SetGraphicsRoot32BitConstants 1 16),
     Event.call This Cmd.OMSetBlendFactor,
     Event.call This (Cmd.IASetPrimitiveTopology true),
     Event.call This (Cmd.CopyResource fr.hdr.pSwapChainCopy fr.pRenderOutput),
     Event.call This (Cmd.ResourceBarrier 2),
     Event.call This (Cmd.SetDescriptorHeaps w4.rbk.descriptorHeaps.pHDR),
     Event.call This (Cmd.SetGraphicsRootDescriptorTable 2 fr.hdr.hSwapChainCopy_GPU),
     Event.call This (Cmd.OMSetRenderTargets fr.hRenderOutput),
     Event.call This Cmd.RSSetViewports,
     Event.call This (Cmd.RSSetScissorRects
       { left := 0, top := 0, right := fr.hdr.scissorRight, bottom := fr.hdr.scissorBottom })]
    (by simp)
  have h4 := callDrawInstanced_keeps (w4.emit
    [Event.call This (Cmd.SetGraphicsRoot32BitConstants 0 4),
     Event.call This (Cmd.SetGraphicsRoot32BitConstants 1 16),
     Event.call This Cmd.OMSetBlendFactor,
     Event.call This (Cmd.IASetPrimitiveTopology true),
     Event.call This (Cmd.CopyResource fr.hdr.pSwapChainCopy fr.pRenderOutput),
     Event.call This (Cmd.ResourceBarrier 2),
     Event.call This (Cmd.SetDescriptorHeaps w4.rbk.descriptorHeaps.pHDR),
     Event.call This (Cmd.SetGraphicsRootDescriptorTable 2 fr.hdr.hSwapChainCopy_GPU),
     Event.call This (Cmd.OMSetRenderTargets fr.hRenderOutput),
     Event.call This Cmd.RSSetViewports,
     Event.call This (Cmd.RSSetScissorRects
       { left := 0, top := 0, right := fr.hdr.scissorRight, bottom := fr.hdr.scissorBottom })])
    This 3 1 0 0 i
  refine ⟨((h4.1.trans rfl).trans h2.1).trans hk.1, ?_⟩
  exact ((((h0.trans h1).trans h2.2.2).trans h3).trans h4.2).trans (Extends.emit0 _ i _ (by simp))

theorem presentSubmit_step (w : World) (e : PresentEnv) (This : Handle) (pos : Nat)
    (fr : FrameCtx) : SlotStep w (presentSubmit w e This pos fr) pos fr := by
  have hx := exec_cmd_list_core_keeps fr e.closeOk e.ui.currentIdx
  unfold presentSubmit FrameCtx.exec_cmd_list
  simp only []
  by_cases hrel : (fr.exec_cmd_list_core e.closeOk e.ui.currentIdx).2.2 = true
  · simp only [hrel, if_true]
    exact Or.inl (release_self_frames _ e.ui.release)
  · simp only [hrel, if_false, Bool.false_eq_true]
    refine Or.inr ⟨(presentSignal (fr.exec_cmd_list_core e.closeOk e.ui.currentIdx).1
      e.signalOk).1, countSignals fr.iBufferIdx (presentSignal
        (fr.exec_cmd_list_core e.closeOk e.ui.currentIdx).1 e.signalOk).2, rfl, ?_, ?_, ?_⟩
    · have h1 := Extends.emit0 w fr.iBufferIdx [Event.call This (Cmd.ResourceBarrier 1)] (by simp)
      have h2 := Extends.emit0 (w.emit [Event.call This (Cmd.ResourceBarrier 1)]) fr.iBufferIdx
        (fr.exec_cmd_list_core e.closeOk e.ui.currentIdx).2.1
        (by
          intro j f v
          unfold FrameCtx.exec_cmd_list_core
          split_ifs <;> simp)
      have h3 := Extends.emit
        ((w.emit [Event.call This (Cmd.ResourceBarrier 1)]).emit
          (fr.exec_cmd_list_core e.closeOk e.ui.currentIdx).2.1) fr.iBufferIdx
        (presentSignal (fr.exec_cmd_list_core e.closeOk e.ui.currentIdx).1 e.signalOk).2
        (by
          intro j hj
          unfold presentSignal
          simp only [hx.2.1]
          split <;> simp [countSignals, Ne.symm hj])
      have := (h1.trans h2).trans h3
      simp only [Nat.zero_add] at this
      exact Extends.of_trace _ this rfl
    · unfold presentSignal
      simp only [hx.2.1]
      split <;> simp [countSignals, hx.1]
    · unfold presentSignal
      simp only []
      split <;> exact hx.2.1

theorem set_same (l : List FrameCtx) (i : Nat) (a : FrameCtx) (h : l[i]? = some a) :
    l.set i a = l := by
  induction l generalizing i with
  | nil => rfl
  | cons x xs ih =>
    cases i with
    | zero =>
      simp only [List.getElem?_cons_zero, Option.some.injEq] at h
      simp [h]
    | succ k =>
      simp only [List.getElem?_cons_succ] at h
      simp [ih k h]

theorem SlotStep.stay {w w' : World} {pos : Nat} {fr : FrameCtx}
    (hget : w.rbk.frames_[pos]? = some fr) (hr : w'.rbk = w.rbk)
    (hx : Extends w w' fr.iBufferIdx 0) : SlotStep w w' pos fr := by
  refine Or.inr ⟨fr, 0, ?_, hx, rfl, rfl⟩
  rw [hr, set_same _ _ _ hget]

theorem SlotStep.compose {w w1 w' : World} {pos : Nat} {fr fr1 : FrameCtx} {n : Nat}
    (hr : w1.rbk = w.rbk) (hi : fr1.iBufferIdx = fr.iBufferIdx)
    (hx : Extends w w1 fr.iBufferIdx n) (hv : fr1.fence.value = fr.fence.value + n)
    (h : SlotStep w1 w' pos fr1) : SlotStep w w' pos fr := by
  rcases h with h | ⟨fr', m, h1, h2, h3, h4⟩
  · exact Or.inl h
  · refine Or.inr ⟨fr', n + m, ?_, ?_, ?_, h4.trans hi⟩
    · rw [h1, hr]
    · rw [hi] at h2
      exact hx.trans h2
    · rw [h3, hv]; omega

theorem presentRecord_step (w : World) (e : PresentEnv) (This : Handle) (pos : Nat)
    (fr : FrameCtx) : SlotStep w (presentRecord w e This pos fr) pos fr := by
  unfold presentRecord
  simp only []
  generalize hw2 : (if (e.dump_on_load || e.inject_textures) = true then
      _InitCopyTextureRegionHook (_InitDrawCommandHooks w) else _InitDrawCommandHooks w) = w2
  have hk : w2.rbk = w.rbk ∧ w2.trace = w.trace := by
    subst hw2
    split <;> exact ⟨rfl, rfl⟩
  have h0 : Extends w w2 fr.iBufferIdx 0 := Extends.of_trace w2 (Extends.refl w _) hk.2
  generalize hw3 : (if (e.hdr16BitSwap && fr.hdr.pSwapChainCopy.isSome &&
        fr.hdr.copyFormat == DXGI_FORMAT_R16G16B16A16_FLOAT &&
        w2.rbk.pHDRPipeline.isSome && w2.rbk.pHDRSignature.isSome) = true
      then presentHDR w2 e This fr
      else w2.emit [Event.call This (Cmd.ResourceBarrier 1)]) = w3
  have hk3 : w3.rbk = w.rbk ∧ Extends w w3 fr.iBufferIdx 0 := by
    subst hw3
    split
    · have := presentHDR_keeps w2 e This fr fr.iBufferIdx
      exact ⟨this.1.trans hk.1, h0.trans this.2⟩
    · exact ⟨hk.1, h0.trans (Extends.emit0 w2 _ _ (by simp))⟩
  split
  · exact SlotStep.compose hk3.1 rfl hk3.2 rfl (presentSubmit_step w3 e This pos fr)
  · rename_i d _
    have hu := renderDrawData_step w3 e.ui d pos fr
    split
    · rename_i hrel
      exact Or.inl (hu.1 hrel)
    · rename_i hrel
      obtain ⟨h1, h2, n, h3, h4⟩ := hu.2 (by simpa using hrel)
      have hs := presentSubmit_step (ImGui_ImplDX12_RenderDrawData w3 e.ui d pos fr).1 e This pos
        (ImGui_ImplDX12_RenderDrawData w3 e.ui d pos fr).2.1
      exact SlotStep.compose hk3.1 rfl hk3.2 rfl (SlotStep.compose h1 h2 h3 h4 hs)

theorem presentFrame_step (w : World) (e : PresentEnv) (pos : Nat) (fr : FrameCtx)
    (hget : w.rbk.frames_[pos]? = some fr) :
    SlotStep w (presentFrame w e pos fr) pos fr := by
  unfold presentFrame
  simp only []
  split
  · exact SlotStep.stay hget rfl (Extends.refl w _)
  · generalize hw1 : (if e.completedValue < fr.fence.value then
        w.emit ([Event.SetEventOnCompletion fr.iBufferIdx fr.fence.value e.setEventOk]
                 ++ (if e.setEventOk = true then [Event.Wait fr.iBufferIdx] else []))
        else w) = w1
    have hk : w1.rbk = w.rbk ∧ Extends w w1 fr.iBufferIdx 0 := by
      subst hw1
      split
      · refine ⟨rfl, Extends.emit0 w _ _ ?_⟩
        intro j f v
        split <;> simp
      · exact ⟨rfl, Extends.refl w _⟩
    split
    · split
      · exact SlotStep.stay hget hk.1 (Extends.of_trace _ hk.2 rfl)
      · exact SlotStep.compose hk.1 rfl hk.2 rfl (presentRecord_step w1 e _ pos fr)
    · split
      · exact SlotStep.stay hget hk.1 (Extends.of_trace _ hk.2 rfl)
      · have hb := begin_cmd_list_keeps (w1.emit [Event.AllocatorReset fr.iBufferIdx]) e.ui.hook
          fr none e.resetOk fr.iBufferIdx
        have ha : Extends w (w1.emit [Event.AllocatorReset fr.iBufferIdx]) fr.iBufferIdx 0 :=
          hk.2.trans (Extends.emit0 w1 _ _ (by simp))
        have hab := ha.trans hb.2.1
        have hrb : (fr.begin_cmd_list (w1.emit [Event.AllocatorReset fr.iBufferIdx]) e.ui.hook
            none e.resetOk).2.1.rbk = w.rbk := hb.1.trans hk.1
        split
        · refine Or.inr ⟨_, 0, ?_, Extends.of_trace _ hab rfl, ?_, hb.2.2.2⟩
          · simp only [storeFrame, hrb]
          · rw [hb.2.2.1]; rfl
        · split
          · exact SlotStep.stay hget hrb (Extends.of_trace _ hab rfl)
          · exact SlotStep.compose hrb hb.2.2.2 hab (by rw [hb.2.2.1]; rfl)
              (presentRecord_step _ e _ pos _)

theorem tracked_of_extends {w w' : World} {n0 pos n : Nat} {fr fr' : FrameCtx}
    (ht : Tracked w n0) (hget : w.rbk.frames_[pos]? = some fr)
    (hr : w'.rbk = { w.rbk with frames_ := w.rbk.frames_.set pos fr' })
    (hx : Extends w w' pos n) (hv : fr'.fence.value = fr.fence.value + n)
    (hi : fr'.iBufferIdx = pos) :
    Tracked w' n0 ∧
    (∀ (i : Nat) (f f' : FrameCtx), w.rbk.frames_[i]? = some f → w'.rbk.frames_[i]? = some f' →
      f.fence.value ≤ f'.fence.value) ∧
    w.trace <+: w'.trace := by
  obtain ⟨d, hd, hc, ho⟩ := hx
  obtain ⟨hlen, hdev, hall⟩ := ht
  have hdrop : w'.trace.drop n0 = w.trace.drop n0 ++ d := by
    rw [hd, List.drop_append_of_le_length hlen]
  have hfr' : ∀ (i : Nat) (f' : FrameCtx), w'.rbk.frames_[i]? = some f' →
      (i = pos ∧ f' = fr') ∨ (i ≠ pos ∧ w.rbk.frames_[i]? = some f') := by
    intro i f' hf'
    rw [hr] at hf'
    simp only [List.getElem?_set] at hf'
    by_cases hip : pos = i
    · simp only [hip, if_true] at hf'
      split at hf'
      · left; exact ⟨hip.symm, by simpa using hf'.symm⟩
      · simp at hf'
    · simp only [hip, if_false] at hf'
      right; exact ⟨fun h => hip h.symm, hf'⟩
  refine ⟨⟨?_, ?_, ?_⟩, ?_, ?_⟩
  · rw [hd, List.length_append]; omega
  · rw [hr]; exact hdev
  · intro i f' hf'
    rcases hfr' i f' hf' with ⟨hip, hff⟩ | ⟨hip, hold⟩
    · subst hip; subst hff
      refine ⟨hi, ?_⟩
      rw [hdrop, countSignals_append, hc, hv, (hall _ fr hget).2]
    · have := hall i f' hold
      refine ⟨this.1, ?_⟩
      rw [hdrop, countSignals_append, ho i hip, this.2]; rfl
  · intro i f f' hf hf'
    rcases hfr' i f' hf' with ⟨hip, hff⟩ | ⟨_, hold⟩
    · subst hip; subst hff
      rw [hget] at hf
      have : f = fr := by simpa using hf.symm
      rw [hv, this]; omega
    · rw [hold] at hf
      have : f = f' := by simpa using hf.symm
      rw [this]
  · exact ⟨d, hd.symm⟩

theorem present_tracked (w : World) (sc : Option Handle) (e : PresentEnv) (n0 : Nat)
    (ht : Tracked w n0) (hne : w.rbk.frames_ ≠ [])
    (hlive : (SK_D3D12_RenderCtx.present w sc e).rbk.frames_ ≠ []) :
    Tracked (SK_D3D12_RenderCtx.present w sc e) n0 ∧
    (∀ (i : Nat) (f f' : FrameCtx), w.rbk.frames_[i]? = some f →
      (SK_D3D12_RenderCtx.present w sc e).rbk.frames_[i]? = some f' →
      f.fence.value ≤ f'.fence.value) ∧
    w.trace <+: (SK_D3D12_RenderCtx.present w sc e).trace := by
  have hstay : Tracked w n0 ∧
      (∀ (i : Nat) (f f' : FrameCtx), w.rbk.frames_[i]? = some f →
        w.rbk.frames_[i]? = some f' → f.fence.value ≤ f'.fence.value) ∧
      w.trace <+: w.trace := by
    refine ⟨ht, ?_, List.prefix_refl _⟩
    intro i f f' h1 h2
    rw [h1] at h2
    have : f = f' := by simpa using h2
    rw [this]
  have hun : (w.rbk._pDevice.isNone || w.rbk.frames_.isEmpty) = false := by
    have h1 : w.rbk._pDevice.isNone = false := by
      have := ht.2.1
      cases hd : w.rbk._pDevice <;> simp_all
    have h2 : w.rbk.frames_.isEmpty = false := by
      cases hf : w.rbk.frames_ <;> simp_all
    simp [h1, h2]
  revert hlive
  simp only [SK_D3D12_RenderCtx.present, hun, Bool.false_eq_true, if_false, Bool.not_true]
  split_ifs
  · intro _; exact hstay
  · intro _; exact hstay
  · intro _; exact hstay
  · intro _; exact hstay
  · have hsel : Extends w (w.emit [Event.SelectFrame e.ui.currentIdx]) e.ui.currentIdx 0 :=
      Extends.emit0 w _ _ (by simp)
    split
    · rename_i hnone
      intro _
      -- the selection read past the end: nothing stored, one mark added
      obtain ⟨hlen, hdev, hall⟩ := ht
      refine ⟨⟨?_, hdev, ?_⟩, hstay.2.1, ⟨_, rfl⟩⟩
      · simp only [World.emit, List.length_append]; omega
      · intro i f hf
        have := hall i f hf
        refine ⟨this.1, ?_⟩
        simp only [World.emit]
        rw [List.drop_append_of_le_length hlen, countSignals_append, this.2]
        simp [countSignals]
    · rename_i fr hsome
      intro hlive
      have hget : w.rbk.frames_[e.ui.currentIdx]? = some fr := hsome
      have hidx := (ht.2.2 _ fr hget).1
      have hs := presentFrame_step (w.emit [Event.SelectFrame e.ui.currentIdx]) e
        e.ui.currentIdx fr hsome
      rcases hs with hs | ⟨fr', n, h1, h2, h3, h4⟩
      · exact absurd hs hlive
      · rw [hidx] at h2
        exact tracked_of_extends ht hget h1 (by simpa using hsel.trans h2) h3 (h4.trans hidx)

theorem presentRun_tracked (sc : Option Handle) (n0 : Nat) (base : List Event) :
    ∀ (envs : List PresentEnv) (w : World), Tracked w n0 → base <+: w.trace →
      (∀ k, k ≤ envs.length → (presentRun w sc (envs.take k)).rbk.frames_ ≠ []) →
      (∀ k, k ≤ envs.length →
        Tracked (presentRun w sc (envs.take k)) n0 ∧
        base <+: (presentRun w sc (envs.take k)).trace) ∧
      (∀ k, k < envs.length → ∀ (i : Nat) (f f' : FrameCtx),
        (presentRun w sc (envs.take k)).rbk.frames_[i]? = some f →
        (presentRun w sc (envs.take (k + 1))).rbk.frames_[i]? = some f' →
        f.fence.value ≤ f'.fence.value) := by
  intro envs
  induction envs with
  | nil =>
    intro w ht hb _
    refine ⟨fun k _ => ?_, fun k hk => by simp at hk⟩
    simpa [presentRun] using And.intro ht hb
  | cons e es ih =>
    intro w ht hb hlive
    have h0 : w.rbk.frames_ ≠ [] := by simpa [presentRun] using hlive 0 (Nat.zero_le _)
    have h1 : (SK_D3D12_RenderCtx.present w sc e).rbk.frames_ ≠ [] := by
      simpa [presentRun] using hlive 1 (by simp)
    obtain ⟨ht1, hm1, hp1⟩ := present_tracked w sc e n0 ht h0 h1
    have hl1 : ∀ k, k ≤ es.length →
        (presentRun (SK_D3D12_RenderCtx.present w sc e) sc (es.take k)).rbk.frames_ ≠ [] := by
      intro k hk
      simpa [presentRun] using hlive (k + 1) (by simpa using hk)
    obtain ⟨iha, ihm⟩ := ih (SK_D3D12_RenderCtx.present w sc e) ht1 (hb.trans hp1) hl1
    refine ⟨fun k hk => ?_, fun k hk => ?_⟩
    · cases k with
      | zero => simpa [presentRun] using And.intro ht hb
      | succ k => simpa [presentRun] using iha k (by simpa using hk)
    · cases k with
      | zero => simpa [presentRun] using hm1
      | succ k => simpa [presentRun] using ihm k (by simpa using hk)

theorem tracked_after_init (w0 : World) (sc q : Option Handle) (ie : InitEnv)
    (hinit : (SK_D3D12_RenderCtx.init w0 sc q ie).1 = true) :
    Tracked (SK_D3D12_RenderCtx.init w0 sc q ie).2
      (SK_D3D12_RenderCtx.init w0 sc q ie).2.trace.length := by
  have h := init_ok w0 sc q ie hinit
  refine ⟨le_refl _, h.1, fun i fr hfr => ?_⟩
  have hc := h.2.2.2.2.2.2.2.2 i fr hfr
  refine ⟨hc.1, ?_⟩
  rw [hc.2.1, List.drop_length]
  rfl

theorem flush_no_release_of_index (f : FrameCtx) (c s v : Bool) (idx : Nat)
    (h : f.bCmdListRecording = true → idx = f.iBufferIdx) :
    (f.wait_for_gpu_core c s v idx).2.2.2 = false := by
  unfold FrameCtx.wait_for_gpu_core FrameCtx.exec_cmd_list_core
  cases hrec : f.bCmdListRecording with
  | false =>
    simp only [Bool.false_eq_true, if_false]
    split_ifs <;> rfl
  | true =>
    simp only [h hrec, if_true]
    cases c <;> simp only [Bool.false_eq_true, if_false, if_true] <;> split_ifs <;> rfl

theorem destroy_flush_no_release (fr : FrameCtx) (swapChainValid : Bool) (e : DtorEnv) :
    ((if !fr.pRoot || !swapChainValid || e.currentIdx != fr.iBufferIdx then
        { fr with bCmdListRecording := false }
      else fr).wait_for_gpu_core e.closeOk e.signalOk e.setEventOk e.currentIdx).2.2.2
      = false := by
  apply flush_no_release_of_index
  split
  · intro h; simp at h
  · rename_i h
    intro _
    simp only [Bool.or_eq_true, bne_iff_ne, ne_eq, not_or, Decidable.not_not] at h
    exact h.2

/-- The only submission a destructor makes is that of its own list, and it makes
it exactly when the frame context records, has its back-reference, the swapchain
is valid and at this context's buffer index, and `Close` succeeds. -/
theorem destroy_submits_iff (fr : FrameCtx) (v : Bool) (d : DtorEnv) (i : Nat)
    (l : Option Handle) :
    Event.ExecuteCommandLists i l ∈ (fr.destroy v d).2 ↔
      (fr.bCmdListRecording = true ∧ fr.pRoot = true ∧ v = true ∧
        d.currentIdx = fr.iBufferIdx ∧ d.closeOk = true ∧
        i = fr.iBufferIdx ∧ l = fr.pCmdList) := by
  unfold FrameCtx.destroy FrameCtx.wait_for_gpu_core FrameCtx.exec_cmd_list_core
  cases hr : fr.bCmdListRecording <;> cases hp : fr.pRoot <;> cases v <;>
    cases hc : d.closeOk <;> by_cases hi : d.currentIdx = fr.iBufferIdx <;>
    cases he : fr.fence.event <;> cases hs : d.signalOk <;> cases hw : d.setEventOk <;>
    simp [hr, hp, hc, hi, he, hs, hw]

theorem destroyFrames_submits_iff (v : Bool) (e : Nat → DtorEnv) (i : Nat)
    (l : Option Handle) (frs : List FrameCtx) :
    ∀ pos, Event.ExecuteCommandLists i l ∈ destroyFrames v e pos frs ↔
      ∃ (k : Nat) (fr : FrameCtx), frs[k]? = some fr ∧
        fr.bCmdListRecording = true ∧ fr.pRoot = true ∧ v = true ∧
        (e (pos + k)).currentIdx = fr.iBufferIdx ∧ (e (pos + k)).closeOk = true ∧
        i = fr.iBufferIdx ∧ l = fr.pCmdList := by
  induction frs with
  | nil => intro pos; simp [destroyFrames]
  | cons fr rest ih =>
    intro pos
    simp only [destroyFrames, List.mem_append, destroy_submits_iff, ih (pos + 1)]
    constructor
    · rintro (h | ⟨k, fr2, hk, h⟩)
      · exact ⟨0, fr, by simp, by simpa using h⟩
      · refine ⟨k + 1, fr2, by simpa using hk, ?_⟩
        have hk2 : pos + (k + 1) = pos + 1 + k := by omega
        rw [hk2]
        exact h
    · rintro ⟨k, fr2, hk, h⟩
      cases k with
      | zero =>
        left
        simp at hk
        subst hk
        simpa using h
      | succ k =>
        right
        refine ⟨k, fr2, by simpa using hk, ?_⟩
        have hk2 : pos + (k + 1) = pos + 1 + k := by omega
        rw [← hk2]
        exact h

theorem TraceGrows.id_grows (p : Event → Bool) (w : World) : TraceGrows p w w :=
  ⟨[], (List.append_nil _).symm, rfl⟩

theorem TraceGrows.then_grows {p : Event → Bool} {a b c : World} (h1 : TraceGrows p a b)
    (h2 : TraceGrows p b c) : TraceGrows p a c := by
  obtain ⟨e1, t1, a1⟩ := h1
  obtain ⟨e2, t2, a2⟩ := h2
  refine ⟨e1 ++ e2, ?_, ?_⟩
  · rw [t2, t1, List.append_assoc]
  · rw [List.all_append, a1, a2]
    rfl

theorem TraceGrows.emit_grows (p : Event → Bool) (w : World) (es : List Event)
    (h : es.all p = true) : TraceGrows p w (w.emit es) :=
  ⟨es, rfl, h⟩

theorem TraceGrows.of_same_trace (p : Event → Bool) {w w' : World} (h : w'.trace = w.trace) :
    TraceGrows p w w' :=
  ⟨[], by rw [h, List.append_nil], rfl⟩

theorem TraceGrows.mono {p q : Event → Bool} {w w' : World}
    (hpq : ∀ ev, p ev = true → q ev = true)
    (h : TraceGrows p w w') : TraceGrows q w w' := by
  obtain ⟨es, t, a⟩ := h
  refine ⟨es, t, ?_⟩
  rw [List.all_eq_true] at a ⊢
  exact fun x hx => hpq x (a x hx)

theorem RecordsOnly.id_records (w : World) : RecordsOnly w w :=
  ⟨rfl, rfl, TraceGrows.id_grows _ w⟩

theorem RecordsOnly.then_records {a b c : World} (h1 : RecordsOnly a b) (h2 : RecordsOnly b c) :
    RecordsOnly a c :=
  ⟨h2.1.trans h1.1, h2.2.1.trans h1.2.1, h1.2.2.then_grows h2.2.2⟩

theorem RecordsOnly.emit_records (w : World) (es : List Event)
    (h : es.all Event.isRecording = true) :
    RecordsOnly w (w.emit es) :=
  ⟨rfl, rfl, TraceGrows.emit_grows _ w es h⟩

theorem callSetPipelineState_records (w : World) (e : HookEnv) (This : Handle)
    (p : Option Handle) : RecordsOnly w (callSetPipelineState w e This p) := by
  unfold callSetPipelineState D3D12GraphicsCommandList_SetPipelineState_Detour RecordsOnly
    TraceGrows
  cases p with
  | none =>
    simp only [World.emit]
    split
    · exact ⟨rfl, rfl, ⟨_, rfl, rfl⟩⟩
    · exact ⟨rfl, rfl, ⟨_, rfl, rfl⟩⟩
  | some pso =>
    simp only [World.emit, World.setDisable]
    split
    · split
      · exact ⟨rfl, rfl, ⟨_, rfl, rfl⟩⟩
      · split
        · exact ⟨rfl, rfl, ⟨_, rfl, rfl⟩⟩
        · exact ⟨rfl, rfl, ⟨_, rfl, rfl⟩⟩
    · exact ⟨rfl, rfl, ⟨_, rfl, rfl⟩⟩

theorem callDrawIndexedInstanced_records (w : World) (This : Handle) (a b c : Nat) (d : Int)
    (f : Nat) : RecordsOnly w (callDrawIndexedInstanced w This a b c d f) := by
  unfold callDrawIndexedInstanced D3D12GraphicsCommandList_DrawIndexedInstanced_Detour
  split
  · split
    · exact RecordsOnly.id_records w
    · exact RecordsOnly.emit_records w _ rfl
  · exact RecordsOnly.emit_records w _ rfl

theorem RecordsOnly.of_fields {w w' : World} (hi : w'.imgui = w.imgui) (hr : w'.rbk = w.rbk)
    (ht : w'.trace = w.trace) : RecordsOnly w w' :=
  ⟨hi, hr, TraceGrows.of_same_trace _ ht⟩

theorem begin_cmd_list_records (w : World) (e : HookEnv) (fr : FrameCtx) (st : Option Handle)
    (ok : Bool) : RecordsOnly w (fr.begin_cmd_list w e st ok).2.1 := by
  unfold FrameCtx.begin_cmd_list
  split
  · exact RecordsOnly.of_fields rfl rfl rfl
  · split
    · split
      · exact RecordsOnly.id_records w
      · exact callSetPipelineState_records w e _ _
    · split
      · exact (RecordsOnly.emit_records w _ (by rfl)).then_records
          (RecordsOnly.emit_records _ _ (by rfl))
      · exact RecordsOnly.emit_records w _ (by rfl)

/-- A `begin_cmd_list` without a pipeline state records no draw call. -/
theorem begin_cmd_list_no_draw (w : World) (e : HookEnv) (fr : FrameCtx) (ok : Bool) :
    TraceGrows (fun ev => !ev.isDraw) w (fr.begin_cmd_list w e none ok).2.1 := by
  unfold FrameCtx.begin_cmd_list
  split
  · exact TraceGrows.of_same_trace _ rfl
  · split
    · exact TraceGrows.id_grows _ w
    · split
      · exact (TraceGrows.emit_grows _ w _ (by rfl)).then_grows
          (TraceGrows.emit_grows _ _ _ (by rfl))
      · exact TraceGrows.emit_grows _ w _ (by rfl)

theorem renderCmds_records (This : Handle) (vtx : Int) (cmds : List ImDrawCmd) :
    ∀ (w : World) (off : Nat), RecordsOnly w (renderCmds This vtx w off cmds).1 := by
  induction cmds with
  | nil => intro w off; exact RecordsOnly.id_records w
  | cons c rest ih =>
    intro w off
    simp only [renderCmds]
    split
    · exact (RecordsOnly.emit_records w _ (by rfl)).then_records (ih _ _)
    · exact ((RecordsOnly.emit_records w _ (by rfl)).then_records
        (callDrawIndexedInstanced_records _ This c.ElemCount 1 off vtx 0)).then_records (ih _ _)

theorem renderLists_records (This : Handle) (ls : List ImDrawList) :
    ∀ (w : World) (off : Nat) (vtx : Int), RecordsOnly w (renderLists This w off vtx ls) := by
  induction ls with
  | nil => intro w off vtx; exact RecordsOnly.id_records w
  | cons l rest ih =>
    intro w off vtx
    simp only [renderLists]
    exact (renderCmds_records This vtx l.CmdBuffer w off).then_records (ih _ _ _)

theorem uiSetup_records (w : World) (e : UiEnv) (This : Handle) (fr : FrameCtx)
    (h : FrameHeap) : RecordsOnly w (uiSetup w e This fr h) := by
  have h1 := RecordsOnly.emit_records w
    [Event.call This (Cmd.SetGraphicsRootSignature w.imgui.pRootSignature)] rfl
  have h2 := callSetPipelineState_records
    (w.emit [Event.call This (Cmd.SetGraphicsRootSignature w.imgui.pRootSignature)]) e.hook This
    (w.emit [Event.call This (Cmd.SetGraphicsRootSignature
      w.imgui.pRootSignature)]).imgui.pPipelineState
  unfold uiSetup
  simp only []
  generalize callSetPipelineState
    (w.emit [Event.call This (Cmd.SetGraphicsRootSignature w.imgui.pRootSignature)]) e.hook This
    (w.emit [Event.call This (Cmd.SetGraphicsRootSignature
      w.imgui.pRootSignature)]).imgui.pPipelineState = w2 at h2 ⊢
  have h3 := RecordsOnly.emit_records w2
    [Event.call This (Cmd.OMSetRenderTargets fr.hRenderOutput),
     Event.call This (Cmd.SetDescriptorHeaps w2.rbk.descriptorHeaps.pImGui)] rfl
  have h123 := (h1.then_records h2).then_records h3
  split
  · exact (h123.then_records (RecordsOnly.of_fields rfl rfl rfl)).then_records
      (RecordsOnly.emit_records _ _ (by rfl))
  · split
    · exact (h123.then_records (RecordsOnly.of_fields rfl rfl rfl)).then_records
        (RecordsOnly.emit_records _ _ (by rfl))
    · exact (h123.then_records (RecordsOnly.of_fields rfl rfl rfl)).then_records
        (RecordsOnly.emit_records _ _ (by rfl))

/-- The record stage ends in `release` exactly when a `Map` fails; otherwise it
only records. -/
theorem uiRecordStage_records (w : World) (e : UiEnv) (d : ImDrawData) (pos : Nat)
    (fr : FrameCtx) :
    ((e.mapVbOk && e.mapIbOk) = true →
      (uiRecordStage w e d pos fr).2.2 = false ∧ RecordsOnly w (uiRecordStage w e d pos fr).1) ∧
    ((e.mapVbOk && e.mapIbOk) = false → (uiRecordStage w e d pos fr).2.2 = true) := by
  have hb := begin_cmd_list_records w e.hook fr none e.rebeginResetOk
  unfold uiRecordStage
  constructor
  · intro hm
    simp only [hm, Bool.not_true, Bool.false_eq_true, if_false]
    split
    · exact ⟨rfl, hb⟩
    · split
      · exact ⟨rfl, hb.then_records (RecordsOnly.of_fields rfl rfl rfl)⟩
      · exact ⟨rfl, (hb.then_records (uiSetup_records _ e _ _ _)).then_records
          (renderLists_records _ _ _ _ _)⟩
  · intro hm
    simp only [hm, Bool.not_false, if_true]

theorem recording_not_create (ev : Event) (h : ev.isRecording = true) :
    (!ev.isCreate) = true := by
  cases ev <;> simp_all [Event.isRecording, Event.isCreate]

theorem exec_cmd_list_core_plain (fr : FrameCtx) (ok : Bool) (idx : Nat) :
    (fr.exec_cmd_list_core ok idx).2.1.all (fun ev => !ev.isCreate && !ev.isDraw) = true := by
  unfold FrameCtx.exec_cmd_list_core
  split
  · split <;> rfl
  · rfl

theorem wait_for_gpu_core_plain (fr : FrameCtx) (c s v : Bool) (idx : Nat) :
    (fr.wait_for_gpu_core c s v idx).2.2.1.all (fun ev => !ev.isCreate && !ev.isDraw)
      = true := by
  have hx := exec_cmd_list_core_plain fr c idx
  unfold FrameCtx.wait_for_gpu_core
  by_cases hrec : fr.bCmdListRecording = true
  · simp only [hrec, if_true]
    split
    · exact hx
    · split
      · exact hx
      · split
        · rw [List.all_append, List.all_append, hx]
          cases v <;> rfl
        · rw [List.all_append, hx]
          rfl
  · simp only [hrec, if_false, Bool.false_eq_true]
    split
    · rfl
    · split
      · cases v <;> rfl
      · rfl

theorem destroy_events_plain (fr : FrameCtx) (v : Bool) (d : DtorEnv) :
    (fr.destroy v d).2.all (fun ev => !ev.isCreate && !ev.isDraw) = true := by
  unfold FrameCtx.destroy
  exact wait_for_gpu_core_plain _ _ _ _ _

theorem destroyFrames_events_plain (v : Bool) (e : Nat → DtorEnv) (frs : List FrameCtx) :
    ∀ pos, (destroyFrames v e pos frs).all (fun ev => !ev.isCreate && !ev.isDraw) = true := by
  induction frs with
  | nil => intro pos; rfl
  | cons fr rest ih =>
    intro pos
    simp only [destroyFrames, List.all_append, destroy_events_plain, ih, Bool.and_self]

/-- Nothing `release` adds to the trace is a creation or a draw call. -/
theorem release_events_plain (w : World) (pSwapChain : Option Handle) (e : ReleaseEnv) :
    TraceGrows (fun ev => !ev.isCreate && !ev.isDraw) w
      (SK_D3D12_RenderCtx.release w pSwapChain e) := by
  have htr : (ImGui_ImplDX12_Shutdown w).trace = w.trace := by
    unfold ImGui_ImplDX12_Shutdown ImGui_ImplDX12_InvalidateDeviceObjects
    split <;> rfl
  unfold SK_D3D12_RenderCtx.release
  split
  · refine ⟨Event.Release :: destroyFrames _ e.dtor 0 (ImGui_ImplDX12_Shutdown w).rbk.frames_,
      by rw [← htr], ?_⟩
    rw [List.all_cons, destroyFrames_events_plain]
    rfl
  · exact TraceGrows.id_grows _ w

theorem plain_not_create (ev : Event) (h : (!ev.isCreate && !ev.isDraw) = true) :
    (!ev.isCreate) = true := by
  simp only [Bool.and_eq_true] at h
  exact h.1

/-- The record stage creates nothing, whether it ends in `release` or not. -/
theorem uiRecordStage_no_create (w : World) (e : UiEnv) (d : ImDrawData) (pos : Nat)
    (fr : FrameCtx) :
    TraceGrows (fun ev => !ev.isCreate) w (uiRecordStage w e d pos fr).1 := by
  cases hm : (e.mapVbOk && e.mapIbOk)
  · unfold uiRecordStage
    simp only [hm, Bool.not_false, if_true]
    have h1 : TraceGrows (fun ev => !ev.isCreate) w (storeFrame w pos fr) :=
      TraceGrows.of_same_trace _ rfl
    exact h1.then_grows ((release_events_plain _ _ _).mono plain_not_create)
  · exact ((uiRecordStage_records w e d pos fr).1 hm).2.2.2.mono recording_not_create

/-- With both upload buffers present and large enough the block guarded by
`sync_cmd_list` is skipped. -/
theorem uiSyncStage_skipped (w : World) (e : UiEnv) (d : ImDrawData) (pos : Nat)
    (fr : FrameCtx)
    (hVb : (heapAt w fr.iBufferIdx).Vb.p.isSome = true)
    (hVs : d.TotalVtxCount ≤ (heapAt w fr.iBufferIdx).Vb.size)
    (hIb : (heapAt w fr.iBufferIdx).Ib.p.isSome = true)
    (hIs : d.TotalIdxCount ≤ (heapAt w fr.iBufferIdx).Ib.size) :
    uiSyncStage w e d pos fr = (true, w, fr, false) := by
  have hs : sync_cmd_list (heapAt w fr.iBufferIdx) d = false := by
    unfold sync_cmd_list
    simp [hVb, hIb, not_lt.mpr hVs, not_lt.mpr hIs]
  unfold uiSyncStage
  simp only [hs, Bool.false_eq_true, if_false]

/-- What `ImGui_ImplDX12_RenderDrawData` comes to when both upload buffers are
present and large enough. -/
theorem renderDrawData_sufficient (w : World) (e : UiEnv) (d : ImDrawData) (pos : Nat)
    (fr : FrameCtx)
    (hVb : (heapAt w fr.iBufferIdx).Vb.p.isSome = true)
    (hVs : d.TotalVtxCount ≤ (heapAt w fr.iBufferIdx).Vb.size)
    (hIb : (heapAt w fr.iBufferIdx).Ib.p.isSome = true)
    (hIs : d.TotalIdxCount ≤ (heapAt w fr.iBufferIdx).Ib.size) :
    ((ImGui_ImplDX12_RenderDrawData w e d pos fr).2.2 = false →
      RecordsOnly w (ImGui_ImplDX12_RenderDrawData w e d pos fr).1) ∧
    ((ImGui_ImplDX12_RenderDrawData w e d pos fr).2.2 = true →
      (e.mapVbOk && e.mapIbOk) = false) ∧
    TraceGrows (fun ev => !ev.isCreate) w (ImGui_ImplDX12_RenderDrawData w e d pos fr).1 := by
  have hb := begin_cmd_list_records w e.hook fr none e.beginResetOk
  have hbi := (begin_cmd_list_keeps w e.hook fr none e.beginResetOk 0).2.2.2
  have hheap : heapAt (fr.begin_cmd_list w e.hook none e.beginResetOk).2.1
      (fr.begin_cmd_list w e.hook none e.beginResetOk).2.2.iBufferIdx
        = heapAt w fr.iBufferIdx := by
    unfold heapAt
    rw [hb.1, hbi]
  have hskip := uiSyncStage_skipped (fr.begin_cmd_list w e.hook none e.beginResetOk).2.1 e d pos
    (fr.begin_cmd_list w e.hook none e.beginResetOk).2.2
    (by rw [hheap]; exact hVb) (by rw [hheap]; exact hVs)
    (by rw [hheap]; exact hIb) (by rw [hheap]; exact hIs)
  have hrec := uiRecordStage_records (fr.begin_cmd_list w e.hook none e.beginResetOk).2.1 e d pos
    (fr.begin_cmd_list w e.hook none e.beginResetOk).2.2
  have hnc := uiRecordStage_no_create (fr.begin_cmd_list w e.hook none e.beginResetOk).2.1 e d
    pos (fr.begin_cmd_list w e.hook none e.beginResetOk).2.2
  unfold ImGui_ImplDX12_RenderDrawData
  simp only [hskip]
  split
  · exact ⟨fun _ => RecordsOnly.id_records w, fun h => by simp at h, TraceGrows.id_grows _ w⟩
  · split
    · exact ⟨fun _ => hb, fun h => by simp at h, hb.2.2.mono recording_not_create⟩
    · simp only [Bool.not_true, Bool.false_eq_true, if_false]
      cases hm : (e.mapVbOk && e.mapIbOk)
      · refine ⟨fun h => ?_, fun _ => rfl, (hb.2.2.mono recording_not_create).then_grows hnc⟩
        rw [hrec.2 hm] at h
        simp at h
      · exact ⟨fun _ => hb.then_records (hrec.1 hm).2,
          fun h => by rw [(hrec.1 hm).1] at h; simp at h,
          (hb.2.2.mono recording_not_create).then_grows hnc⟩

/-- Calls on one slot whose counts stay within those the capacities cover create
nothing, and only record as long as none of them ends in `release`. -/
theorem renderSeq_sufficient (pos : Nat) (d : ImDrawData) :
    ∀ (calls : List (UiEnv × ImDrawData)) (w : World) (fr : FrameCtx),
      (heapAt w fr.iBufferIdx).Vb.p.isSome = true →
      d.TotalVtxCount ≤ (heapAt w fr.iBufferIdx).Vb.size →
      (heapAt w fr.iBufferIdx).Ib.p.isSome = true →
      d.TotalIdxCount ≤ (heapAt w fr.iBufferIdx).Ib.size →
      (∀ c ∈ calls, c.2.TotalVtxCount ≤ d.TotalVtxCount ∧
        c.2.TotalIdxCount ≤ d.TotalIdxCount) →
      TraceGrows (fun ev => !ev.isCreate) w (renderSeq pos w fr calls).1 ∧
      ((renderSeq pos w fr calls).2.2 = false → RecordsOnly w (renderSeq pos w fr calls).1) := by
  intro calls
  induction calls with
  | nil =>
    intro w fr _ _ _ _ _
    exact ⟨TraceGrows.id_grows _ w, fun _ => RecordsOnly.id_records w⟩
  | cons c rest ih =>
    intro w fr hVb hVs hIb hIs hc
    have hc0 := hc c (List.mem_cons_self _ _)
    have hsuff := renderDrawData_sufficient w c.1 c.2 pos fr hVb (le_trans hc0.1 hVs) hIb
      (le_trans hc0.2 hIs)
    have hstep := renderDrawData_step w c.1 c.2 pos fr
    simp only [renderSeq]
    cases hrel : (ImGui_ImplDX12_RenderDrawData w c.1 c.2 pos fr).2.2
    · simp only [Bool.false_eq_true, if_false]
      have hro := hsuff.1 hrel
      have hidx := (hstep.2 hrel).2.1
      have hheap : heapAt (ImGui_ImplDX12_RenderDrawData w c.1 c.2 pos fr).1
          (ImGui_ImplDX12_RenderDrawData w c.1 c.2 pos fr).2.1.iBufferIdx
            = heapAt w fr.iBufferIdx := by
        unfold heapAt
        rw [hro.1, hidx]
      have h := ih (ImGui_ImplDX12_RenderDrawData w c.1 c.2 pos fr).1
        (ImGui_ImplDX12_RenderDrawData w c.1 c.2 pos fr).2.1
        (by rw [hheap]; exact hVb) (by rw [hheap]; exact hVs)
        (by rw [hheap]; exact hIb) (by rw [hheap]; exact hIs)
        (fun x hx => hc x (List.mem_cons_of_mem _ hx))
      exact ⟨hsuff.2.2.then_grows h.1, fun hr => hro.then_records (h.2 hr)⟩
    · simp only [if_true]
      exact ⟨hsuff.2.2, fun hr => by rw [hrel] at hr; simp at hr⟩

theorem countCreates_append (what : String) (a b : List Event) :
    countCreates what (a ++ b) = countCreates what a + countCreates what b := by
  induction a with
  | nil => simp [countCreates]
  | cons x rest ih =>
    cases x <;> simp [countCreates, ih, Nat.add_assoc]

theorem countCreates_zero (what : String) (es : List Event)
    (h : es.all (fun ev => !ev.isCreate) = true) : countCreates what es = 0 := by
  induction es with
  | nil => rfl
  | cons x rest ih =>
    rw [List.all_cons, Bool.and_eq_true] at h
    cases x <;> simp_all [countCreates, Event.isCreate]

theorem createsBetween_of_trace (what : String) {w w' : World} (es : List Event)
    (h : w'.trace = w.trace ++ es) : createsBetween what w w' = countCreates what es := by
  unfold createsBetween
  rw [h, List.drop_left]

theorem createsBetween_zero (what : String) {w w' : World}
    (h : TraceGrows (fun ev => !ev.isCreate) w w') : createsBetween what w w' = 0 := by
  obtain ⟨es, t, a⟩ := h
  rw [createsBetween_of_trace what es t]
  exact countCreates_zero what es a

theorem createsBetween_add (what : String) {a b c : World} {x y : List Event}
    (h1 : b.trace = a.trace ++ x) (h2 : c.trace = b.trace ++ y) :
    createsBetween what a c = countCreates what x + countCreates what y := by
  have h : c.trace = a.trace ++ (x ++ y) := by rw [h2, h1, List.append_assoc]
  rw [createsBetween_of_trace what _ h, countCreates_append]

/-- The creation block when every creation it attempts succeeds: a buffer that
is absent or too small is replaced by the new object with the over-allocated
size, one creation call each; a buffer that is present and large enough is left
as it is. -/
theorem growBuffers_ok (h : FrameHeap) (d : ImDrawData) (e : UiEnv)
    (hV : h.Vb.lacks d.TotalVtxCount = true → e.createVb.isSome = true)
    (hI : h.Ib.lacks d.TotalIdxCount = true → e.createIb.isSome = true) :
    growBuffers h d e =
      (true,
        { Vb := if h.Vb.lacks d.TotalVtxCount
                then { p := e.createVb, size := wrapINT (d.TotalVtxCount + 5000) } else h.Vb,
          Ib := if h.Ib.lacks d.TotalIdxCount
                then { p := e.createIb, size := wrapINT (d.TotalIdxCount + 10000) } else h.Ib },
        (if h.Vb.lacks d.TotalVtxCount then [created "VertexBuffer" e.createVb] else []) ++
        (if h.Ib.lacks d.TotalIdxCount then [created "IndexBuffer" e.createIb] else [])) := by
  unfold buffer_s.lacks at hV hI ⊢
  cases hv : (h.Vb.p.isNone || decide (h.Vb.size < d.TotalVtxCount)) <;>
    cases hi : (h.Ib.p.isNone || decide (h.Ib.size < d.TotalIdxCount))
  · simp [growBuffers, hv, hi]
  · obtain ⟨b, hb⟩ := Option.isSome_iff_exists.mp (hI hi)
    simp [growBuffers, hv, hi, hb]
  · obtain ⟨b, hb⟩ := Option.isSome_iff_exists.mp (hV hv)
    simp [growBuffers, hv, hi, hb]
  · obtain ⟨b, hb⟩ := Option.isSome_iff_exists.mp (hV hv)
    obtain ⟨c, hc⟩ := Option.isSome_iff_exists.mp (hI hi)
    simp [growBuffers, hv, hi, hb, hc]

theorem wrapINT_of_fits (n : Int) (h1 : -2 ^ 31 ≤ n) (h2 : n < 2 ^ 31) : wrapINT n = n := by
  unfold wrapINT
  omega

theorem wrapUINT_of_fits (n : Nat) (h : n < 2 ^ 32) : wrapUINT n = n := by
  unfold wrapUINT
  exact Nat.mod_eq_of_lt h

theorem heapAt_setHeap (w : World) (i : Nat) (h : FrameHeap)
    (hi : i < w.imgui.frame_heaps.length) : heapAt (setHeap w i h) i = h := by
  unfold heapAt setHeap
  simp [List.getD_eq_getElem?_getD, hi]

theorem heapAt_emit (w : World) (es : List Event) (i : Nat) :
    heapAt (w.emit es) i = heapAt w i := rfl

/-- A drain that reports success did not run `release`. -/
theorem wait_for_gpu_true (w : World) (pos : Nat) (fr : FrameCtx) (c s v : Bool) (idx : Nat)
    (re : ReleaseEnv) (h : (fr.wait_for_gpu w pos c s v idx re).1 = true) :
    (fr.wait_for_gpu w pos c s v idx re).2.2.2 = false := by
  revert h
  unfold FrameCtx.wait_for_gpu
  simp only []
  split
  · intro h
    simp at h
  · intro _
    rfl

/-- Nothing a drain that did not run `release` adds to the trace is a creation or
a draw call. -/
theorem wait_for_gpu_plain (w : World) (pos : Nat) (fr : FrameCtx) (c s v : Bool) (idx : Nat)
    (re : ReleaseEnv) (h : (fr.wait_for_gpu w pos c s v idx re).2.2.2 = false) :
    (fr.wait_for_gpu w pos c s v idx re).2.1.trace
      = w.trace ++ (fr.wait_for_gpu_core c s v idx).2.2.1 ∧
    TraceGrows (fun ev => !ev.isCreate && !ev.isDraw) w
      (fr.wait_for_gpu w pos c s v idx re).2.1 := by
  revert h
  unfold FrameCtx.wait_for_gpu
  simp only []
  split
  · intro h
    simp at h
  · intro _
    exact ⟨rfl, ⟨_, rfl, wait_for_gpu_core_plain fr c s v idx⟩⟩

/-- The block guarded by `sync_cmd_list` when the drain reports success and every
creation attempted succeeds: the world is that after the drain with the slot's
heap replaced and the creation calls appended. -/
theorem uiSyncStage_grown (w : World) (e : UiEnv) (d : ImDrawData) (pos : Nat) (fr : FrameCtx)
    (hneed : sync_cmd_list (heapAt w fr.iBufferIdx) d = true)
    (hdrain : (fr.wait_for_gpu w pos e.drainCloseOk e.drainSignalOk e.drainSetEventOk
      e.currentIdx e.release).1 = true)
    (hV : (heapAt w fr.iBufferIdx).Vb.lacks d.TotalVtxCount = true → e.createVb.isSome = true)
    (hI : (heapAt w fr.iBufferIdx).Ib.lacks d.TotalIdxCount = true → e.createIb.isSome = true) :
    uiSyncStage w e d pos fr =
      (true,
        (setHeap (fr.wait_for_gpu w pos e.drainCloseOk e.drainSignalOk e.drainSetEventOk
            e.currentIdx e.release).2.1 fr.iBufferIdx
          (growBuffers (heapAt w fr.iBufferIdx) d e).2.1).emit
          (growBuffers (heapAt w fr.iBufferIdx) d e).2.2,
        (fr.wait_for_gpu w pos e.drainCloseOk e.drainSignalOk e.drainSetEventOk
            e.currentIdx e.release).2.2.1,
        false) := by
  have hrel := wait_for_gpu_true w pos fr _ _ _ _ _ hdrain
  have hg : (growBuffers (heapAt w fr.iBufferIdx) d e).1 = true := by
    rw [growBuffers_ok _ d e hV hI]
  unfold uiSyncStage
  simp only [hneed, if_true, hrel, hdrain, hg, Bool.false_eq_true, if_false, Bool.not_true]

theorem growBuffers_heap_fits (h : FrameHeap) (d : ImDrawData) (e : UiEnv)
    (hV : h.Vb.lacks d.TotalVtxCount = true → e.createVb.isSome = true)
    (hI : h.Ib.lacks d.TotalIdxCount = true → e.createIb.isSome = true)
    (hfitV : h.Vb.lacks d.TotalVtxCount = true →
      -2 ^ 31 ≤ d.TotalVtxCount + 5000 ∧ d.TotalVtxCount + 5000 < 2 ^ 31)
    (hfitI : h.Ib.lacks d.TotalIdxCount = true →
      -2 ^ 31 ≤ d.TotalIdxCount + 10000 ∧ d.TotalIdxCount + 10000 < 2 ^ 31) :
    (growBuffers h d e).2.1 = grownHeap h d e.createVb e.createIb := by
  rw [growBuffers_ok h d e hV hI]
  unfold grownHeap
  cases hv : h.Vb.lacks d.TotalVtxCount <;> cases hi : h.Ib.lacks d.TotalIdxCount <;>
    simp only [hv, hi] at hfitV hfitI ⊢ <;>
    simp only [Bool.false_eq_true, if_false, if_true]
  · rw [wrapINT_of_fits _ (hfitI trivial).1 (hfitI trivial).2]
  · rw [wrapINT_of_fits _ (hfitV trivial).1 (hfitV trivial).2]
  · rw [wrapINT_of_fits _ (hfitV trivial).1 (hfitV trivial).2,
      wrapINT_of_fits _ (hfitI trivial).1 (hfitI trivial).2]

theorem growBuffers_creates (h : FrameHeap) (d : ImDrawData) (e : UiEnv)
    (hV : h.Vb.lacks d.TotalVtxCount = true → e.createVb.isSome = true)
    (hI : h.Ib.lacks d.TotalIdxCount = true → e.createIb.isSome = true) :
    countCreates "VertexBuffer" (growBuffers h d e).2.2
      = (if h.Vb.lacks d.TotalVtxCount then 1 else 0) ∧
    countCreates "IndexBuffer" (growBuffers h d e).2.2
      = (if h.Ib.lacks d.TotalIdxCount then 1 else 0) := by
  rw [growBuffers_ok h d e hV hI]
  cases hv : h.Vb.lacks d.TotalVtxCount <;> cases hi : h.Ib.lacks d.TotalIdxCount <;>
    simp [countCreates, created]

/-- A call of `ImGui_ImplDX12_RenderDrawData` that passes its entry guard, whose
two steps before the creation block succeed and whose creations succeed, laid
out: the block ends with the slot's heap grown, the whole call makes exactly the
block's creation calls, and the call goes on to the record stage. -/
theorem renderDrawData_grown (w : World) (e : UiEnv) (d : ImDrawData) (pos : Nat) (fr : FrameCtx)
    (hguard : (w.rbk._pSwapChain.isSome || w.rbk._pDevice.isSome) = true)
    (hslot : fr.iBufferIdx < w.imgui.frame_heaps.length)
    (hbegin : (uiBegin w e fr).1 = true)
    (hneed : ((heapAt w fr.iBufferIdx).Vb.lacks d.TotalVtxCount
      || (heapAt w fr.iBufferIdx).Ib.lacks d.TotalIdxCount) = true)
    (hdrain : (uiDrain w e pos fr).1 = true)
    (hV : (heapAt w fr.iBufferIdx).Vb.lacks d.TotalVtxCount = true → e.createVb.isSome = true)
    (hI : (heapAt w fr.iBufferIdx).Ib.lacks d.TotalIdxCount = true → e.createIb.isSome = true) :
    (uiSyncStage (uiBegin w e fr).2.1 e d pos (uiBegin w e fr).2.2).1 = true ∧
    heapAt (uiSyncStage (uiBegin w e fr).2.1 e d pos (uiBegin w e fr).2.2).2.1 fr.iBufferIdx
      = (growBuffers (heapAt w fr.iBufferIdx) d e).2.1 ∧
    (uiSyncStage (uiBegin w e fr).2.1 e d pos (uiBegin w e fr).2.2).2.2.1.iBufferIdx
      = fr.iBufferIdx ∧
    ImGui_ImplDX12_RenderDrawData w e d pos fr
      = uiRecordStage (uiSyncStage (uiBegin w e fr).2.1 e d pos (uiBegin w e fr).2.2).2.1 e d pos
          (uiSyncStage (uiBegin w e fr).2.1 e d pos (uiBegin w e fr).2.2).2.2.1 ∧
    ∀ what, createsBetween what w (ImGui_ImplDX12_RenderDrawData w e d pos fr).1
      = countCreates what (growBuffers (heapAt w fr.iBufferIdx) d e).2.2 := by
  have hb := begin_cmd_list_records w e.hook fr none e.beginResetOk
  have hbi := (begin_cmd_list_keeps w e.hook fr none e.beginResetOk 0).2.2.2
  unfold uiDrain at hdrain
  unfold uiBegin at hbegin hdrain ⊢
  have hheap : heapAt (fr.begin_cmd_list w e.hook none e.beginResetOk).2.1
      (fr.begin_cmd_list w e.hook none e.beginResetOk).2.2.iBufferIdx
        = heapAt w fr.iBufferIdx := by
    unfold heapAt
    rw [hb.1, hbi]
  have hneed2 : sync_cmd_list (heapAt (fr.begin_cmd_list w e.hook none e.beginResetOk).2.1
      (fr.begin_cmd_list w e.hook none e.beginResetOk).2.2.iBufferIdx) d = true := by
    rw [hheap]
    exact hneed
  have hstage := uiSyncStage_grown (fr.begin_cmd_list w e.hook none e.beginResetOk).2.1 e d pos
    (fr.begin_cmd_list w e.hook none e.beginResetOk).2.2 hneed2 hdrain
    (by rw [hheap]; exact hV) (by rw [hheap]; exact hI)
  have hrel := wait_for_gpu_true _ _ _ _ _ _ _ _ hdrain
  have hkeep := (wait_for_gpu_keeps _ _ _ _ _ _ _ _).2 hrel
  have hplain := wait_for_gpu_plain _ _ _ _ _ _ _ _ hrel
  rw [hheap, hbi] at hstage
  have hrdd : ImGui_ImplDX12_RenderDrawData w e d pos fr
      = uiRecordStage (uiSyncStage (fr.begin_cmd_list w e.hook none e.beginResetOk).2.1 e d pos
          (fr.begin_cmd_list w e.hook none e.beginResetOk).2.2).2.1 e d pos
          (uiSyncStage (fr.begin_cmd_list w e.hook none e.beginResetOk).2.1 e d pos
            (fr.begin_cmd_list w e.hook none e.beginResetOk).2.2).2.2.1 := by
    have h1 : (uiSyncStage (fr.begin_cmd_list w e.hook none e.beginResetOk).2.1 e d pos
        (fr.begin_cmd_list w e.hook none e.beginResetOk).2.2).1 = true := by rw [hstage]
    unfold ImGui_ImplDX12_RenderDrawData
    simp only [hguard, hbegin, h1, Bool.not_true, Bool.false_eq_true, if_false]
  refine ⟨by rw [hstage], ?_, ?_, hrdd, ?_⟩
  · rw [hstage]
    simp only [heapAt_emit]
    apply heapAt_setHeap
    rw [hkeep.2.1, hb.1]
    exact hslot
  · rw [hstage]
    exact hkeep.2.2.1.trans hbi
  · intro what
    obtain ⟨es1, t1, a1⟩ := hb.2.2
    obtain ⟨es4, t4, a4⟩ := uiRecordStage_no_create
      (uiSyncStage (fr.begin_cmd_list w e.hook none e.beginResetOk).2.1 e d pos
          (fr.begin_cmd_list w e.hook none e.beginResetOk).2.2).2.1 e d pos
      (uiSyncStage (fr.begin_cmd_list w e.hook none e.beginResetOk).2.1 e d pos
          (fr.begin_cmd_list w e.hook none e.beginResetOk).2.2).2.2.1
    rw [← hrdd] at t4
    have t3 : (uiSyncStage (fr.begin_cmd_list w e.hook none e.beginResetOk).2.1 e d pos
        (fr.begin_cmd_list w e.hook none e.beginResetOk).2.2).2.1.trace
          = w.trace ++ (es1 ++ ((fr.begin_cmd_list w e.hook none
              e.beginResetOk).2.2.wait_for_gpu_core e.drainCloseOk e.drainSignalOk
              e.drainSetEventOk e.currentIdx).2.2.1
            ++ (growBuffers (heapAt w fr.iBufferIdx) d e).2.2) := by
      rw [hstage]
      show (FrameCtx.wait_for_gpu _ _ _ _ _ _ _ _).2.1.trace ++ _ = _
      rw [hplain.1, t1]
      simp only [List.append_assoc]
    rw [t3, List.append_assoc] at t4
    rw [createsBetween_of_trace what _ t4]
    simp only [countCreates_append]
    rw [countCreates_zero what es1 ((List.all_eq_true.mpr fun x hx =>
        recording_not_create x (List.all_eq_true.mp a1 x hx))),
      countCreates_zero what _ ((List.all_eq_true.mpr fun x hx =>
        plain_not_create x (List.all_eq_true.mp (wait_for_gpu_core_plain _ _ _ _ _) x hx))),
      countCreates_zero what es4 a4]
    omega

theorem TraceGrows.any {p : Event → Bool} {w w' : World} (h : TraceGrows p w w') :
    TraceGrows (fun _ => true) w w' :=
  h.mono (fun _ _ => rfl)

/-- With the swapchain at the frame context's own buffer index, the drain of
`ImGui_ImplDX12_RenderDrawData` never runs `release`. -/
theorem uiDrain_no_release (w : World) (e : UiEnv) (pos : Nat) (fr : FrameCtx)
    (hidx : e.currentIdx = fr.iBufferIdx) : (uiDrain w e pos fr).2.2.2 = false := by
  have hbi := (begin_cmd_list_keeps w e.hook fr none e.beginResetOk 0).2.2.2
  have hc := flush_no_release_of_index (uiBegin w e fr).2.2 e.drainCloseOk e.drainSignalOk
    e.drainSetEventOk e.currentIdx (fun _ => by unfold uiBegin; rw [hbi, hidx])
  unfold uiDrain FrameCtx.wait_for_gpu
  simp only [hc, Bool.false_eq_true, if_false]

/-- After a drain that did not run `release`, the block guarded by `sync_cmd_list`
only appends to the trace the drain left. -/
theorem uiSyncStage_after_drain (w : World) (e : UiEnv) (d : ImDrawData) (pos : Nat)
    (fr : FrameCtx) (hneed : sync_cmd_list (heapAt w fr.iBufferIdx) d = true)
    (hrel : (fr.wait_for_gpu w pos e.drainCloseOk e.drainSignalOk e.drainSetEventOk
      e.currentIdx e.release).2.2.2 = false) :
    TraceGrows (fun _ => true)
      (fr.wait_for_gpu w pos e.drainCloseOk e.drainSignalOk e.drainSetEventOk
        e.currentIdx e.release).2.1
      (uiSyncStage w e d pos fr).2.1 ∧
    ((fr.wait_for_gpu w pos e.drainCloseOk e.drainSignalOk e.drainSetEventOk
        e.currentIdx e.release).1 = false →
      uiSyncStage w e d pos fr
        = (false,
            (fr.wait_for_gpu w pos e.drainCloseOk e.drainSignalOk e.drainSetEventOk
              e.currentIdx e.release).2.1,
            (fr.wait_for_gpu w pos e.drainCloseOk e.drainSignalOk e.drainSetEventOk
              e.currentIdx e.release).2.2.1, false)) := by
  unfold uiSyncStage
  simp only [hneed, if_true, hrel, Bool.false_eq_true, if_false]
  cases hd : (fr.wait_for_gpu w pos e.drainCloseOk e.drainSignalOk e.drainSetEventOk
      e.currentIdx e.release).1
  · simp only [Bool.not_false, if_true]
    exact ⟨TraceGrows.id_grows _ _, fun _ => trivial⟩
  · simp only [Bool.not_true, Bool.false_eq_true, if_false]
    refine ⟨?_, fun h => by simp at h⟩
    have h1 : TraceGrows (fun _ => true)
        (fr.wait_for_gpu w pos e.drainCloseOk e.drainSignalOk e.drainSetEventOk
          e.currentIdx e.release).2.1
        ((setHeap (fr.wait_for_gpu w pos e.drainCloseOk e.drainSignalOk e.drainSetEventOk
          e.currentIdx e.release).2.1 fr.iBufferIdx
          (growBuffers (heapAt w fr.iBufferIdx) d e).2.1).emit
          (growBuffers (heapAt w fr.iBufferIdx) d e).2.2) :=
      ⟨_, rfl, by simp [List.all_eq_true]⟩
    split
    · exact h1
    · exact h1.then_grows ((TraceGrows.of_same_trace (fun _ => true) rfl).then_grows
        (release_events_plain _ _ _).any)

theorem TraceGrows.both {p q : Event → Bool} {w w' : World} (h1 : TraceGrows p w w')
    (h2 : TraceGrows q w w') : TraceGrows (fun ev => p ev && q ev) w w' := by
  obtain ⟨e1, t1, a1⟩ := h1
  obtain ⟨e2, t2, a2⟩ := h2
  have he : e1 = e2 := List.append_cancel_left (t1.symm.trans t2)
  subst he
  refine ⟨e1, t1, ?_⟩
  rw [List.all_eq_true] at a1 a2 ⊢
  intro x hx
  rw [a1 x hx, a2 x hx]
  rfl

/-- A drain that reports success signalled the queue with the fence value plus
one. -/
theorem wait_for_gpu_core_signals (fr : FrameCtx) (c s v : Bool) (idx : Nat)
    (h : (fr.wait_for_gpu_core c s v idx).1 = true) :
    Event.Signal fr.iBufferIdx fr.fence.p (fr.fence.value + 1) true
      ∈ (fr.wait_for_gpu_core c s v idx).2.2.1 := by
  have hx := exec_cmd_list_core_keeps fr c idx
  revert h
  unfold FrameCtx.wait_for_gpu_core
  by_cases hrec : fr.bCmdListRecording = true
  · simp only [hrec, if_true]
    split
    · intro h; simp at h
    · split
      · intro h; simp at h
      · split
        · intro _
          simp [hx.1, hx.2.1]
        · intro h; simp at h
  · simp only [hrec, if_false, Bool.false_eq_true]
    split
    · intro h; simp at h
    · split
      · intro _
        simp
      · intro h; simp at h

/-- When the creation block runs to its end, both buffers are present and, with
over-allocated counts that an `INT` holds, large enough. -/
theorem growBuffers_capacity (h : FrameHeap) (d : ImDrawData) (e : UiEnv)
    (hfitV : -2 ^ 31 ≤ d.TotalVtxCount + 5000 ∧ d.TotalVtxCount + 5000 < 2 ^ 31)
    (hfitI : -2 ^ 31 ≤ d.TotalIdxCount + 10000 ∧ d.TotalIdxCount + 10000 < 2 ^ 31)
    (hok : (growBuffers h d e).1 = true) :
    (growBuffers h d e).2.1.Vb.p.isSome = true ∧
    d.TotalVtxCount ≤ (growBuffers h d e).2.1.Vb.size ∧
    (growBuffers h d e).2.1.Ib.p.isSome = true ∧
    d.TotalIdxCount ≤ (growBuffers h d e).2.1.Ib.size := by
  have wV := wrapINT_of_fits _ hfitV.1 hfitV.2
  have wI := wrapINT_of_fits _ hfitI.1 hfitI.2
  revert hok
  unfold growBuffers
  cases hv : (h.Vb.p.isNone || decide (h.Vb.size < d.TotalVtxCount)) <;>
    cases hi : (h.Ib.p.isNone || decide (h.Ib.size < d.TotalIdxCount)) <;>
    cases hcv : e.createVb <;> cases hci : e.createIb <;>
    simp [hv, hi, wV, wI] <;>
    simp [Bool.or_eq_false_iff] at hv hi <;>
    simp [hv, hi, Option.isSome_iff_ne_none]

/-- Whenever the block guarded by `sync_cmd_list` lets the call go on, both
upload buffers of the slot are present and large enough for the draw data. -/
theorem uiSyncStage_capacity (w : World) (e : UiEnv) (d : ImDrawData) (pos : Nat)
    (fr : FrameCtx) (hslot : fr.iBufferIdx < w.imgui.frame_heaps.length)
    (hfitV : -2 ^ 31 ≤ d.TotalVtxCount + 5000 ∧ d.TotalVtxCount + 5000 < 2 ^ 31)
    (hfitI : -2 ^ 31 ≤ d.TotalIdxCount + 10000 ∧ d.TotalIdxCount + 10000 < 2 ^ 31)
    (hcont : (uiSyncStage w e d pos fr).1 = true) :
    (heapAt (uiSyncStage w e d pos fr).2.1 fr.iBufferIdx).Vb.p.isSome = true ∧
    d.TotalVtxCount ≤ (heapAt (uiSyncStage w e d pos fr).2.1 fr.iBufferIdx).Vb.size ∧
    (heapAt (uiSyncStage w e d pos fr).2.1 fr.iBufferIdx).Ib.p.isSome = true ∧
    d.TotalIdxCount ≤ (heapAt (uiSyncStage w e d pos fr).2.1 fr.iBufferIdx).Ib.size := by
  cases hs : sync_cmd_list (heapAt w fr.iBufferIdx) d
  · have hst : uiSyncStage w e d pos fr = (true, w, fr, false) := by
      unfold uiSyncStage
      simp only [hs, Bool.false_eq_true, if_false]
    rw [hst]
    unfold sync_cmd_list at hs
    simp only [Bool.or_eq_false_iff, decide_eq_false_iff_not, not_lt] at hs
    refine ⟨?_, hs.1.2, ?_, hs.2.2⟩
    · cases hp : (heapAt w fr.iBufferIdx).Vb.p <;> simp_all
    · cases hp : (heapAt w fr.iBufferIdx).Ib.p <;> simp_all
  · revert hcont
    unfold uiSyncStage
    simp only [hs, if_true]
    cases hrel : (fr.wait_for_gpu w pos e.drainCloseOk e.drainSignalOk e.drainSetEventOk
        e.currentIdx e.release).2.2.2
    · cases hd : (fr.wait_for_gpu w pos e.drainCloseOk e.drainSignalOk e.drainSetEventOk
          e.currentIdx e.release).1
      · simp
      · cases hg : (growBuffers (heapAt w fr.iBufferIdx) d e).1
        · simp
        · simp only [Bool.false_eq_true, if_false, Bool.not_true, if_true]
          intro _
          have hkeep := (wait_for_gpu_keeps w pos fr e.drainCloseOk e.drainSignalOk
            e.drainSetEventOk e.currentIdx e.release).2 hrel
          rw [heapAt_emit, heapAt_setHeap _ _ _ (by rw [hkeep.2.1]; exact hslot)]
          exact growBuffers_capacity _ d e hfitV hfitI hg
    · simp

/-- The copy loop: the lists it leaves, and what it has written behind the two
pointers. -/
theorem copyLists_spec (strip : Bool) (ls : List ImDrawList) :
    ∀ (vh : List ImDrawVert) (ih : List Nat),
      (copyLists strip vh ih ls).1 = ls.map (copiedList strip) ∧
      (copyLists strip vh ih ls).2.1
        = vh ++ ((ls.map (copiedList strip)).map (fun l => l.VtxBuffer)).flatten ∧
      (copyLists strip vh ih ls).2.2 = ih ++ (ls.map (fun l => l.IdxBuffer)).flatten := by
  induction ls with
  | nil => intro vh ih; simp [copyLists]
  | cons l rest ih0 =>
    intro vh ih
    have h := ih0 (vh ++ (copiedList strip l).VtxBuffer) (ih ++ (copiedList strip l).IdxBuffer)
    have hi : (copiedList strip l).IdxBuffer = l.IdxBuffer := by
      unfold copiedList
      split <;> rfl
    simp only [copyLists]
    refine ⟨?_, ?_, ?_⟩
    · rw [List.map_cons]
      exact congrArg _ h.1
    · rw [List.map_cons, List.map_cons, List.flatten_cons, ← List.append_assoc]
      exact h.2.1
    · rw [List.map_cons, List.flatten_cons, ← List.append_assoc, ← hi]
      exact h.2.2

theorem copiedList_lengths (strip : Bool) (ls : List ImDrawList) :
    ((ls.map (copiedList strip)).map (fun l => l.VtxBuffer)).flatten.length = vtxTotal ls ∧
    (ls.map (fun l => l.IdxBuffer)).flatten.length = idxTotal ls := by
  unfold vtxTotal idxTotal
  induction ls with
  | nil => simp
  | cons l rest ih =>
    have hl : (copiedList strip l).VtxBuffer.length = l.VtxBuffer.length := by
      unfold copiedList
      split
      · simp
      · rfl
    simp only [List.map_cons, List.flatten_cons, List.length_append, List.sum_cons, hl, ih.1, ih.2,
      and_self]

theorem lgStep_spec (v acc k : Nat) (h1 : 2 ^ acc ≤ v) (h2 : v < 2 ^ (acc + 2 * k)) :
    2 ^ lgStep v acc k ≤ v ∧ v < 2 ^ (lgStep v acc k + k) := by
  unfold lgStep
  split
  · rename_i h
    refine ⟨h, ?_⟩
    have he : acc + k + k = acc + 2 * k := by omega
    rw [he]
    exact h2
  · rename_i h
    exact ⟨h1, Nat.lt_of_not_le h⟩

/-- The search finds the leading binary digit. -/
theorem ilog2_spec (v : Nat) (h1 : 1 ≤ v) (h2 : v < 2 ^ 256) :
    2 ^ ilog2 v ≤ v ∧ v < 2 ^ (ilog2 v + 1) := by
  have s1 := lgStep_spec v 0 128 (by simpa using h1) (by simpa using h2)
  have s2 := lgStep_spec v _ 64 s1.1 s1.2
  have s3 := lgStep_spec v _ 32 s2.1 s2.2
  have s4 := lgStep_spec v _ 16 s3.1 s3.2
  have s5 := lgStep_spec v _ 8 s4.1 s4.2
  have s6 := lgStep_spec v _ 4 s5.1 s5.2
  have s7 := lgStep_spec v _ 2 s6.1 s6.2
  have s8 := lgStep_spec v _ 1 s7.1 s7.2
  unfold ilog2
  simp only [List.foldl_cons, List.foldl_nil]
  exact s8

/-- The rounding error of `f32round` is at most `2 ^ (-24)` of the exact
quotient, for quotients between `2 ^ (-41)` and `2 ^ 192`. -/
theorem f32round_error (n d : Nat) (h1 : 2 ^ 23 * d ≤ n * 2 ^ 64)
    (h2 : n * 2 ^ 64 < 2 ^ 256 * d) :
    (2 ^ 24 - 1) * (n * 2 ^ 64) ≤ 2 ^ 24 * (f32round n d * d) ∧
    2 ^ 24 * (f32round n d * d) ≤ (2 ^ 24 + 1) * (n * 2 ^ 64) := by
  have hd : 0 < d := by
    rcases Nat.eq_zero_or_pos d with h | h
    · subst h; simp at h2
    · exact h
  have hn : 0 < n := by
    rcases Nat.eq_zero_or_pos n with h | h
    · subst h
      simp at h1
      omega
    · exact h
  have hv1 : 2 ^ 23 ≤ n * 2 ^ 64 / d := (Nat.le_div_iff_mul_le hd).mpr h1
  have hv2 : n * 2 ^ 64 / d < 2 ^ 256 := (Nat.div_lt_iff_lt_mul hd).mpr h2
  have hL := ilog2_spec (n * 2 ^ 64 / d) (le_trans (by norm_num) hv1) hv2
  have hL23 : 23 ≤ ilog2 (n * 2 ^ 64 / d) := by
    have h : 2 ^ 23 < 2 ^ (ilog2 (n * 2 ^ 64 / d) + 1) := lt_of_le_of_lt hv1 hL.2
    have := (Nat.pow_lt_pow_iff_right (by norm_num : 1 < 2)).mp h
    omega
  unfold f32round
  rw [if_neg (by omega)]
  simp only []
  generalize ilog2 (n * 2 ^ 64 / d) = L at hL hL23 ⊢
  obtain ⟨k, rfl⟩ : ∃ k, L = 23 + k := ⟨L - 23, by omega⟩
  simp only [Nat.add_sub_cancel_left]
  have hD : 0 < d * 2 ^ k := Nat.mul_pos hd (Nat.two_pow_pos k)
  have hDN : 2 ^ 23 * (d * 2 ^ k) ≤ n * 2 ^ 64 := by
    have h3 : d * 2 ^ (23 + k) ≤ d * (n * 2 ^ 64 / d) := Nat.mul_le_mul_left d hL.1
    have h4 : d * (n * 2 ^ 64 / d) ≤ n * 2 ^ 64 := Nat.mul_div_le _ _
    have h5 : 2 ^ 23 * (d * 2 ^ k) = d * 2 ^ (23 + k) := by ring
    omega
  have hdm := Nat.div_add_mod (n * 2 ^ 64) (d * 2 ^ k)
  have hr := Nat.mod_lt (n * 2 ^ 64) hD
  generalize n * 2 ^ 64 = N at *
  generalize hDd : d * 2 ^ k = D at *
  generalize N / D = q at *
  generalize N % D = r at *
  generalize hX : D * q = X at hdm
  split
  · rename_i hc
    have h2r : D ≤ 2 * r := by
      rcases hc with h | h
      · omega
      · omega
    have hF : (q + 1) * 2 ^ k * d = X + D := by
      rw [← hX, ← hDd]
      ring
    rw [hF]
    omega
  · rename_i hc
    have h2r : 2 * r ≤ D := by
      by_contra h
      exact hc (Or.inl (by omega))
    have hF : q * 2 ^ k * d = X := by
      rw [← hX, ← hDd]
      ring
    rw [hF]
    omega

/-- The rounding error of `f32round` over the rationals. -/
theorem f32round_near (n d : Nat) (h1 : 2 ^ 23 * d ≤ n * 2 ^ 64)
    (h2 : n * 2 ^ 64 < 2 ^ 256 * d) :
    ((n : ℚ) / d) * (1 - 1 / 2 ^ 24) ≤ (f32round n d : ℚ) / 2 ^ 64 ∧
    (f32round n d : ℚ) / 2 ^ 64 ≤ ((n : ℚ) / d) * (1 + 1 / 2 ^ 24) := by
  have hd : 0 < d := by
    rcases Nat.eq_zero_or_pos d with h | h
    · subst h; simp at h2
    · exact h
  have hdq : (0 : ℚ) < d := by exact_mod_cast hd
  obtain ⟨e1, e2⟩ := f32round_error n d h1 h2
  have c1 : ((2 ^ 24 - 1 : ℕ) : ℚ) * ((n : ℚ) * 2 ^ 64)
      ≤ 2 ^ 24 * ((f32round n d : ℚ) * d) := by exact_mod_cast e1
  have c2 : (2 ^ 24 : ℚ) * ((f32round n d : ℚ) * d)
      ≤ ((2 ^ 24 + 1 : ℕ) : ℚ) * ((n : ℚ) * 2 ^ 64) := by exact_mod_cast e2
  norm_num at c1 c2
  constructor
  · rw [div_mul_eq_mul_div, div_le_div_iff₀ hdq (by norm_num)]
    linarith
  · rw [div_mul_eq_mul_div, div_le_div_iff₀ (by norm_num) hdq]
    linarith

/-- A colour channel whose product with the alpha is no multiple of 255: the four
roundings of the `float` computation move the result by less than the distance
of the exact quotient to the next integer. -/
theorem premultiply_inexact (c a : Nat) (hc1 : 1 ≤ c) (hc : c ≤ 255) (ha1 : 1 ≤ a)
    (ha : a ≤ 255) (hk : c * a % 255 ≠ 0) : premultiply c a = c * a / 255 := by
  unfold premultiply f32div f32mul f32toUINT f32ofNat
  simp only []
  have hR := f32round_near (c * 2 ^ 64) (255 * 2 ^ 64) (by omega) (by omega)
  have hA := f32round_near (a * 2 ^ 64) (255 * 2 ^ 64) (by omega) (by omega)
  generalize f32round (c * 2 ^ 64) (255 * 2 ^ 64) = r at hR ⊢
  generalize f32round (a * 2 ^ 64) (255 * 2 ^ 64) = al at hA ⊢
  have hcq : ((c * 2 ^ 64 : ℕ) : ℚ) / ((255 * 2 ^ 64 : ℕ) : ℚ) = (c : ℚ) / 255 := by
    push_cast
    rw [div_eq_div_iff (by norm_num) (by norm_num)]
    ring
  have haq : ((a * 2 ^ 64 : ℕ) : ℚ) / ((255 * 2 ^ 64 : ℕ) : ℚ) = (a : ℚ) / 255 := by
    push_cast
    rw [div_eq_div_iff (by norm_num) (by norm_num)]
    ring
  rw [hcq] at hR
  rw [haq] at hA
  have hc1q : (1 : ℚ) ≤ c := by exact_mod_cast hc1
  have hcq255 : (c : ℚ) ≤ 255 := by exact_mod_cast hc
  have ha1q : (1 : ℚ) ≤ a := by exact_mod_cast ha1
  have haq255 : (a : ℚ) ≤ 255 := by exact_mod_cast ha
  -- natural bounds on r and al
  have hrlo : 2 ^ 55 ≤ r := by
    have h : (2 ^ 55 : ℚ) ≤ r := by
      have := hR.1
      rw [le_div_iff₀ (by norm_num)] at this
      nlinarith
    exact_mod_cast h
  have hrhi : r ≤ 2 ^ 65 := by
    have h : (r : ℚ) ≤ 2 ^ 65 := by
      have := hR.2
      rw [div_le_iff₀ (by norm_num)] at this
      nlinarith
    exact_mod_cast h
  have hallo : 2 ^ 55 ≤ al := by
    have h : (2 ^ 55 : ℚ) ≤ al := by
      have := hA.1
      rw [le_div_iff₀ (by norm_num)] at this
      nlinarith
    exact_mod_cast h
  have halhi : al ≤ 2 ^ 65 := by
    have h : (al : ℚ) ≤ 2 ^ 65 := by
      have := hA.2
      rw [div_le_iff₀ (by norm_num)] at this
      nlinarith
    exact_mod_cast h
  -- the product r * a
  have hra_lo : 2 ^ 110 ≤ r * al :=
    le_trans (by norm_num) (Nat.mul_le_mul hrlo hallo)
  have hra_hi : r * al ≤ 2 ^ 130 :=
    le_trans (Nat.mul_le_mul hrhi halhi) (by norm_num)
  have hraq : ((r * al : ℕ) : ℚ) / ((2 ^ 128 : ℕ) : ℚ)
      = ((r : ℚ) / 2 ^ 64) * ((al : ℚ) / 2 ^ 64) := by
    push_cast
    rw [div_mul_div_comm]
    norm_num
  generalize r * al = ra at hra_lo hra_hi hraq ⊢
  have hP := f32round_near ra (2 ^ 128) (by omega) (by omega)
  rw [hraq] at hP
  generalize f32round ra (2 ^ 128) = p at hP ⊢
  have hRAlo : ((c : ℚ) / 255 * (1 - 1 / 2 ^ 24)) * ((a : ℚ) / 255 * (1 - 1 / 2 ^ 24))
      ≤ ((r : ℚ) / 2 ^ 64) * ((al : ℚ) / 2 ^ 64) :=
    mul_le_mul hR.1 hA.1 (by positivity) (le_trans (by positivity) hR.1)
  have hRAhi : ((r : ℚ) / 2 ^ 64) * ((al : ℚ) / 2 ^ 64)
      ≤ ((c : ℚ) / 255 * (1 + 1 / 2 ^ 24)) * ((a : ℚ) / 255 * (1 + 1 / 2 ^ 24)) :=
    mul_le_mul hR.2 hA.2 (by positivity) (by positivity)
  have hPlo : ((c : ℚ) / 255 * (1 - 1 / 2 ^ 24)) * ((a : ℚ) / 255 * (1 - 1 / 2 ^ 24))
      * (1 - 1 / 2 ^ 24) ≤ (p : ℚ) / 2 ^ 64 :=
    le_trans (mul_le_mul_of_nonneg_right hRAlo (by norm_num)) hP.1
  have hPhi : (p : ℚ) / 2 ^ 64 ≤ ((c : ℚ) / 255 * (1 + 1 / 2 ^ 24))
      * ((a : ℚ) / 255 * (1 + 1 / 2 ^ 24)) * (1 + 1 / 2 ^ 24) :=
    le_trans hP.2 (mul_le_mul_of_nonneg_right hRAhi (by norm_num))
  have hplo : 2 ^ 45 ≤ p := by
    have h : (2 ^ 45 : ℚ) ≤ p := by
      have h1 : (1 : ℚ) / 255 * (1 - 1 / 2 ^ 24) * (1 / 255 * (1 - 1 / 2 ^ 24))
          * (1 - 1 / 2 ^ 24) ≤ (p : ℚ) / 2 ^ 64 := by
        refine le_trans ?_ hPlo
        gcongr
      rw [le_div_iff₀ (by norm_num)] at h1
      norm_num at h1
      linarith
    exact_mod_cast h
  have hphi : p ≤ 2 ^ 67 := by
    have h : (p : ℚ) ≤ 2 ^ 67 := by
      have h1 : (p : ℚ) / 2 ^ 64 ≤ (255 : ℚ) / 255 * (1 + 1 / 2 ^ 24)
          * (255 / 255 * (1 + 1 / 2 ^ 24)) * (1 + 1 / 2 ^ 24) := by
        refine le_trans hPhi ?_
        gcongr
      rw [div_le_iff₀ (by norm_num)] at h1
      norm_num at h1
      linarith
    exact_mod_cast h
  have hQ := f32round_near (p * (255 * 2 ^ 64)) (2 ^ 128) (by omega) (by omega)
  have hpq : ((p * (255 * 2 ^ 64) : ℕ) : ℚ) / ((2 ^ 128 : ℕ) : ℚ)
      = 255 * ((p : ℚ) / 2 ^ 64) := by
    push_cast
    rw [div_eq_iff (by norm_num)]
    ring
  rw [hpq] at hQ
  generalize f32round (p * (255 * 2 ^ 64)) (2 ^ 128) = q at hQ ⊢
  -- the exact quotient and its remainder
  have hdm := Nat.div_add_mod (c * a) 255
  have hklt := Nat.mod_lt (c * a) (by norm_num : 0 < 255)
  have hca : c * a ≤ 255 * 255 := Nat.mul_le_mul hc ha
  generalize c * a / 255 = m at hdm ⊢
  generalize c * a % 255 = k at hdm hklt hk
  have hk1 : 1 ≤ k := Nat.pos_of_ne_zero hk
  have hm : m ≤ 255 := by omega
  have hcaq : (c : ℚ) * a = 255 * m + k := by exact_mod_cast hdm.symm
  have hmq : (m : ℚ) ≤ 255 := by exact_mod_cast hm
  have hm0 : (0 : ℚ) ≤ m := by positivity
  have hk1q : (1 : ℚ) ≤ k := by exact_mod_cast hk1
  have hkq : (k : ℚ) ≤ 254 := by
    have : k ≤ 254 := by omega
    exact_mod_cast this
  have hlo : ((c : ℚ) * a) * ((1 - 1 / 2 ^ 24) ^ 4 / 255) ≤ (q : ℚ) / 2 ^ 64 := by
    have h := le_trans (mul_le_mul_of_nonneg_right
      (mul_le_mul_of_nonneg_left hPlo (by norm_num : (0 : ℚ) ≤ 255))
      (by norm_num : (0 : ℚ) ≤ 1 - 1 / 2 ^ 24)) hQ.1
    have e : ((c : ℚ) * a) * ((1 - 1 / 2 ^ 24) ^ 4 / 255)
        = 255 * ((c : ℚ) / 255 * (1 - 1 / 2 ^ 24) * ((a : ℚ) / 255 * (1 - 1 / 2 ^ 24))
            * (1 - 1 / 2 ^ 24)) * (1 - 1 / 2 ^ 24) := by ring
    rw [e]
    exact h
  have hhi : (q : ℚ) / 2 ^ 64 ≤ ((c : ℚ) * a) * ((1 + 1 / 2 ^ 24) ^ 4 / 255) := by
    have h := le_trans hQ.2 (mul_le_mul_of_nonneg_right
      (mul_le_mul_of_nonneg_left hPhi (by norm_num : (0 : ℚ) ≤ 255))
      (by norm_num : (0 : ℚ) ≤ 1 + 1 / 2 ^ 24))
    have e : ((c : ℚ) * a) * ((1 + 1 / 2 ^ 24) ^ 4 / 255)
        = 255 * ((c : ℚ) / 255 * (1 + 1 / 2 ^ 24) * ((a : ℚ) / 255 * (1 + 1 / 2 ^ 24))
            * (1 + 1 / 2 ^ 24)) * (1 + 1 / 2 ^ 24) := by ring
    rw [e]
    exact h
  rw [hcaq] at hlo hhi
  rw [le_div_iff₀ (by norm_num)] at hlo
  rw [div_le_iff₀ (by norm_num)] at hhi
  norm_num at hlo hhi
  apply Nat.div_eq_of_lt_le
  · have h : (m : ℚ) * 2 ^ 64 ≤ q := by
      norm_num
      linarith
    exact_mod_cast h
  · have h : (q : ℚ) < ((m + 1 : ℕ) : ℚ) * 2 ^ 64 := by
      push_cast
      norm_num
      linarith
    exact_mod_cast h

/-- The colour channels whose product with the alpha is a multiple of 255, by
evaluation of the `float` computation on each of them. -/
theorem premultiplyIntegerCases_true : premultiplyIntegerCases = true := by
  decide!

/-- The `float` computation of a colour channel gives the exact quotient
`c * alpha / 255`, rounded down, for all bytes `c` and `alpha`. -/
theorem premultiply_exact (c a : Nat) (hc : c < 256) (ha : a < 256) :
    premultiply c a = c * a / 255 := by
  by_cases hk : c * a % 255 = 0
  · have h := premultiplyIntegerCases_true
    unfold premultiplyIntegerCases at h
    rw [List.all_eq_true] at h
    have h1 := h c (List.mem_range.mpr hc)
    rw [List.all_eq_true] at h1
    have h2 := h1 a (List.mem_range.mpr ha)
    simp only [hk, beq_self_eq_true, Bool.not_true, Bool.false_or, beq_iff_eq] at h2
    exact h2
  · have hc1 : 1 ≤ c := by
      rcases Nat.eq_zero_or_pos c with h | h
      · subst h; simp at hk
      · exact h
    have ha1 : 1 ≤ a := by
      rcases Nat.eq_zero_or_pos a with h | h
      · subst h; simp at hk
      · exact h
    exact premultiply_inexact c a hc1 (by omega) ha1 (by omega) hk

theorem and_shift_byte (x s : Nat) : (x &&& (255 <<< s)) >>> s = x / 2 ^ s % 256 := by
  apply Nat.eq_of_testBit_eq
  intro i
  have h255 : (255 : ℕ) = 2 ^ 8 - 1 := rfl
  have h256 : (256 : ℕ) = 2 ^ 8 := rfl
  rw [h256, Nat.testBit_mod_two_pow, ← Nat.shiftRight_eq_div_pow]
  simp only [Nat.testBit_shiftRight, Nat.testBit_and, Nat.testBit_shiftLeft]
  rw [h255, Nat.testBit_two_pow_sub_one]
  simp [Bool.and_comm]

theorem pack_bytes (b2 b1 b0 : Nat) (h2 : b2 < 256) (h1 : b1 < 256) (h0 : b0 < 256) :
    0xFF000000 ||| (b2 <<< 16) ||| (b1 <<< 8) ||| b0
      = 0xFF000000 + b2 * 65536 + b1 * 256 + b0 := by
  have e0 : (b1 <<< 8) ||| b0 = b1 * 256 + b0 := by
    rw [Nat.shiftLeft_eq, show (2:ℕ) ^ 8 = 256 from rfl, Nat.mul_comm b1 256]
    exact (Nat.mul_add_lt_is_or (i := 8) (by simpa using h0) b1).symm
  have e1 : (b2 <<< 16) ||| (b1 * 256 + b0) = b2 * 65536 + (b1 * 256 + b0) := by
    rw [Nat.shiftLeft_eq, show (2:ℕ) ^ 16 = 65536 from rfl, Nat.mul_comm b2 65536]
    exact (Nat.mul_add_lt_is_or (i := 16) (by norm_num; omega) b2).symm
  have e2 : 0xFF000000 ||| (b2 * 65536 + (b1 * 256 + b0))
      = 0xFF000000 + (b2 * 65536 + (b1 * 256 + b0)) := by
    have := (Nat.mul_add_lt_is_or (i := 24) (b := b2 * 65536 + (b1 * 256 + b0))
      (by norm_num; omega) 255).symm
    norm_num at this ⊢
    exact this
  rw [Nat.or_assoc, Nat.or_assoc, e0, e1, e2]
  omega

theorem boostAlpha_lt (a : Nat) (h : a < 256) : boostAlpha a < 256 := by
  unfold boostAlpha
  split
  · exact Nat.mod_lt _ (by norm_num)
  · exact h

theorem div255_le (c a : Nat) (ha : a < 256) : c * a / 255 ≤ c := by
  apply Nat.div_le_of_le_mul
  have : c * a ≤ c * 255 := Nat.mul_le_mul_left c (by omega)
  omega

/-- The alpha-stripping transform in terms of the four bytes of the colour. -/
theorem stripAlpha_bytes (color : Nat) :
    stripAlpha color
      = 0xFF000000
        + (color / 2 ^ 16 % 256 * boostAlpha (color / 2 ^ 24 % 256) / 255) * 65536
        + (color / 2 ^ 8 % 256 * boostAlpha (color / 2 ^ 24 % 256) / 255) * 256
        + color % 256 * boostAlpha (color / 2 ^ 24 % 256) / 255 := by
  have m24 : (color &&& 0xFF000000) >>> 24 = color / 2 ^ 24 % 256 := and_shift_byte color 24
  have m16 : (color &&& 0xFF0000) >>> 16 = color / 2 ^ 16 % 256 := and_shift_byte color 16
  have m8 : (color &&& 0x00FF00) >>> 8 = color / 2 ^ 8 % 256 := and_shift_byte color 8
  have m0 : color &&& 0x0000FF = color % 256 := Nat.and_pow_two_sub_one_eq_mod color 8
  have ma : (color / 2 ^ 24 % 256) &&& 0xFF = color / 2 ^ 24 % 256 := by
    have h := Nat.and_pow_two_sub_one_eq_mod (color / 2 ^ 24 % 256) 8
    rw [Nat.mod_mod] at h
    exact h
  have hA := boostAlpha_lt (color / 2 ^ 24 % 256) (Nat.mod_lt _ (by norm_num))
  have h2 := Nat.mod_lt (color / 2 ^ 16) (by norm_num : 0 < 256)
  have h1 := Nat.mod_lt (color / 2 ^ 8) (by norm_num : 0 < 256)
  have h0 := Nat.mod_lt color (by norm_num : 0 < 256)
  unfold stripAlpha
  simp only [m24, m16, m8, m0, ma]
  rw [premultiply_exact _ _ h2 hA, premultiply_exact _ _ h1 hA, premultiply_exact _ _ h0 hA]
  have b2 := div255_le (color / 2 ^ 16 % 256) _ hA
  have b1 := div255_le (color / 2 ^ 8 % 256) _ hA
  have b0 := div255_le (color % 256) _ hA
  rw [wrapUINT_of_fits, wrapUINT_of_fits]
  · exact pack_bytes _ _ _ (by omega) (by omega) (by omega)
  · rw [Nat.shiftLeft_eq]
    omega
  · rw [Nat.shiftLeft_eq]
    omega

theorem toLONG_eq (q : Rat) : toLONG q = if 0 ≤ q then ⌊q⌋ else -⌊-q⌋ := rfl

theorem toLONG_truncates (q : Rat) : Truncates q (toLONG q) := by
  rw [toLONG_eq]
  unfold Truncates
  split_ifs with h
  · have h1 := Int.floor_le q
    have h2 := Int.lt_floor_add_one q
    have h3 : (0 : Rat) ≤ (⌊q⌋ : Rat) := by exact_mod_cast Int.floor_nonneg.mpr h
    rw [abs_of_nonneg h3, abs_of_nonneg h, abs_of_nonneg (by linarith)]
    constructor <;> linarith
  · push_neg at h
    have hq : (0 : Rat) ≤ -q := by linarith
    have h1 := Int.floor_le (-q)
    have h2 := Int.lt_floor_add_one (-q)
    have h3 : (0 : Rat) ≤ (⌊-q⌋ : Rat) := by exact_mod_cast Int.floor_nonneg.mpr hq
    push_cast
    rw [abs_neg, abs_of_nonneg h3, abs_of_neg h, abs_of_nonpos (by linarith)]
    constructor <;> linarith

theorem toLONG_mono {a b : Rat} (h : a ≤ b) : toLONG a ≤ toLONG b := by
  rw [toLONG_eq, toLONG_eq]
  split_ifs with ha hb hb
  · exact Int.floor_mono h
  · exact absurd (le_trans ha h) hb
  · push_neg at ha
    have h1 : (0 : Int) ≤ ⌊-a⌋ := Int.floor_nonneg.mpr (by linarith)
    have h2 : (0 : Int) ≤ ⌊b⌋ := Int.floor_nonneg.mpr hb
    omega
  · have : ⌊-b⌋ ≤ ⌊-a⌋ := Int.floor_mono (by linarith)
    omega

theorem toLONG_fits (q : Rat) (hlo : -2 ^ 31 < q) (hhi : q < 2 ^ 31) :
    -2 ^ 31 ≤ toLONG q ∧ toLONG q < 2 ^ 31 := by
  have ht := (toLONG_truncates q).1
  have hq : |q| < 2 ^ 31 := abs_lt.mpr ⟨hlo, hhi⟩
  have h2 : |((toLONG q : Int) : Rat)| < 2 ^ 31 := lt_of_le_of_lt ht hq
  rw [abs_lt] at h2
  constructor
  · have : ((-2 ^ 31 : Int) : Rat) < ((toLONG q : Int) : Rat) := by push_cast; exact h2.1
    have := Int.cast_lt.mp this
    omega
  · have : ((toLONG q : Int) : Rat) < ((2 ^ 31 : Int) : Rat) := by push_cast; exact h2.2
    exact Int.cast_lt.mp this

theorem initFrames_each (e : InitEnv) (frs : List FrameCtx) :
    ∀ i, (initFrames e i frs).1 = true →
      ∀ (k : Nat) (fr : FrameCtx),
        (initFrames e i frs).2.1[k]? = some fr →
          ∃ f0, (initFrame e (i + k) f0).1 = true ∧ fr = (initFrame e (i + k) f0).2.1 := by
  induction frs with
  | nil => intro i _ k fr h; simp [initFrames] at h
  | cons f rest ih =>
    intro i hok k fr h
    simp only [initFrames] at hok h
    by_cases h1 : (initFrame e i f).1 = true
    · simp only [h1, if_true] at hok h
      cases k with
      | zero =>
        simp only [List.getElem?_cons_zero, Option.some.injEq] at h
        exact ⟨f, by simpa using h1, by simpa using h.symm⟩
      | succ k =>
        simp only [List.getElem?_cons_succ] at h
        have := ih (i + 1) hok k fr h
        have heq : i + 1 + k = i + (k + 1) := by omega
        rwa [heq] at this
    · simp [h1] at hok

theorem createManagerObjects_each (w : World) (e : InitEnv)
    (hok : (createManagerObjects w e).1 = true) :
    ∀ (k : Nat) (fr : FrameCtx),
      (createManagerObjects w e).2.rbk.frames_[k]? = some fr →
        ∃ f0, (initFrame e k f0).1 = true ∧ fr = (initFrame e k f0).2.1 := by
  simp only [createManagerObjects, World.emit] at hok ⊢
  split_ifs at hok ⊢ with h3 h4
  intro k fr hk
  have := initFrames_each e _ 0 (by simpa using h4) k fr hk
  simpa using this

theorem init_each (w : World) (sc q : Option Handle) (e : InitEnv)
    (hok : (SK_D3D12_RenderCtx.init w sc q e).1 = true) :
    ∀ (k : Nat) (fr : FrameCtx),
      (SK_D3D12_RenderCtx.init w sc q e).2.rbk.frames_[k]? = some fr →
        ∃ f0, (initFrame e k f0).1 = true ∧ fr = (initFrame e k f0).2.1 := by
  simp only [SK_D3D12_RenderCtx.init] at hok ⊢
  split_ifs at hok ⊢ with hc
  simp only [initAfterCooldown] at hok ⊢
  split_ifs at hok ⊢ with h1 h2
  simp only [initCreate] at hok ⊢
  split_ifs at hok ⊢ with h3
  have hm := createManagerObjects_each (afterResize (resolveDevice (enterInit w q) sc e) e) e
    (by simpa using h3)
  simpa only [createDeviceObjects_rbk, ImGui_ImplDX12_Init] using hm

theorem initFrame_handles (e : InitEnv) (i : Nat) (f0 : FrameCtx)
    (hok : (initFrame e i f0).1 = true) :
    (initFrame e i f0).2.1.hRenderOutput
      = wrapUINT64 (e.rtvHeapStart + wrapUINT (i * e.rtvDescriptorSize)) ∧
    (initFrame e i f0).2.1.hdr.hSwapChainCopy_CPU
      = wrapUINT64 (e.hdrCpuStart + wrapUINT (e.srvDescriptorSize * i)) ∧
    (initFrame e i f0).2.1.hdr.hSwapChainCopy_GPU
      = wrapUINT64 (e.hdrGpuStart + wrapUINT (e.srvDescriptorSize * i)) ∧
    (initFrame e i f0).2.1.hdr.hBufferCopy_CPU
      = wrapUINT64 (e.copyAssistCpuStart + wrapUINT (e.srvDescriptorSize * i)) ∧
    (initFrame e i f0).2.1.hdr.hBufferCopy_GPU
      = wrapUINT64 (e.copyAssistGpuStart + wrapUINT (e.srvDescriptorSize * i)) := by
  unfold initFrame at hok ⊢
  split_ifs at hok ⊢
  all_goals simp_all

theorem handle_of_fits (start inc n k : Nat) (hk : k < n) (hf : heapFits start inc n) :
    wrapUINT64 (start + wrapUINT (k * inc)) = start + k * inc ∧
    wrapUINT64 (start + wrapUINT (inc * k)) = start + k * inc ∧
    start + k * inc + inc ≤ start + n * inc := by
  obtain ⟨h0, h32, h64⟩ := hf
  have h1 : k * inc + inc ≤ n * inc := by
    have : (k + 1) * inc ≤ n * inc := Nat.mul_le_mul_right inc hk
    linarith [Nat.succ_mul k inc]
  have h2 : k * inc < 2 ^ 32 := by omega
  have h3 : start + k * inc < 2 ^ 64 := by
    rcases Nat.eq_zero_or_pos inc with hz | hp
    · subst hz
      simpa using h0
    · omega
  have h4 : wrapUINT (k * inc) = k * inc := by
    unfold wrapUINT
    exact Nat.mod_eq_of_lt h2
  have h5 : wrapUINT64 (start + k * inc) = start + k * inc := by
    unfold wrapUINT64
    exact Nat.mod_eq_of_lt h3
  refine ⟨by rw [h4, h5], by rw [Nat.mul_comm inc k, h4, h5], by omega⟩

theorem handle_injective (start inc j k : Nat) (hinc : 0 < inc) (hjk : j ≠ k) :
    start + j * inc ≠ start + k * inc := by
  intro h
  have : j * inc = k * inc := by omega
  exact hjk (Nat.eq_of_mul_eq_mul_right hinc this)
theorem callSetPipelineState_trace (w : World) (e : HookEnv) (This : Handle)
    (p : Option Handle) :
    (callSetPipelineState w e This p).trace
      = w.trace ++ [Event.call This (Cmd.SetPipelineState p)] := by
  unfold callSetPipelineState D3D12GraphicsCommandList_SetPipelineState_Detour
  cases p with
  | none => split <;> rfl
  | some pso =>
    simp only [World.emit, World.setDisable]
    split
    · split
      · rfl
      · split <;> rfl
    · rfl

theorem callDrawInstanced_passes (w : World) (This : Handle) (a b c d : Nat)
    (hdraw : w.drawHooks = false ∨ w.getDisable This ≠ some true) :
    callDrawInstanced w This a b c d = w.emit [Event.call This (Cmd.DrawInstanced a b c d)] := by
  unfold callDrawInstanced D3D12GraphicsCommandList_DrawInstanced_Detour
  rcases hdraw with h | h
  · simp [h]
  · split
    · split
      · rename_i h2
        exact absurd h2 h
      · rfl
    · rfl

theorem callDrawInstanced_trace (w : World) (This : Handle) (a b c d : Nat) :
    (callDrawInstanced w This a b c d).trace = w.trace ∨
    (callDrawInstanced w This a b c d).trace
      = w.trace ++ [Event.call This (Cmd.DrawInstanced a b c d)] := by
  unfold callDrawInstanced D3D12GraphicsCommandList_DrawInstanced_Detour
  split
  · split
    · exact Or.inl rfl
    · exact Or.inr rfl
  · exact Or.inr rfl

theorem TraceGrows.after_emit {p : Event → Bool} {w w1 : World} (h : TraceGrows p w w1)
    (es : List Event) (hes : es.all p = true) : TraceGrows p w (w1.emit es) :=
  h.then_grows (TraceGrows.emit_grows p w1 es hes)

theorem TraceGrows.after_setPipelineState {p : Event → Bool} {w w1 : World}
    (h : TraceGrows p w w1) (e : HookEnv) (This : Handle) (x : Option Handle)
    (hp : p (Event.call This (Cmd.SetPipelineState x)) = true) :
    TraceGrows p w (callSetPipelineState w1 e This x) :=
  h.then_grows ⟨_, callSetPipelineState_trace w1 e This x, by simp [hp]⟩

theorem TraceGrows.after_drawInstanced {p : Event → Bool} {w w1 : World}
    (h : TraceGrows p w w1) (This : Handle) (a b c d : Nat)
    (hp : p (Event.call This (Cmd.DrawInstanced a b c d)) = true) :
    TraceGrows p w (callDrawInstanced w1 This a b c d) := by
  rcases callDrawInstanced_trace w1 This a b c d with h1 | h1
  · exact h.then_grows (TraceGrows.of_same_trace p h1)
  · exact h.then_grows ⟨_, h1, by simp [hp]⟩

theorem blitter_no_copy (w : World) (e : BlitEnv) (This : Handle) (r : Option Handle) :
    TraceGrows (fun ev => !ev.isCopyResource && !ev.isCopyTextureRegion) w
      (SK_D3D12_HDR_CopyBuffer w e This r) := by
  unfold SK_D3D12_HDR_CopyBuffer
  split
  · exact TraceGrows.id_grows _ w
  split
  · exact TraceGrows.id_grows _ w
  split
  · exact TraceGrows.id_grows _ w
  simp only []
  split
  · exact ⟨[Event.SelectFrame e.currentIdx], rfl, rfl⟩
  split
  · exact ⟨[Event.SelectFrame e.currentIdx], rfl, rfl⟩
  exact ((((((TraceGrows.id_grows _ w).after_emit _ (by rfl)).after_emit _
    (by rfl)).after_setPipelineState _ _ _ (by rfl)).after_emit _
    (by rfl)).after_drawInstanced _ _ _ _ _ (by rfl)).after_emit _ (by rfl)
theorem dumpStage_skipped (w : World) (e : CopyEnv) (This : Handle)
    (pDst : D3D12_TEXTURE_COPY_LOCATION) (DstX DstY DstZ : Nat)
    (pSrc : D3D12_TEXTURE_COPY_LOCATION) (pSrcBox : Option D3D12_BOX)
    (h : (e.desc pSrc.pResource).Dimension ≠ D3D12_RESOURCE_DIMENSION_BUFFER) :
    dumpStage w e This pDst DstX DstY DstZ pSrc pSrcBox = w := by
  unfold dumpStage
  rw [if_neg]
  rintro ⟨-, h2, -⟩
  exact h h2.symm

theorem dumpStage_trace (w : World) (e : CopyEnv) (This : Handle)
    (pDst : D3D12_TEXTURE_COPY_LOCATION) (DstX DstY DstZ : Nat)
    (pSrc : D3D12_TEXTURE_COPY_LOCATION) (pSrcBox : Option D3D12_BOX) :
    dumpStage w e This pDst DstX DstY DstZ pSrc pSrcBox = w ∨
    dumpStage w e This pDst DstX DstY DstZ pSrc pSrcBox
      = w.emit [Event.Dump This pDst.pResource] := by
  unfold dumpStage
  simp only []
  split_ifs <;> first | exact Or.inl rfl | exact Or.inr rfl

theorem row_pitch_of_fits (width bytes : Nat) (h : width * bytes < 2 ^ 32) :
    wrapUINT (width * wrapUINT bytes) = width * bytes := by
  unfold wrapUINT
  rcases Nat.eq_zero_or_pos width with h0 | hp
  · subst h0
    simp
  · have hb : bytes < 2 ^ 32 := by
      have : bytes ≤ width * bytes := Nat.le_mul_of_pos_left bytes hp
      omega
    rw [Nat.mod_eq_of_lt hb, Nat.mod_eq_of_lt h]

theorem release_submits_at_current (w : World) (pSwapChain : Option Handle) (re : ReleaseEnv)
    (currentIdx : Nat) (hidx : ∀ k, (re.dtor k).currentIdx = currentIdx) :
    ∃ es, (SK_D3D12_RenderCtx.release w pSwapChain re).trace = w.trace ++ es ∧
      ∀ i l, Event.ExecuteCommandLists i l ∈ es → i = currentIdx := by
  have htr : (ImGui_ImplDX12_Shutdown w).trace = w.trace := by
    unfold ImGui_ImplDX12_Shutdown ImGui_ImplDX12_InvalidateDeviceObjects
    split <;> rfl
  unfold SK_D3D12_RenderCtx.release
  split
  · refine ⟨Event.Release :: destroyFrames _ re.dtor 0 (ImGui_ImplDX12_Shutdown w).rbk.frames_,
      by rw [← htr], ?_⟩
    intro i l hm
    simp only [List.mem_cons, reduceCtorEq, false_or, destroyFrames_submits_iff] at hm
    obtain ⟨k, fr2, _, _, _, _, hc, _, hfi, _⟩ := hm
    rw [hidx] at hc
    exact hfi.trans hc.symm
  · exact ⟨[], (List.append_nil _).symm, fun i l hm => by simp at hm⟩


theorem growBuffers_vb (h : FrameHeap) (d : ImDrawData) (e : UiEnv)
    (hv : e.createVb.isSome = true) (hi : e.createIb.isSome = true) :
    (growBuffers h d e).2.1.Vb
      = if h.Vb.lacks d.TotalVtxCount
        then { p := e.createVb, size := wrapINT (d.TotalVtxCount + 5000) } else h.Vb := by
  rw [growBuffers_ok h d e (fun _ => hv) (fun _ => hi)]

theorem risingCounts_succ (first : Int) (calls : Nat) :
    risingCounts first (calls + 1) = first :: risingCounts (first + 1) calls := by
  unfold risingCounts
  rw [List.range_succ_eq_map, List.map_cons, List.map_map]
  refine congrArg₂ _ (by simp) (List.map_congr_left ?_)
  intro i _
  simp only [Function.comp_apply, Nat.cast_succ]
  ring

theorem growRun_rising (e : UiEnv) (hv : e.createVb.isSome = true)
    (hi : e.createIb.isSome = true) :
    ∀ (calls : Nat) (h : FrameHeap) (first : Int),
      h.Vb.p.isSome = true → first ≤ h.Vb.size + 1 → -2 ^ 31 ≤ first + 5000 →
      first + calls + 5000 ≤ 2 ^ 31 →
      (growRun e h (risingCounts first calls)).2
        = (List.range ((calls - (h.Vb.size + 1 - first).toNat + 5000) / 5001)).map
            (fun (j : Nat) => h.Vb.size + 1 + 5001 * (j : Int)) := by
  intro calls
  induction calls with
  | zero =>
    intro h first _ _ _ _
    simp [risingCounts, growRun]
  | succ calls ih =>
    intro h first hp hle hlo hhi
    rw [risingCounts_succ]
    simp only [growRun]
    have hvb : (growBuffers h (countData first) e).2.1.Vb
        = if h.Vb.lacks first
          then { p := e.createVb, size := wrapINT (first + 5000) } else h.Vb :=
      growBuffers_vb h (countData first) e hv hi
    by_cases hl : h.Vb.size < first
    · have hsz : h.Vb.size + 1 = first := by omega
      have hlacks : h.Vb.lacks first = true := by simp [buffer_s.lacks, hl]
      rw [hlacks] at hvb
      simp only [if_true] at hvb
      rw [wrapINT_of_fits _ hlo (by push_cast at hhi; omega)] at hvb
      simp only [hlacks, if_true]
      rw [ih _ (first + 1) (by rw [hvb]; exact hv)
        (by rw [hvb]; show first + 1 ≤ first + 5000 + 1; omega) (by omega)
        (by push_cast at hhi ⊢; omega), hvb]
      show first :: List.map (fun (j : Nat) => first + 5000 + 1 + 5001 * (j : Int))
          (List.range ((calls - (first + 5000 + 1 - (first + 1)).toNat + 5000) / 5001))
        = List.map (fun (j : Nat) => h.Vb.size + 1 + 5001 * (j : Int))
          (List.range ((calls + 1 - (h.Vb.size + 1 - first).toNat + 5000) / 5001))
      have hg0 : (h.Vb.size + 1 - first).toNat = 0 := by rw [hsz]; simp
      have hg1 : (first + 5000 + 1 - (first + 1)).toNat = 5000 := by
        have : first + 5000 + 1 - (first + 1) = 5000 := by ring
        rw [this]; rfl
      rw [hg0, hg1]
      have hcnt : (calls + 1 - 0 + 5000) / 5001 = (calls - 5000 + 5000) / 5001 + 1 := by omega
      rw [hcnt, List.range_succ_eq_map, List.map_cons, List.map_map]
      refine congrArg₂ _ (by simp [hsz]) (List.map_congr_left ?_)
      intro j _
      simp only [Function.comp_apply, Nat.cast_succ]
      rw [← hsz]
      ring
    · have hlacks : h.Vb.lacks first = false := by
        simp only [buffer_s.lacks, Bool.or_eq_false_iff, decide_eq_false_iff_not]
        exact ⟨by simpa using hp, hl⟩
      rw [hlacks] at hvb
      simp only [Bool.false_eq_true, if_false] at hvb
      simp only [hlacks, Bool.false_eq_true, if_false]
      rw [ih _ (first + 1) (by rw [hvb]; exact hp) (by rw [hvb]; omega) (by omega)
        (by push_cast at hhi ⊢; omega), hvb]
      have hg : (h.Vb.size + 1 - (first + 1)).toNat + 1 = (h.Vb.size + 1 - first).toNat := by
        omega
      have hcnt : (calls - (h.Vb.size + 1 - (first + 1)).toNat + 5000) / 5001
          = (calls + 1 - (h.Vb.size + 1 - first).toNat + 5000) / 5001 := by
        rw [← hg]
        congr 1
        omega
      rw [hcnt]

theorem growRun_from_absent (e : UiEnv) (hv : e.createVb.isSome = true)
    (hi : e.createIb.isSome = true) (calls : Nat) (h : FrameHeap) (first : Int)
    (hp : h.Vb.p = none) (hlo : -2 ^ 31 ≤ first + 5000) (hhi : first + calls + 5000 ≤ 2 ^ 31) :
    (growRun e h (risingCounts first calls)).2
      = (List.range ((calls + 5000) / 5001)).map (fun (j : Nat) => first + 5001 * (j : Int)) := by
  cases calls with
  | zero => simp [risingCounts, growRun]
  | succ calls =>
    rw [risingCounts_succ]
    simp only [growRun]
    have hlacks : h.Vb.lacks first = true := by simp [buffer_s.lacks, hp]
    have hvb : (growBuffers h (countData first) e).2.1.Vb
        = if h.Vb.lacks first
          then { p := e.createVb, size := wrapINT (first + 5000) } else h.Vb :=
      growBuffers_vb h (countData first) e hv hi
    rw [hlacks] at hvb
    simp only [if_true] at hvb
    rw [wrapINT_of_fits _ hlo (by push_cast at hhi; omega)] at hvb
    simp only [hlacks, if_true]
    rw [growRun_rising e hv hi calls _ (first + 1) (by rw [hvb]; exact hv)
      (by rw [hvb]; show first + 1 ≤ first + 5000 + 1; omega) (by omega)
      (by push_cast at hhi ⊢; omega), hvb]
    show first :: List.map (fun (j : Nat) => first + 5000 + 1 + 5001 * (j : Int))
        (List.range ((calls - (first + 5000 + 1 - (first + 1)).toNat + 5000) / 5001))
      = List.map (fun (j : Nat) => first + 5001 * (j : Int))
        (List.range ((calls + 1 + 5000) / 5001))
    have hg1 : (first + 5000 + 1 - (first + 1)).toNat = 5000 := by
      have : first + 5000 + 1 - (first + 1) = 5000 := by ring
      rw [this]; rfl
    have hcnt : (calls + 1 + 5000) / 5001 = (calls - 5000 + 5000) / 5001 + 1 := by omega
    rw [hg1, hcnt, List.range_succ_eq_map, List.map_cons, List.map_map]
    refine congrArg₂ _ (by simp) (List.map_congr_left ?_)
    intro j _
    simp only [Function.comp_apply, Nat.cast_succ]
    ring

theorem wait_for_gpu_core_waits (fr : FrameCtx) (c s v : Bool) (idx : Nat)
    (h : (fr.wait_for_gpu_core c s v idx).1 = true) :
    Event.SetEventOnCompletion fr.iBufferIdx (fr.fence.value + 1) v
      ∈ (fr.wait_for_gpu_core c s v idx).2.2.1 ∧
    (Event.Wait fr.iBufferIdx ∈ (fr.wait_for_gpu_core c s v idx).2.2.1 ↔ v = true) ∧
    (v = false → (fr.wait_for_gpu_core c s v idx).2.2.1.all (fun ev => !ev.isWait) = true) := by
  revert h
  unfold FrameCtx.wait_for_gpu_core FrameCtx.exec_cmd_list_core
  cases hr : fr.bCmdListRecording <;> cases c <;> by_cases hi : idx = fr.iBufferIdx <;>
    cases he : fr.fence.event <;> cases s <;> cases v <;>
    simp [hr, hi, he, Event.isWait]

/-! ### The claims -/

/-- C1: each of the three draw hooks (`DrawInstanced`, `DrawIndexedInstanced`,
`ExecuteIndirect`), for every argument tuple, leaves the world untouched (the
original is not called, nothing is recorded, the hook returns) when the
disabled flag on the command list reads true, and in every other case (flag
false, or no flag to read) calls the original exactly once with the arguments
it received. -/
theorem draw_hooks_suppress_iff_flag_true (w : World) (This : Handle)
    (a b c d : Nat) (bv : Int) (f : Nat) (sig arg cnt : Option Handle) (m ao co : Nat) :
    D3D12GraphicsCommandList_DrawInstanced_Detour w This a b c d
      = (if w.getDisable This = some true then w
         else w.emit [Event.call This (Cmd.DrawInstanced a b c d)]) ∧
    D3D12GraphicsCommandList_DrawIndexedInstanced_Detour w This a b c bv f
      = (if w.getDisable This = some true then w
         else w.emit [Event.call This (Cmd.DrawIndexedInstanced a b c bv f)]) ∧
    D3D12GraphicsCommandList_ExecuteIndirect_Detour w This sig m arg ao cnt co
      = (if w.getDisable This = some true then w
         else w.emit [Event.call This (Cmd.ExecuteIndirect sig m arg ao cnt co)]) := by
  refine ⟨?_, ?_, ?_⟩
  · unfold D3D12GraphicsCommandList_DrawInstanced_Detour
    split <;> simp_all
  · unfold D3D12GraphicsCommandList_DrawIndexedInstanced_Detour
    split <;> simp_all
  · unfold D3D12GraphicsCommandList_ExecuteIndirect_Detour
    split <;> simp_all

/-- C2, evaluated at the failing input: a manager of two frame contexts has
presented one frame with the hooks installed; the UI pipeline (object 31) then
has its disabled flag set to true, and the next `present` draws the same UI
payload.  The `SetPipelineState` hook copies the true flag onto the command list
(object 300) before `ImGui_ImplDX12_RenderDrawData` clears it on the pipeline,
so the flag read at the UI draw call is true and the indexed draw of that frame
never reaches the command list, although the pipeline's own flag ends false. -/
theorem ui_draw_suppressed_when_pipeline_was_disabled :
    (SK_D3D12_RenderCtx.present (bootWorld 0) (some 5)
        (okPresent 2 0 (some sampleDrawData))).drawHooks = true ∧
    (SK_D3D12_RenderCtx.present (bootWorld 0) (some 5)
        (okPresent 2 0 (some sampleDrawData))).imgui.pPipelineState = some 31 ∧
    Cmd.DrawIndexedInstanced 3 1 0 0 0 ∈ callsOn 300
      (SK_D3D12_RenderCtx.present (bootWorld 0) (some 5)
        (okPresent 2 0 (some sampleDrawData))).trace ∧
    (SK_D3D12_RenderCtx.present
      ((SK_D3D12_RenderCtx.present (bootWorld 0) (some 5)
          (okPresent 2 0 (some sampleDrawData))).setDisable 31 true)
      (some 5) (okPresent 2 0 (some sampleDrawData))).getDisable 300 = some true ∧
    (SK_D3D12_RenderCtx.present
      ((SK_D3D12_RenderCtx.present (bootWorld 0) (some 5)
          (okPresent 2 0 (some sampleDrawData))).setDisable 31 true)
      (some 5) (okPresent 2 0 (some sampleDrawData))).getDisable 31 = some false ∧
    Cmd.SetPipelineState (some 31) ∈ callsOn 300
      ((SK_D3D12_RenderCtx.present
        ((SK_D3D12_RenderCtx.present (bootWorld 0) (some 5)
            (okPresent 2 0 (some sampleDrawData))).setDisable 31 true)
        (some 5) (okPresent 2 0 (some sampleDrawData))).trace.drop
        (SK_D3D12_RenderCtx.present (bootWorld 0) (some 5)
          (okPresent 2 0 (some sampleDrawData))).trace.length) ∧
    Cmd.DrawIndexedInstanced 3 1 0 0 0 ∉ callsOn 300
      ((SK_D3D12_RenderCtx.present
        ((SK_D3D12_RenderCtx.present (bootWorld 0) (some 5)
            (okPresent 2 0 (some sampleDrawData))).setDisable 31 true)
        (some 5) (okPresent 2 0 (some sampleDrawData))).trace.drop
        (SK_D3D12_RenderCtx.present (bootWorld 0) (some 5)
          (okPresent 2 0 (some sampleDrawData))).trace.length) := by
  decide

/-- C3: for every call of the `SetPipelineState` hook, with a null pipeline or
not, disabled or not, the original `SetPipelineState` is called exactly once
with the same command list and pipeline; and for a non-null pipeline the
disabled flag stored on the command list afterwards is the pipeline's own flag,
false when the pipeline carries none. -/
theorem setPipelineState_hook_forwards_and_stamps (w : World) (e : HookEnv) (This : Handle)
    (pso : Option Handle) :
    (D3D12GraphicsCommandList_SetPipelineState_Detour w e This pso).trace
        = w.trace ++ [Event.call This (Cmd.SetPipelineState pso)] ∧
    ∀ p : Handle,
      (D3D12GraphicsCommandList_SetPipelineState_Detour w e This (some p)).getDisable This
        = some ((w.getDisable p).getD false) := by
  constructor
  · cases pso with
    | none => simp [D3D12GraphicsCommandList_SetPipelineState_Detour, World.emit]
    | some p =>
      simp only [D3D12GraphicsCommandList_SetPipelineState_Detour, World.emit, World.setDisable]
      split <;> [skip; split] <;> simp
  · intro p
    simp only [D3D12GraphicsCommandList_SetPipelineState_Detour, World.emit, World.setDisable,
      World.getDisable]
    split <;> [skip; split] <;> simp [List.lookup]

/-- C4: at the final step of `present` (`presentSubmit`), for a frame context
whose tracked fence value is `v` and that is still alive there (closing the
list did not end in `release`): after the barrier and the close / submit, the
queue is signalled exactly once, with `v + 1`, and the frame context stored
back at its slot tracks `v + 1` if that signal succeeded and still `v` if it
failed. -/
theorem present_signals_value_plus_one (w : World) (e : PresentEnv) (This : Handle)
    (pos : Nat) (fr : FrameCtx)
    (hlive : e.closeOk = false ∨ e.ui.currentIdx = fr.iBufferIdx)
    (hpos : pos < w.rbk.frames_.length) :
    (presentSubmit w e This pos fr).trace
      = w.trace ++ (Event.call This (Cmd.ResourceBarrier 1)
          :: (fr.exec_cmd_list_core e.closeOk e.ui.currentIdx).2.1)
        ++ [Event.Signal fr.iBufferIdx fr.fence.p (fr.fence.value + 1) e.signalOk] ∧
    countSignals fr.iBufferIdx (fr.exec_cmd_list_core e.closeOk e.ui.currentIdx).2.1 = 0 ∧
    ((presentSubmit w e This pos fr).rbk.frames_[pos]?).map (fun f => f.fence.value)
      = some (if e.signalOk then fr.fence.value + 1 else fr.fence.value) := by
  have hno : (fr.exec_cmd_list_core e.closeOk e.ui.currentIdx).2.2 = false := by
    unfold FrameCtx.exec_cmd_list_core
    rcases hlive with h | h
    · simp [h]
    · simp only [h, if_true]
      split <;> rfl
  have hid : (fr.exec_cmd_list_core e.closeOk e.ui.currentIdx).1.iBufferIdx = fr.iBufferIdx ∧
      (fr.exec_cmd_list_core e.closeOk e.ui.currentIdx).1.fence = fr.fence := by
    unfold FrameCtx.exec_cmd_list_core
    split <;> [split; skip] <;> simp
  refine ⟨?_, ?_, ?_⟩
  · simp only [presentSubmit, FrameCtx.exec_cmd_list, hno, presentSignal, storeFrame, World.emit]
    cases hs : e.signalOk <;> simp [hid.1, hid.2]
  · unfold FrameCtx.exec_cmd_list_core
    split <;> [split; skip] <;> simp [countSignals]
  · simp only [presentSubmit, FrameCtx.exec_cmd_list, hno, presentSignal, storeFrame, World.emit]
    cases hs : e.signalOk <;> simp [hid.1, hid.2, hpos]

/-- C4, at a concrete input: slot 0 of an initialised manager of two frame
contexts, recording on list 300 with fence value 0, all calls succeeding. -/
theorem present_signals_value_plus_one_witness :
    ((okPresent 2 0 none).closeOk = false ∨
        (okPresent 2 0 none).ui.currentIdx = sampleRecordingFrame.iBufferIdx) ∧
    0 < (SK_D3D12_RenderCtx.init (bootWorld 0) (some 5) (some 1) (okInit 2)).2.rbk.frames_.length ∧
    (presentSubmit (SK_D3D12_RenderCtx.init (bootWorld 0) (some 5) (some 1) (okInit 2)).2
        (okPresent 2 0 none) 300 0 sampleRecordingFrame).trace
      = (SK_D3D12_RenderCtx.init (bootWorld 0) (some 5) (some 1) (okInit 2)).2.trace
        ++ (Event.call 300 (Cmd.ResourceBarrier 1)
          :: (sampleRecordingFrame.exec_cmd_list_core (okPresent 2 0 none).closeOk
                (okPresent 2 0 none).ui.currentIdx).2.1)
        ++ [Event.Signal sampleRecordingFrame.iBufferIdx sampleRecordingFrame.fence.p
              (sampleRecordingFrame.fence.value + 1) (okPresent 2 0 none).signalOk] ∧
    ((presentSubmit (SK_D3D12_RenderCtx.init (bootWorld 0) (some 5) (some 1) (okInit 2)).2
        (okPresent 2 0 none) 300 0 sampleRecordingFrame).rbk.frames_[0]?).map
        (fun f => f.fence.value)
      = some (if (okPresent 2 0 none).signalOk then sampleRecordingFrame.fence.value + 1
              else sampleRecordingFrame.fence.value) :=
  ⟨by decide, by decide,
    (present_signals_value_plus_one
      (SK_D3D12_RenderCtx.init (bootWorld 0) (some 5) (some 1) (okInit 2)).2
      (okPresent 2 0 none) 300 0 sampleRecordingFrame (by decide) (by decide)).1,
    (present_signals_value_plus_one
      (SK_D3D12_RenderCtx.init (bootWorld 0) (some 5) (some 1) (okInit 2)).2
      (okPresent 2 0 none) 300 0 sampleRecordingFrame (by decide) (by decide)).2.2⟩

/-- C5 as amended: for every successful `init` followed by any run of `present`
calls (any draw data, so with or without growth of the upload buffers), for as
long as the per-frame collection is there (no `release` ran): after every call
each frame context sits at its buffer index and its tracked fence value equals
the number of `Signal` calls on its slot that went through since `init` (the
final signal of a `present`, and the signal of each drain by the UI
translator); and from one call to the next no tracked fence value decreases. -/
theorem fence_value_counts_successful_signals (w0 : World) (pSwapChain pCommandQueue :
    Option Handle) (ie : InitEnv) (envs : List PresentEnv)
    (hinit : (SK_D3D12_RenderCtx.init w0 pSwapChain pCommandQueue ie).1 = true)
    (hlive : ∀ k, k ≤ envs.length →
      (presentRun (SK_D3D12_RenderCtx.init w0 pSwapChain pCommandQueue ie).2 pSwapChain
        (envs.take k)).rbk.frames_ ≠ []) :
    (∀ k, k ≤ envs.length →
      (SK_D3D12_RenderCtx.init w0 pSwapChain pCommandQueue ie).2.trace <+:
        (presentRun (SK_D3D12_RenderCtx.init w0 pSwapChain pCommandQueue ie).2 pSwapChain
          (envs.take k)).trace ∧
      ∀ (i : Nat) (fr : FrameCtx),
        (presentRun (SK_D3D12_RenderCtx.init w0 pSwapChain pCommandQueue ie).2 pSwapChain
          (envs.take k)).rbk.frames_[i]? = some fr →
        fr.iBufferIdx = i ∧
        fr.fence.value = countSignals i
          ((presentRun (SK_D3D12_RenderCtx.init w0 pSwapChain pCommandQueue ie).2 pSwapChain
            (envs.take k)).trace.drop
            (SK_D3D12_RenderCtx.init w0 pSwapChain pCommandQueue ie).2.trace.length)) ∧
    (∀ k, k < envs.length → ∀ (i : Nat) (f f' : FrameCtx),
      (presentRun (SK_D3D12_RenderCtx.init w0 pSwapChain pCommandQueue ie).2 pSwapChain
        (envs.take k)).rbk.frames_[i]? = some f →
      (presentRun (SK_D3D12_RenderCtx.init w0 pSwapChain pCommandQueue ie).2 pSwapChain
        (envs.take (k + 1))).rbk.frames_[i]? = some f' →
      f.fence.value ≤ f'.fence.value) := by
  have hrun := presentRun_tracked pSwapChain
    (SK_D3D12_RenderCtx.init w0 pSwapChain pCommandQueue ie).2.trace.length
    (SK_D3D12_RenderCtx.init w0 pSwapChain pCommandQueue ie).2.trace envs
    (SK_D3D12_RenderCtx.init w0 pSwapChain pCommandQueue ie).2
    (tracked_after_init w0 pSwapChain pCommandQueue ie hinit) (List.prefix_refl _) hlive
  refine ⟨fun k hk => ?_, hrun.2⟩
  obtain ⟨ht, hp⟩ := hrun.1 k hk
  exact ⟨hp, ht.2.2⟩

/-- C5 as amended, at a concrete input: two buffers, a first `present` at index
0 that draws the UI (and so drains once to create the upload buffers), a second
at index 1 without UI. -/
theorem fence_value_counts_successful_signals_witness :
    (SK_D3D12_RenderCtx.init (bootWorld 0) (some 5) (some 1) (okInit 2)).1 = true ∧
    (∀ k, k ≤ [okPresent 2 0 (some sampleDrawData), okPresent 2 1 none].length →
      (presentRun (SK_D3D12_RenderCtx.init (bootWorld 0) (some 5) (some 1) (okInit 2)).2 (some 5)
        ([okPresent 2 0 (some sampleDrawData), okPresent 2 1 none].take k)).rbk.frames_ ≠ []) ∧
    (∀ (i : Nat) (fr : FrameCtx),
      (presentRun (SK_D3D12_RenderCtx.init (bootWorld 0) (some 5) (some 1) (okInit 2)).2 (some 5)
        ([okPresent 2 0 (some sampleDrawData), okPresent 2 1 none].take 2)).rbk.frames_[i]?
        = some fr →
      fr.iBufferIdx = i ∧
      fr.fence.value = countSignals i
        ((presentRun (SK_D3D12_RenderCtx.init (bootWorld 0) (some 5) (some 1) (okInit 2)).2
          (some 5) ([okPresent 2 0 (some sampleDrawData), okPresent 2 1 none].take 2)).trace.drop
          (SK_D3D12_RenderCtx.init (bootWorld 0) (some 5) (some 1) (okInit 2)).2.trace.length)) ∧
    (presentRun (SK_D3D12_RenderCtx.init (bootWorld 0) (some 5) (some 1) (okInit 2)).2 (some 5)
      [okPresent 2 0 (some sampleDrawData), okPresent 2 1 none]).rbk.frames_.map
      (fun f => f.fence.value) = [2, 1] :=
  ⟨by decide, by decide,
    ((fence_value_counts_successful_signals (bootWorld 0) (some 5) (some 1) (okInit 2)
      [okPresent 2 0 (some sampleDrawData), okPresent 2 1 none] (by decide) (by decide)).1 2
      (by decide)).2,
    by decide⟩

/-- C5 as stated fails: the tracked fence value counts signals, not submitted
frames.  After `init` on two buffers, one `present` at index 0 that draws the UI
leaves slot 0 at fence value 2 after a single presented frame (the drain before
the upload buffers are created signals once more); and one `present` whose
`Close` fails submits nothing at all, yet leaves slot 0 at fence value 1.
Neither run reaches `release`. -/
theorem fence_value_is_not_submitted_frame_count :
    [okPresent 2 0 (some sampleDrawData)].length = 1 ∧
    (presentRun (SK_D3D12_RenderCtx.init (bootWorld 0) (some 5) (some 1) (okInit 2)).2 (some 5)
      [okPresent 2 0 (some sampleDrawData)]).rbk.frames_.map (fun f => f.fence.value)
      = [2, 0] ∧
    Event.Release ∉
      (presentRun (SK_D3D12_RenderCtx.init (bootWorld 0) (some 5) (some 1) (okInit 2)).2 (some 5)
        [okPresent 2 0 (some sampleDrawData)]).trace ∧
    (presentRun (SK_D3D12_RenderCtx.init (bootWorld 0) (some 5) (some 1) (okInit 2)).2 (some 5)
      [closeFailPresent]).rbk.frames_.map (fun f => f.fence.value) = [1, 0] ∧
    countSubmits 0
      (presentRun (SK_D3D12_RenderCtx.init (bootWorld 0) (some 5) (some 1) (okInit 2)).2 (some 5)
        [closeFailPresent]).trace = 0 ∧
    Event.Release ∉
      (presentRun (SK_D3D12_RenderCtx.init (bootWorld 0) (some 5) (some 1) (okInit 2)).2 (some 5)
        [closeFailPresent]).trace := by
  decide

/-- C6, evaluated at the failing input: an initialised manager of three frame
contexts, the swapchain reporting backbuffer index 3.  The guard
`swapIdx > frames_.size ()` lets the index through, `present` goes on to select
`frames_ [3]`, one past the end, and so does the HDR blitter; only from index 4
on is `present` the no-op the claim describes. -/
theorem present_selects_frame_at_index_equal_to_size :
    (SK_D3D12_RenderCtx.present (bootWorld 0) (some 5) (okPresent 3 0 none)).rbk.frames_.length
      = 3 ∧
    Uninitialized (SK_D3D12_RenderCtx.present (bootWorld 0) (some 5) (okPresent 3 0 none))
      = false ∧
    presentRejects (SK_D3D12_RenderCtx.present (bootWorld 0) (some 5) (okPresent 3 0 none)) 28 3
      = false ∧
    (SK_D3D12_RenderCtx.present
        (SK_D3D12_RenderCtx.present (bootWorld 0) (some 5) (okPresent 3 0 none))
        (some 5) (okPresent 3 3 none)).trace
      = (SK_D3D12_RenderCtx.present (bootWorld 0) (some 5) (okPresent 3 0 none)).trace
          ++ [Event.SelectFrame 3] ∧
    (SK_D3D12_RenderCtx.present
        (SK_D3D12_RenderCtx.present (bootWorld 0) (some 5) (okPresent 3 0 none))
        (some 5) (okPresent 3 3 none)).ub = true ∧
    (SK_D3D12_HDR_CopyBuffer
        (SK_D3D12_RenderCtx.present (bootWorld 0) (some 5) (okPresent 3 0 none))
        { hook := { getDeviceOk := true, framesDrawn := 1 }, swapChainDeviceOk := true,
          currentIdx := 3, Format := 28 } 300 (some 400)).trace
      = (SK_D3D12_RenderCtx.present (bootWorld 0) (some 5) (okPresent 3 0 none)).trace
          ++ [Event.SelectFrame 3] ∧
    (SK_D3D12_HDR_CopyBuffer
        (SK_D3D12_RenderCtx.present (bootWorld 0) (some 5) (okPresent 3 0 none))
        { hook := { getDeviceOk := true, framesDrawn := 1 }, swapChainDeviceOk := true,
          currentIdx := 3, Format := 28 } 300 (some 400)).ub = true ∧
    SK_D3D12_RenderCtx.present
        (SK_D3D12_RenderCtx.present (bootWorld 0) (some 5) (okPresent 3 0 none))
        (some 5) (okPresent 3 4 none)
      = SK_D3D12_RenderCtx.present (bootWorld 0) (some 5) (okPresent 3 0 none) := by
  decide

/-- C7 as amended: for every initialised manager whose UI translator is
configured with a render-target format other than `DXGI_FORMAT_UNKNOWN`, and
every swapchain format that differs from it, `present` is a no-op: the world
comes back as it was, so no frame context is selected, nothing is recorded or
submitted, and every tracked fence value is unchanged. -/
theorem present_format_mismatch_is_noop (w : World) (pSwapChain : Option Handle)
    (e : PresentEnv)
    (hinit : Uninitialized w = false)
    (hfmt : w.imgui.RTVFormat ≠ e.init.Format)
    (hknown : w.imgui.RTVFormat ≠ DXGI_FORMAT_UNKNOWN) :
    SK_D3D12_RenderCtx.present w pSwapChain e = w := by
  simp only [Uninitialized] at hinit
  simp only [SK_D3D12_RenderCtx.present, hinit, presentRejects]
  simp [hfmt, hknown]

/-- C7 as amended, at a concrete input: a manager initialised for format 28
meets a swapchain that reports `DXGI_FORMAT_R16G16B16A16_FLOAT`. -/
theorem present_format_mismatch_is_noop_witness :
    Uninitialized (SK_D3D12_RenderCtx.present (bootWorld 0) (some 5) (okPresent 2 0 none))
      = false ∧
    (SK_D3D12_RenderCtx.present (bootWorld 0) (some 5) (okPresent 2 0 none)).imgui.RTVFormat
      ≠ okPresentFloat16.init.Format ∧
    (SK_D3D12_RenderCtx.present (bootWorld 0) (some 5) (okPresent 2 0 none)).imgui.RTVFormat
      ≠ DXGI_FORMAT_UNKNOWN ∧
    SK_D3D12_RenderCtx.present
        (SK_D3D12_RenderCtx.present (bootWorld 0) (some 5) (okPresent 2 0 none))
        (some 5) okPresentFloat16
      = SK_D3D12_RenderCtx.present (bootWorld 0) (some 5) (okPresent 2 0 none) :=
  ⟨by decide, by decide, by decide,
    present_format_mismatch_is_noop
      (SK_D3D12_RenderCtx.present (bootWorld 0) (some 5) (okPresent 2 0 none))
      (some 5) okPresentFloat16 (by decide) (by decide) (by decide)⟩

/-- C7 as stated fails in two ways.  First, a translator format of
`DXGI_FORMAT_UNKNOWN` is exempt from the guard: after an `init` that stopped at
the fence of buffer 1 the translator was never configured, the swapchain format
28 differs from it, and `present` still selects slot 0, submits its list and
moves its fence value from 0 to 1.  Second, on a released manager the format
the translator was last configured with (28) differs from the swapchain's
(`R16G16B16A16_FLOAT`), and `present` re-initialises and draws. -/
theorem present_format_mismatch_counterexample :
    (SK_D3D12_RenderCtx.present (bootWorld 0) (some 5) fenceFailPresent).imgui.RTVFormat
      = DXGI_FORMAT_UNKNOWN ∧
    (SK_D3D12_RenderCtx.present (bootWorld 0) (some 5) fenceFailPresent).imgui.RTVFormat
      ≠ (okPresent 2 0 none).init.Format ∧
    (SK_D3D12_RenderCtx.present (bootWorld 0) (some 5) fenceFailPresent).rbk.frames_.map
        (fun f => f.fence.value) = [0, 0] ∧
    (SK_D3D12_RenderCtx.present
        (SK_D3D12_RenderCtx.present (bootWorld 0) (some 5) fenceFailPresent)
        (some 5) (okPresent 2 0 none)).rbk.frames_.map (fun f => f.fence.value) = [1, 0] ∧
    Event.ExecuteCommandLists 0 (some 300) ∈
      (SK_D3D12_RenderCtx.present
        (SK_D3D12_RenderCtx.present (bootWorld 0) (some 5) fenceFailPresent)
        (some 5) (okPresent 2 0 none)).trace ∧
    (SK_D3D12_RenderCtx.release
        (SK_D3D12_RenderCtx.present (bootWorld 0) (some 5) (okPresent 2 0 none))
        (some 5) (okRelease 0)).imgui.RTVFormat = 28 ∧
    countSubmits 0
      (SK_D3D12_RenderCtx.release
        (SK_D3D12_RenderCtx.present (bootWorld 0) (some 5) (okPresent 2 0 none))
        (some 5) (okRelease 0)).trace = 1 ∧
    countSubmits 0
      (SK_D3D12_RenderCtx.present
        (SK_D3D12_RenderCtx.release
          (SK_D3D12_RenderCtx.present (bootWorld 0) (some 5) (okPresent 2 0 none))
          (some 5) (okRelease 0))
        (some 5) okPresentFloat16).trace = 2 := by
  decide

/-- C8 as amended: (1) when `init` returns false, the `present` that called it
returns at once, with the world `init` left; (2) `init` itself adds only
object creations to the trace, no recording, submission or fence traffic
(when `frames_` has no surplus frame context for `resize` to destroy); (3) when
`init` returns false because of the cooldown, or because no swapchain is stored
and the device cannot be resolved (a device without swapchain, no queue, or
`GetDevice` failing), device, frame contexts and trace are as before, so an
uninitialised manager stays uninitialised and the next `present` calls `init`
again; (4) `init` returns true only when the device is resolved and the four
descriptor heaps, the HDR root signature and pipeline, and the fence,
allocator, command list, render target and copy buffer of each of the
`BufferCount` frame contexts were created; (5) the result of `init` and the
manager it leaves do not depend on whether the device objects of the UI
translator could be created.  What a failed object creation leaves behind is
not part of the statement. -/
theorem init_failure_and_success (w : World) (pSwapChain pCommandQueue : Option Handle)
    (e : PresentEnv) :
    (Uninitialized w = true →
      (SK_D3D12_RenderCtx.init w pSwapChain w.rbk._pCommandQueue e.init).1 = false →
      SK_D3D12_RenderCtx.present w pSwapChain e
        = (SK_D3D12_RenderCtx.init w pSwapChain w.rbk._pCommandQueue e.init).2) ∧
    (w.rbk.frames_.length ≤ e.init.BufferCount →
      ∃ d, (SK_D3D12_RenderCtx.init w pSwapChain pCommandQueue e.init).2.trace = w.trace ++ d ∧
           quiet d = true) ∧
    ((0 < w.rbk.frame_delay ∨
        (w.rbk._pSwapChain = none ∧
          (w.rbk._pDevice.isSome = true ∨ capturedQueue w pCommandQueue = none ∨
            e.init.queueDevice = none))) →
      (SK_D3D12_RenderCtx.init w pSwapChain pCommandQueue e.init).1 = false ∧
      (SK_D3D12_RenderCtx.init w pSwapChain pCommandQueue e.init).2.rbk._pDevice
        = w.rbk._pDevice ∧
      (SK_D3D12_RenderCtx.init w pSwapChain pCommandQueue e.init).2.rbk.frames_
        = w.rbk.frames_ ∧
      (SK_D3D12_RenderCtx.init w pSwapChain pCommandQueue e.init).2.trace = w.trace ∧
      Uninitialized (SK_D3D12_RenderCtx.init w pSwapChain pCommandQueue e.init).2
        = Uninitialized w) ∧
    ((SK_D3D12_RenderCtx.init w pSwapChain pCommandQueue e.init).1 = true →
      (SK_D3D12_RenderCtx.init w pSwapChain pCommandQueue e.init).2.rbk._pDevice.isSome
        = true ∧
      (SK_D3D12_RenderCtx.init w pSwapChain pCommandQueue
        e.init).2.rbk.descriptorHeaps.pImGui.isSome = true ∧
      (SK_D3D12_RenderCtx.init w pSwapChain pCommandQueue
        e.init).2.rbk.descriptorHeaps.pHDR.isSome = true ∧
      (SK_D3D12_RenderCtx.init w pSwapChain pCommandQueue
        e.init).2.rbk.descriptorHeaps.pHDR_CopyAssist.isSome = true ∧
      (SK_D3D12_RenderCtx.init w pSwapChain pCommandQueue
        e.init).2.rbk.descriptorHeaps.pBackBuffers.isSome = true ∧
      (SK_D3D12_RenderCtx.init w pSwapChain pCommandQueue e.init).2.rbk.pHDRSignature.isSome
        = true ∧
      (SK_D3D12_RenderCtx.init w pSwapChain pCommandQueue e.init).2.rbk.pHDRPipeline.isSome
        = true ∧
      (SK_D3D12_RenderCtx.init w pSwapChain pCommandQueue e.init).2.rbk.frames_.length
        = e.init.BufferCount ∧
      ∀ (k : Nat) (fr : FrameCtx),
        (SK_D3D12_RenderCtx.init w pSwapChain pCommandQueue e.init).2.rbk.frames_[k]? = some fr →
        fr.Complete k) ∧
    (∀ (s : Bool) (r p f : Option Handle),
      (SK_D3D12_RenderCtx.init w pSwapChain pCommandQueue (e.init.withUi s r p f)).1
        = (SK_D3D12_RenderCtx.init w pSwapChain pCommandQueue e.init).1 ∧
      (SK_D3D12_RenderCtx.init w pSwapChain pCommandQueue (e.init.withUi s r p f)).2.rbk
        = (SK_D3D12_RenderCtx.init w pSwapChain pCommandQueue e.init).2.rbk) := by
  refine ⟨?_, init_trace_quiet w pSwapChain pCommandQueue e.init, ?_,
    init_ok w pSwapChain pCommandQueue e.init,
    init_withUi w pSwapChain pCommandQueue e.init⟩
  · intro hu hf
    simp only [Uninitialized] at hu
    simp only [SK_D3D12_RenderCtx.present, hu, if_true, hf]
    simp
  · intro h
    by_cases hc : 0 < w.rbk.frame_delay
    · have hcd : cooldown w.rbk.frame_delay = (true, w.rbk.frame_delay - 1) := by
        simp [cooldown, hc]
      simp [SK_D3D12_RenderCtx.init, enterInit, hcd, Uninitialized]
    · have hcd : cooldown w.rbk.frame_delay = (false, 0) := by
        simp [cooldown, hc]
      rcases h with h | ⟨hs, hd⟩
      · exact absurd h hc
      · have hres : resolveDevice (enterInit w pCommandQueue) pSwapChain e.init
            = enterInit w pCommandQueue := by
          unfold resolveDevice
          rw [if_neg]
          simp only [enterInit, Bool.and_eq_true, not_and]
          rcases hd with hd | hd | hd
          · intro hn; rw [Option.isNone_iff_eq_none] at hn; simp [hn] at hd
          · intro _; simp [hd]
          · intro _; simp [hd]
        simp only [SK_D3D12_RenderCtx.init, hcd, Bool.false_eq_true, if_false, initAfterCooldown,
          hres]
        simp [enterInit, hs, Uninitialized]

/-- C8 as amended, at concrete inputs: a cooldown of 2 makes `init` fail and the
manager stays as it was; with no cooldown and every call succeeding `init`
returns true on a swapchain of two buffers. -/
theorem init_failure_and_success_witness :
    (0 < (bootWorld 2).rbk.frame_delay ∨
        ((bootWorld 2).rbk._pSwapChain = none ∧
          ((bootWorld 2).rbk._pDevice.isSome = true ∨
            capturedQueue (bootWorld 2) (some 1) = none ∨
            (okPresent 2 0 none).init.queueDevice = none))) ∧
    (SK_D3D12_RenderCtx.init (bootWorld 2) (some 5) (some 1) (okPresent 2 0 none).init).1
      = false ∧
    Uninitialized
        (SK_D3D12_RenderCtx.init (bootWorld 2) (some 5) (some 1) (okPresent 2 0 none).init).2
      = Uninitialized (bootWorld 2) ∧
    (SK_D3D12_RenderCtx.init (bootWorld 0) (some 5) (some 1) (okPresent 2 0 none).init).1
      = true ∧
    (SK_D3D12_RenderCtx.init (bootWorld 0) (some 5) (some 1)
        (okPresent 2 0 none).init).2.rbk.frames_.length
      = (okPresent 2 0 none).init.BufferCount :=
  ⟨Or.inl (by decide),
    ((init_failure_and_success (bootWorld 2) (some 5) (some 1) (okPresent 2 0 none)).2.2.1
      (Or.inl (by decide))).1,
    ((init_failure_and_success (bootWorld 2) (some 5) (some 1) (okPresent 2 0 none)).2.2.1
      (Or.inl (by decide))).2.2.2.2,
    by decide,
    ((init_failure_and_success (bootWorld 0) (some 5) (some 1) (okPresent 2 0 none)).2.2.2.1
      (by decide)).2.2.2.2.2.2.2.1⟩

/-- C8 as stated fails in two ways.  First, `init` stopping at the fence of
buffer 1 returns false but leaves the device and both frame contexts in place:
the manager is not uninitialised, the next `present` does not call `init` again
(the fence of slot 1 stays null under inputs that would create it) and records
and submits on slot 0.  Second, with the pipeline state of the UI translator
failing to be created, `init` still returns true. -/
theorem init_failure_counterexample :
    (SK_D3D12_RenderCtx.init (bootWorld 0) (some 5) (some 1) fenceFailInit).1 = false ∧
    Uninitialized (SK_D3D12_RenderCtx.init (bootWorld 0) (some 5) (some 1) fenceFailInit).2
      = false ∧
    (SK_D3D12_RenderCtx.present
        (SK_D3D12_RenderCtx.init (bootWorld 0) (some 5) (some 1) fenceFailInit).2
        (some 5) (okPresent 2 0 none)).rbk.frames_.map (fun f => f.fence.p)
      = [some 100, none] ∧
    Event.ExecuteCommandLists 0 (some 300) ∈
      (SK_D3D12_RenderCtx.present
        (SK_D3D12_RenderCtx.init (bootWorld 0) (some 5) (some 1) fenceFailInit).2
        (some 5) (okPresent 2 0 none)).trace ∧
    (SK_D3D12_RenderCtx.init (bootWorld 0) (some 5) (some 1) uiFailInit).1 = true ∧
    (SK_D3D12_RenderCtx.init (bootWorld 0) (some 5) (some 1) uiFailInit).2.imgui.pPipelineState
      = none := by
  decide

/-- C9: for every value `n` of the frame-delay counter at entry to `init`: if
`n > 0`, `init` returns false and changes nothing but the captured queue and
the counter (no device is resolved, no object is created); if `n <= 0` the call
is `initAfterCooldown` on the counter reset to 0, so the cooldown does not
block it; in both cases the counter afterwards is `max (n - 1) 0`.  Hence a run
of `k <= n` calls is rejected call by call, leaving the counter at `n - k` and
device, frame contexts and trace untouched; after exactly `n` calls the cooldown
lets the next one through; and from `n >= 0` the counter is never negative
between calls. -/
theorem init_cooldown_counter (w : World) (pSwapChain pCommandQueue : Option Handle)
    (e : InitEnv) :
    (0 < w.rbk.frame_delay →
      SK_D3D12_RenderCtx.init w pSwapChain pCommandQueue e
        = (false, { w with rbk := { w.rbk with
                      _pCommandQueue := capturedQueue w pCommandQueue,
                      frame_delay := w.rbk.frame_delay - 1 } })) ∧
    (w.rbk.frame_delay ≤ 0 →
      SK_D3D12_RenderCtx.init w pSwapChain pCommandQueue e
        = initAfterCooldown
            { w with rbk := { w.rbk with
                _pCommandQueue := capturedQueue w pCommandQueue, frame_delay := 0 } }
            pSwapChain e) ∧
    (SK_D3D12_RenderCtx.init w pSwapChain pCommandQueue e).2.rbk.frame_delay
      = max (w.rbk.frame_delay - 1) 0 ∧
    (∀ envs : List InitEnv, (envs.length : Int) ≤ w.rbk.frame_delay →
      initResults w pSwapChain pCommandQueue envs = List.replicate envs.length false ∧
      (initRun w pSwapChain pCommandQueue envs).rbk.frame_delay
        = w.rbk.frame_delay - envs.length ∧
      (initRun w pSwapChain pCommandQueue envs).rbk._pDevice = w.rbk._pDevice ∧
      (initRun w pSwapChain pCommandQueue envs).rbk.frames_ = w.rbk.frames_ ∧
      (initRun w pSwapChain pCommandQueue envs).trace = w.trace) ∧
    (∀ envs : List InitEnv, (envs.length : Int) = w.rbk.frame_delay →
      (cooldown (initRun w pSwapChain pCommandQueue envs).rbk.frame_delay).1 = false) ∧
    (∀ envs : List InitEnv, 0 ≤ w.rbk.frame_delay →
      0 ≤ (initRun w pSwapChain pCommandQueue envs).rbk.frame_delay) := by
  have hblocked : ∀ w : World, 0 < w.rbk.frame_delay →
      SK_D3D12_RenderCtx.init w pSwapChain pCommandQueue e
        = (false, { w with rbk := { w.rbk with
                      _pCommandQueue := capturedQueue w pCommandQueue,
                      frame_delay := w.rbk.frame_delay - 1 } }) := by
    intro w h
    simp [SK_D3D12_RenderCtx.init, enterInit, cooldown, h]
  have hrun : ∀ (envs : List InitEnv) (w : World), (envs.length : Int) ≤ w.rbk.frame_delay →
      initResults w pSwapChain pCommandQueue envs = List.replicate envs.length false ∧
      (initRun w pSwapChain pCommandQueue envs).rbk.frame_delay
        = w.rbk.frame_delay - envs.length ∧
      (initRun w pSwapChain pCommandQueue envs).rbk._pDevice = w.rbk._pDevice ∧
      (initRun w pSwapChain pCommandQueue envs).rbk.frames_ = w.rbk.frames_ ∧
      (initRun w pSwapChain pCommandQueue envs).trace = w.trace := by
    intro envs
    induction envs with
    | nil => intro w _; simp [initResults, initRun]
    | cons e1 es ih =>
      intro w hw
      have hpos : 0 < w.rbk.frame_delay := by
        simp only [List.length_cons, Nat.cast_add, Nat.cast_one] at hw; omega
      have hstep : SK_D3D12_RenderCtx.init w pSwapChain pCommandQueue e1
          = (false, { w with rbk := { w.rbk with
                        _pCommandQueue := capturedQueue w pCommandQueue,
                        frame_delay := w.rbk.frame_delay - 1 } }) := by
        simp [SK_D3D12_RenderCtx.init, enterInit, cooldown, hpos]
      have hw2 : (es.length : Int) ≤ w.rbk.frame_delay - 1 := by
        simp only [List.length_cons, Nat.cast_add, Nat.cast_one] at hw; omega
      have := ih { w with rbk := { w.rbk with
                        _pCommandQueue := capturedQueue w pCommandQueue,
                        frame_delay := w.rbk.frame_delay - 1 } } hw2
      simp only [initResults, initRun, hstep, List.length_cons, List.replicate_succ]
      refine ⟨by rw [this.1], ?_, this.2.2.1, this.2.2.2.1, this.2.2.2.2⟩
      rw [this.2.1]; simp only [Nat.cast_add, Nat.cast_one]; omega
  have hnn : ∀ (envs : List InitEnv) (w : World), 0 ≤ w.rbk.frame_delay →
      0 ≤ (initRun w pSwapChain pCommandQueue envs).rbk.frame_delay := by
    intro envs
    induction envs with
    | nil => intro w hw; simpa [initRun] using hw
    | cons e1 es ih =>
      intro w _
      simp only [initRun]
      apply ih
      rw [init_frame_delay]
      exact le_max_right _ _
  refine ⟨hblocked w, ?_, init_frame_delay w pSwapChain pCommandQueue e,
    fun envs => hrun envs w, ?_, fun envs => hnn envs w⟩
  · intro h
    have : ¬ (0 < w.rbk.frame_delay) := by omega
    simp [SK_D3D12_RenderCtx.init, enterInit, cooldown, this]
  · intro envs h
    have := (hrun envs w (le_of_eq h)).2.1
    rw [this, h]
    simp [cooldown]

/-- C9, at a concrete input: a counter of 2 turns away the first two calls of
`init` and lets the third one through. -/
theorem init_cooldown_counter_witness :
    0 < (bootWorld 2).rbk.frame_delay ∧
    SK_D3D12_RenderCtx.init (bootWorld 2) (some 5) (some 1) (okInit 2)
      = (false, { bootWorld 2 with rbk := { (bootWorld 2).rbk with
                    _pCommandQueue := capturedQueue (bootWorld 2) (some 1),
                    frame_delay := (bootWorld 2).rbk.frame_delay - 1 } }) ∧
    (([okInit 2, okInit 2].length : Int) = (bootWorld 2).rbk.frame_delay) ∧
    (cooldown (initRun (bootWorld 2) (some 5) (some 1)
        [okInit 2, okInit 2]).rbk.frame_delay).1 = false ∧
    (SK_D3D12_RenderCtx.init
        (initRun (bootWorld 2) (some 5) (some 1) [okInit 2, okInit 2])
        (some 5) (some 1) (okInit 2)).1 = true :=
  ⟨by decide,
    (init_cooldown_counter (bootWorld 2) (some 5) (some 1) (okInit 2)).1 (by decide),
    by decide,
    (init_cooldown_counter (bootWorld 2) (some 5) (some 1) (okInit 2)).2.2.2.2.1
      [okInit 2, okInit 2] (by decide),
    by decide⟩

/-- C10: for every state and every swapchain argument, `release` called twice in
a row leaves the same state as `release` called once: device, swapchain,
per-frame collection, descriptor heaps, pipeline objects, the UI translator
context and everything else but the trace of calls made are equal. -/
theorem release_twice_same_state (w : World) (pSwapChain : Option Handle)
    (e1 e2 : ReleaseEnv) :
    { SK_D3D12_RenderCtx.release (SK_D3D12_RenderCtx.release w pSwapChain e1) pSwapChain e2
        with trace := [] }
      = { SK_D3D12_RenderCtx.release w pSwapChain e1 with trace := [] } := by
  unfold SK_D3D12_RenderCtx.release
  by_cases h : ((w.rbk._pSwapChain.isSome && pSwapChain.isNone)
      || IsEqualObject w.rbk._pSwapChain pSwapChain) = true
  · rw [if_pos h]
    cases pSwapChain with
    | none =>
      simp [IsEqualObject, ImGui_ImplDX12_Shutdown, ImGui_ImplDX12_InvalidateDeviceObjects,
        SK_ValidatePointer, destroyFrames]
    | some s =>
      simp [IsEqualObject, ImGui_ImplDX12_Shutdown, ImGui_ImplDX12_InvalidateDeviceObjects,
        SK_ValidatePointer, destroyFrames]
  · rw [if_neg h, if_neg h]

/-- C11, as the code has it: a recording frame context whose buffer index is the
swapchain's current one is closed and submitted by its destructor when `release`
runs (slot 0 of a two-buffer manager, index 0 current, list 300), while a
recording context of another index is neither closed nor submitted. -/
theorem release_submits_current_recording_list :
    Event.ExecuteCommandLists 0 (some 300)
        ∈ (SK_D3D12_RenderCtx.release (recordingWorld 0) (some 5) (okRelease 0)).trace ∧
    countSubmits 0 (recordingWorld 0).trace = 0 ∧
    countSubmits 0
        (SK_D3D12_RenderCtx.release (recordingWorld 0) (some 5) (okRelease 0)).trace = 1 ∧
    countSubmits 1
        (SK_D3D12_RenderCtx.release (recordingWorld 1) (some 5) (okRelease 0)).trace = 0 ∧
    Event.Close 1 true
        ∉ (SK_D3D12_RenderCtx.release (recordingWorld 1) (some 5) (okRelease 0)).trace := by
  decide

/-- C11, amended: when `release` runs with the stored swapchain (or with a null
argument while one is stored), the per-frame collection is empty afterwards and
every destructor leaves its context non-recording; the trace gains a queue
submission of list `l` for slot `i` exactly when some frame context of the
collection was recording on `l`, had its back-reference, the stored swapchain
was valid and at that context's buffer index `i`, and `Close` succeeded.  A
recording context of any other buffer index is set non-recording without being
submitted. -/
theorem release_flushes_only_current_recording_context (w : World)
    (pSwapChain : Option Handle) (e : ReleaseEnv)
    (hmatch : ((w.rbk._pSwapChain.isSome && pSwapChain.isNone)
        || IsEqualObject w.rbk._pSwapChain pSwapChain) = true) :
    (SK_D3D12_RenderCtx.release w pSwapChain e).rbk.frames_ = [] ∧
    (∀ (fr : FrameCtx) (v : Bool) (d : DtorEnv), (fr.destroy v d).1.bCmdListRecording = false) ∧
    (∀ (i : Nat) (l : Option Handle),
      Event.ExecuteCommandLists i l ∈ (SK_D3D12_RenderCtx.release w pSwapChain e).trace ↔
        (Event.ExecuteCommandLists i l ∈ w.trace ∨
         ∃ (k : Nat) (fr : FrameCtx), w.rbk.frames_[k]? = some fr ∧
           fr.bCmdListRecording = true ∧ fr.pRoot = true ∧
           SK_ValidatePointer w.rbk._pSwapChain e.swapChainValid = true ∧
           (e.dtor k).currentIdx = fr.iBufferIdx ∧ (e.dtor k).closeOk = true ∧
           i = fr.iBufferIdx ∧ l = fr.pCmdList)) := by
  have hrbk : (ImGui_ImplDX12_Shutdown w).rbk = w.rbk := by
    unfold ImGui_ImplDX12_Shutdown ImGui_ImplDX12_InvalidateDeviceObjects
    split <;> rfl
  have htr : (ImGui_ImplDX12_Shutdown w).trace = w.trace := by
    unfold ImGui_ImplDX12_Shutdown ImGui_ImplDX12_InvalidateDeviceObjects
    split <;> rfl
  refine ⟨?_, fun fr v d => rfl, ?_⟩
  · unfold SK_D3D12_RenderCtx.release
    rw [if_pos hmatch]
  · intro i l
    unfold SK_D3D12_RenderCtx.release
    rw [if_pos hmatch]
    simp only [hrbk, htr, List.mem_append, List.mem_cons, reduceCtorEq, false_or]
    rw [destroyFrames_submits_iff]
    simp only [Nat.zero_add]
    have hv : (if SK_ValidatePointer w.rbk._pSwapChain e.swapChainValid = true
        then w.rbk._pSwapChain else none).isSome
          = SK_ValidatePointer w.rbk._pSwapChain e.swapChainValid := by
      unfold SK_ValidatePointer
      cases w.rbk._pSwapChain <;> cases e.swapChainValid <;> rfl
    rw [hv]

/-- C11, amended, at a concrete input: slot 0 of a two-buffer manager records
and index 0 is current. -/
theorem release_flushes_only_current_recording_context_witness :
    (((recordingWorld 0).rbk._pSwapChain.isSome && (some 5 : Option Handle).isNone)
        || IsEqualObject (recordingWorld 0).rbk._pSwapChain (some 5)) = true ∧
    (SK_D3D12_RenderCtx.release (recordingWorld 0) (some 5) (okRelease 0)).rbk.frames_ = [] :=
  ⟨by decide,
    (release_flushes_only_current_recording_context (recordingWorld 0) (some 5) (okRelease 0)
      (by decide)).1⟩

/-- C12, as the code has it: `release` never touches the HDR copy-assist
descriptor heap, so after a release that matches the stored swapchain the
manager still holds that heap, while the per-frame collection is empty and the
HDR pipeline, the HDR root signature, the other three descriptor heaps, the UI
translator's device reference, the device and the swapchain are null.  On a
manager initialised for two buffers the copy-assist heap (object 12) survives. -/
theorem release_keeps_copy_assist_heap (w : World) (pSwapChain : Option Handle)
    (e : ReleaseEnv) :
    (SK_D3D12_RenderCtx.release w pSwapChain e).rbk.descriptorHeaps.pHDR_CopyAssist
      = w.rbk.descriptorHeaps.pHDR_CopyAssist ∧
    (((w.rbk._pSwapChain.isSome && pSwapChain.isNone)
        || IsEqualObject w.rbk._pSwapChain pSwapChain) = true →
      (SK_D3D12_RenderCtx.release w pSwapChain e).rbk.frames_ = [] ∧
      (SK_D3D12_RenderCtx.release w pSwapChain e).rbk.pHDRPipeline = none ∧
      (SK_D3D12_RenderCtx.release w pSwapChain e).rbk.pHDRSignature = none ∧
      (SK_D3D12_RenderCtx.release w pSwapChain e).rbk.descriptorHeaps.pImGui = none ∧
      (SK_D3D12_RenderCtx.release w pSwapChain e).rbk.descriptorHeaps.pHDR = none ∧
      (SK_D3D12_RenderCtx.release w pSwapChain e).rbk.descriptorHeaps.pBackBuffers = none ∧
      (SK_D3D12_RenderCtx.release w pSwapChain e).imgui.pDevice = none ∧
      (SK_D3D12_RenderCtx.release w pSwapChain e).rbk._pDevice = none ∧
      (SK_D3D12_RenderCtx.release w pSwapChain e).rbk._pSwapChain = none) ∧
    readyWorld.rbk.descriptorHeaps
      = { pBackBuffers := some 13, pImGui := some 10, pHDR := some 11,
          pHDR_CopyAssist := some 12 } ∧
    (SK_D3D12_RenderCtx.release readyWorld (some 5) (okRelease 0)).rbk.descriptorHeaps
      = { pBackBuffers := none, pImGui := none, pHDR := none, pHDR_CopyAssist := some 12 } := by
  have hrbk : (ImGui_ImplDX12_Shutdown w).rbk = w.rbk := by
    unfold ImGui_ImplDX12_Shutdown ImGui_ImplDX12_InvalidateDeviceObjects
    split <;> rfl
  have hdev : (ImGui_ImplDX12_Shutdown w).imgui.pDevice = none := by
    unfold ImGui_ImplDX12_Shutdown
    rfl
  refine ⟨?_, ?_, by decide, by decide⟩
  · unfold SK_D3D12_RenderCtx.release
    split
    · simp only [hrbk]
    · rfl
  · intro hmatch
    unfold SK_D3D12_RenderCtx.release
    rw [if_pos hmatch]
    exact ⟨rfl, rfl, rfl, rfl, rfl, rfl, hdev, rfl, rfl⟩

/-- C13, as the code has it: with both upload buffers of slot 0 present and large
enough for the draw data (3 vertices and 3 indices against capacities 5003 and
10003), a call in which `Map` fails ends in `release`, which drains the GPU in
the frame context destructors and releases both buffers, leaving sizes 0. -/
theorem map_failure_releases_sufficient_buffers :
    heapAt firstDraw.1 firstDraw.2.1.iBufferIdx
      = { Vb := { p := some 700, size := 5003 }, Ib := { p := some 701, size := 10003 } } ∧
    sampleDrawData.TotalVtxCount = 3 ∧ sampleDrawData.TotalIdxCount = 3 ∧
    heapAt (ImGui_ImplDX12_RenderDrawData firstDraw.1 mapFailUi sampleDrawData 0
        firstDraw.2.1).1 firstDraw.2.1.iBufferIdx
      = { Vb := { p := none, size := 0 }, Ib := { p := none, size := 0 } } ∧
    Event.Signal 0 (some 100) 2 true
      ∈ (ImGui_ImplDX12_RenderDrawData firstDraw.1 mapFailUi sampleDrawData 0
          firstDraw.2.1).1.trace ∧
    Event.Wait 0
      ∈ (ImGui_ImplDX12_RenderDrawData firstDraw.1 mapFailUi sampleDrawData 0
          firstDraw.2.1).1.trace := by
  refine ⟨by decide, by decide, by decide, by decide, by decide, by decide⟩

/-- C13, amended: for every slot whose vertex and index upload buffers both exist
with `Vb.size >= TotalVtxCount` and `Ib.size >= TotalIdxCount`,
`ImGui_ImplDX12_RenderDrawData` skips the block guarded by `sync_cmd_list` (no
drain, no reallocation, state untouched there); a call that does not end in
`release` only records (the UI translator's context, with every buffer object and
size, and the manager are unchanged, and the trace grows by recorded calls and
list resets only); a call ends in `release` only when a `Map` fails; and any
sequence of calls on the slot whose counts do not exceed these creates no object
at all, and only records as long as no call ends in `release`. -/
theorem sufficient_capacity_never_reallocates (w : World) (e : UiEnv) (d : ImDrawData)
    (pos : Nat) (fr : FrameCtx)
    (hVb : (heapAt w fr.iBufferIdx).Vb.p.isSome = true)
    (hVs : d.TotalVtxCount ≤ (heapAt w fr.iBufferIdx).Vb.size)
    (hIb : (heapAt w fr.iBufferIdx).Ib.p.isSome = true)
    (hIs : d.TotalIdxCount ≤ (heapAt w fr.iBufferIdx).Ib.size) :
    uiSyncStage w e d pos fr = (true, w, fr, false) ∧
    ((ImGui_ImplDX12_RenderDrawData w e d pos fr).2.2 = false →
      RecordsOnly w (ImGui_ImplDX12_RenderDrawData w e d pos fr).1) ∧
    ((ImGui_ImplDX12_RenderDrawData w e d pos fr).2.2 = true →
      (e.mapVbOk && e.mapIbOk) = false) ∧
    (∀ calls : List (UiEnv × ImDrawData),
      (∀ c ∈ calls, c.2.TotalVtxCount ≤ d.TotalVtxCount ∧
        c.2.TotalIdxCount ≤ d.TotalIdxCount) →
      TraceGrows (fun ev => !ev.isCreate) w (renderSeq pos w fr calls).1 ∧
      ((renderSeq pos w fr calls).2.2 = false →
        RecordsOnly w (renderSeq pos w fr calls).1)) :=
  ⟨uiSyncStage_skipped w e d pos fr hVb hVs hIb hIs,
    (renderDrawData_sufficient w e d pos fr hVb hVs hIb hIs).1,
    (renderDrawData_sufficient w e d pos fr hVb hVs hIb hIs).2.1,
    fun calls hc => renderSeq_sufficient pos d calls w fr hVb hVs hIb hIs hc⟩

/-- C13, amended, at a concrete input: the second UI frame of slot 0, drawn with
the same three vertices and indices as the first, with every call succeeding. -/
theorem sufficient_capacity_never_reallocates_witness :
    (heapAt firstDraw.1 firstDraw.2.1.iBufferIdx).Vb.p.isSome = true ∧
    sampleDrawData.TotalVtxCount ≤ (heapAt firstDraw.1 firstDraw.2.1.iBufferIdx).Vb.size ∧
    (heapAt firstDraw.1 firstDraw.2.1.iBufferIdx).Ib.p.isSome = true ∧
    sampleDrawData.TotalIdxCount ≤ (heapAt firstDraw.1 firstDraw.2.1.iBufferIdx).Ib.size ∧
    uiSyncStage firstDraw.1 (okUi 0) sampleDrawData 0 firstDraw.2.1
      = (true, firstDraw.1, firstDraw.2.1, false) :=
  ⟨by decide, by decide, by decide, by decide,
    (sufficient_capacity_never_reallocates firstDraw.1 (okUi 0) sampleDrawData 0 firstDraw.2.1
      (by decide) (by decide) (by decide) (by decide)).1⟩

/-- C14: in a call of `ImGui_ImplDX12_RenderDrawData` that reaches the creation
block (entry guard passed, `begin_cmd_list` and the drain succeeded) and whose
creations succeed, with over-allocated counts that an `INT` holds: when the block
ends the slot's vertex buffer is the new object with `Vb.size = TotalVtxCount +
5000` if it was absent or too small, and is left as it is otherwise; likewise the
index buffer, with `TotalIdxCount + 10000`; the whole call makes exactly one
creation call for each buffer that was absent or too small and none for the
other; and when neither `Map` fails the call does not end in `release` and
returns with these buffers and sizes. -/
theorem reallocation_once_with_headroom (w : World) (e : UiEnv) (d : ImDrawData) (pos : Nat)
    (fr : FrameCtx)
    (hguard : (w.rbk._pSwapChain.isSome || w.rbk._pDevice.isSome) = true)
    (hslot : fr.iBufferIdx < w.imgui.frame_heaps.length)
    (hbegin : (uiBegin w e fr).1 = true)
    (hneed : ((heapAt w fr.iBufferIdx).Vb.lacks d.TotalVtxCount
      || (heapAt w fr.iBufferIdx).Ib.lacks d.TotalIdxCount) = true)
    (hdrain : (uiDrain w e pos fr).1 = true)
    (hV : (heapAt w fr.iBufferIdx).Vb.lacks d.TotalVtxCount = true → e.createVb.isSome = true)
    (hI : (heapAt w fr.iBufferIdx).Ib.lacks d.TotalIdxCount = true → e.createIb.isSome = true)
    (hfitV : (heapAt w fr.iBufferIdx).Vb.lacks d.TotalVtxCount = true →
      -2 ^ 31 ≤ d.TotalVtxCount + 5000 ∧ d.TotalVtxCount + 5000 < 2 ^ 31)
    (hfitI : (heapAt w fr.iBufferIdx).Ib.lacks d.TotalIdxCount = true →
      -2 ^ 31 ≤ d.TotalIdxCount + 10000 ∧ d.TotalIdxCount + 10000 < 2 ^ 31) :
    (uiSyncStage (uiBegin w e fr).2.1 e d pos (uiBegin w e fr).2.2).1 = true ∧
    heapAt (uiSyncStage (uiBegin w e fr).2.1 e d pos (uiBegin w e fr).2.2).2.1 fr.iBufferIdx
      = grownHeap (heapAt w fr.iBufferIdx) d e.createVb e.createIb ∧
    createsBetween "VertexBuffer" w (ImGui_ImplDX12_RenderDrawData w e d pos fr).1
      = (if (heapAt w fr.iBufferIdx).Vb.lacks d.TotalVtxCount then 1 else 0) ∧
    createsBetween "IndexBuffer" w (ImGui_ImplDX12_RenderDrawData w e d pos fr).1
      = (if (heapAt w fr.iBufferIdx).Ib.lacks d.TotalIdxCount then 1 else 0) ∧
    ((e.mapVbOk && e.mapIbOk) = true →
      (ImGui_ImplDX12_RenderDrawData w e d pos fr).2.2 = false ∧
      heapAt (ImGui_ImplDX12_RenderDrawData w e d pos fr).1 fr.iBufferIdx
        = grownHeap (heapAt w fr.iBufferIdx) d e.createVb e.createIb) := by
  have hg := renderDrawData_grown w e d pos fr hguard hslot hbegin hneed hdrain hV hI
  have hh := growBuffers_heap_fits (heapAt w fr.iBufferIdx) d e hV hI hfitV hfitI
  have hc := growBuffers_creates (heapAt w fr.iBufferIdx) d e hV hI
  refine ⟨hg.1, hg.2.1.trans hh, ?_, ?_, ?_⟩
  · rw [hg.2.2.2.2, hc.1]
  · rw [hg.2.2.2.2, hc.2]
  · intro hm
    have hr := (uiRecordStage_records
      (uiSyncStage (uiBegin w e fr).2.1 e d pos (uiBegin w e fr).2.2).2.1 e d pos
      (uiSyncStage (uiBegin w e fr).2.1 e d pos (uiBegin w e fr).2.2).2.2.1).1 hm
    rw [hg.2.2.2.1]
    refine ⟨hr.1, ?_⟩
    rw [← hh, ← hg.2.1]
    unfold heapAt
    rw [hr.2.1]

/-- C14, at the scenario of the specification: 10,000 vertices (and 30,000
indices) against a slot whose heap is empty, every call succeeding; the vertex
buffer is created once, with capacity 15,000. -/
theorem reallocation_once_with_headroom_witness :
    (heapAt emptyHeapWorld 0).Vb = { p := none, size := 0 } ∧
    bigDrawData.TotalVtxCount = 10000 ∧
    createsBetween "VertexBuffer" emptyHeapWorld
        (ImGui_ImplDX12_RenderDrawData emptyHeapWorld (okUi 0) bigDrawData 0
          (readyWorld.rbk.frames_.getD 0 sampleFreshFrame)).1
      = (if (heapAt emptyHeapWorld
            (readyWorld.rbk.frames_.getD 0 sampleFreshFrame).iBufferIdx).Vb.lacks
              bigDrawData.TotalVtxCount then 1 else 0) ∧
    createsBetween "VertexBuffer" emptyHeapWorld
        (ImGui_ImplDX12_RenderDrawData emptyHeapWorld (okUi 0) bigDrawData 0
          (readyWorld.rbk.frames_.getD 0 sampleFreshFrame)).1 = 1 ∧
    (heapAt (ImGui_ImplDX12_RenderDrawData emptyHeapWorld (okUi 0) bigDrawData 0
        (readyWorld.rbk.frames_.getD 0 sampleFreshFrame)).1 0).Vb
      = { p := some 700, size := 15000 } :=
  ⟨by decide, by decide,
    (reallocation_once_with_headroom emptyHeapWorld (okUi 0) bigDrawData 0
      (readyWorld.rbk.frames_.getD 0 sampleFreshFrame) (by decide) (by decide) (by decide)
      (by decide) (by decide) (by decide) (by decide) (by decide) (by decide)).2.2.1,
    by decide, by decide⟩

/-- C15, at the failing input and in general.  Slot 0 has no upload buffers, the
payload asks for 10,000 vertices and 30,000 indices, and the
`SetEventOnCompletion` of the drain fails: the drain reports success without
having waited, and the call goes on to create both buffers, so nothing has made
sure that the GPU is done with the old ones; with every call succeeding the wait
is there.  For every call that passed its entry guard and its `begin_cmd_list`,
with the swapchain at the frame context's own buffer index, in which a buffer has
to be created or grown: up to the return of the drain nothing is created or
drawn and the UI translator's context is as before; everything else the call
does comes after the drain; a drain that reports success has signalled the queue
with the fence value plus one and asked for the completion event, and has waited
exactly when `SetEventOnCompletion` succeeded; and if the drain reports failure
the function returns at once with what the drain left, so both buffers and both
sizes are unchanged and the call created nothing and recorded no draw call. -/
theorem reallocation_after_drain_without_wait :
    ((uiDrain emptyHeapWorld waitFailUi 0
        (readyWorld.rbk.frames_.getD 0 sampleFreshFrame)).1 = true ∧
      ((ImGui_ImplDX12_RenderDrawData emptyHeapWorld waitFailUi bigDrawData 0
          (readyWorld.rbk.frames_.getD 0 sampleFreshFrame)).1.trace.drop
            emptyHeapWorld.trace.length).all (fun ev => !ev.isWait) = true ∧
      Event.SetEventOnCompletion 0 1 false
        ∈ (ImGui_ImplDX12_RenderDrawData emptyHeapWorld waitFailUi bigDrawData 0
            (readyWorld.rbk.frames_.getD 0 sampleFreshFrame)).1.trace ∧
      createsBetween "VertexBuffer" emptyHeapWorld
        (ImGui_ImplDX12_RenderDrawData emptyHeapWorld waitFailUi bigDrawData 0
          (readyWorld.rbk.frames_.getD 0 sampleFreshFrame)).1 = 1 ∧
      createsBetween "IndexBuffer" emptyHeapWorld
        (ImGui_ImplDX12_RenderDrawData emptyHeapWorld waitFailUi bigDrawData 0
          (readyWorld.rbk.frames_.getD 0 sampleFreshFrame)).1 = 1 ∧
      (heapAt (ImGui_ImplDX12_RenderDrawData emptyHeapWorld waitFailUi bigDrawData 0
          (readyWorld.rbk.frames_.getD 0 sampleFreshFrame)).1 0).Vb
        = { p := some 700, size := 15000 } ∧
      Event.Wait 0
        ∈ (ImGui_ImplDX12_RenderDrawData emptyHeapWorld (okUi 0) bigDrawData 0
            (readyWorld.rbk.frames_.getD 0 sampleFreshFrame)).1.trace.drop
              emptyHeapWorld.trace.length) ∧
    (∀ (w : World) (e : UiEnv) (d : ImDrawData) (pos : Nat) (fr : FrameCtx),
      (w.rbk._pSwapChain.isSome || w.rbk._pDevice.isSome) = true →
      (uiBegin w e fr).1 = true →
      e.currentIdx = fr.iBufferIdx →
      ((heapAt w fr.iBufferIdx).Vb.lacks d.TotalVtxCount
        || (heapAt w fr.iBufferIdx).Ib.lacks d.TotalIdxCount) = true →
      TraceGrows (fun ev => !ev.isCreate && !ev.isDraw) w (uiDrain w e pos fr).2.1 ∧
      (uiDrain w e pos fr).2.1.imgui = w.imgui ∧
      TraceGrows (fun _ => true) (uiDrain w e pos fr).2.1
        (ImGui_ImplDX12_RenderDrawData w e d pos fr).1 ∧
      (∃ es, (uiDrain w e pos fr).2.1.trace = (uiBegin w e fr).2.1.trace ++ es ∧
        ((uiDrain w e pos fr).1 = true →
          Event.Signal fr.iBufferIdx fr.fence.p (fr.fence.value + 1) true ∈ es ∧
          Event.SetEventOnCompletion fr.iBufferIdx (fr.fence.value + 1) e.drainSetEventOk
            ∈ es ∧
          (Event.Wait fr.iBufferIdx ∈ es ↔ e.drainSetEventOk = true) ∧
          (e.drainSetEventOk = false → es.all (fun ev => !ev.isWait) = true))) ∧
      ((uiDrain w e pos fr).1 = false →
        ImGui_ImplDX12_RenderDrawData w e d pos fr
          = ((uiDrain w e pos fr).2.1, (uiDrain w e pos fr).2.2.1, false) ∧
        (ImGui_ImplDX12_RenderDrawData w e d pos fr).1.imgui = w.imgui ∧
        TraceGrows (fun ev => !ev.isCreate && !ev.isDraw) w
          (ImGui_ImplDX12_RenderDrawData w e d pos fr).1)) := by
  refine ⟨by decide, ?_⟩
  intro w e d pos fr hguard hbegin hidx hneed
  have hb := begin_cmd_list_records w e.hook fr none e.beginResetOk
  have hbk := begin_cmd_list_keeps w e.hook fr none e.beginResetOk 0
  have hbd := begin_cmd_list_no_draw w e.hook fr e.beginResetOk
  have hrel := uiDrain_no_release w e pos fr hidx
  unfold uiDrain at hrel ⊢
  unfold uiBegin at hbegin hrel ⊢
  have hkeep := (wait_for_gpu_keeps _ _ _ _ _ _ _ _).2 hrel
  have hplain := wait_for_gpu_plain _ _ _ _ _ _ _ _ hrel
  have hheap : heapAt (fr.begin_cmd_list w e.hook none e.beginResetOk).2.1
      (fr.begin_cmd_list w e.hook none e.beginResetOk).2.2.iBufferIdx
        = heapAt w fr.iBufferIdx := by
    unfold heapAt
    rw [hb.1, hbk.2.2.2]
  have hneed2 : sync_cmd_list (heapAt (fr.begin_cmd_list w e.hook none e.beginResetOk).2.1
      (fr.begin_cmd_list w e.hook none e.beginResetOk).2.2.iBufferIdx) d = true := by
    rw [hheap]
    exact hneed
  have hafter := uiSyncStage_after_drain (fr.begin_cmd_list w e.hook none e.beginResetOk).2.1
    e d pos (fr.begin_cmd_list w e.hook none e.beginResetOk).2.2 hneed2 hrel
  have hA : TraceGrows (fun ev => !ev.isCreate && !ev.isDraw) w
      (FrameCtx.wait_for_gpu (fr.begin_cmd_list w e.hook none e.beginResetOk).2.1 pos
        (fr.begin_cmd_list w e.hook none e.beginResetOk).2.2 e.drainCloseOk e.drainSignalOk
        e.drainSetEventOk e.currentIdx e.release).2.1 :=
    (TraceGrows.both (hb.2.2.mono recording_not_create) hbd).then_grows hplain.2
  have hrdd : ImGui_ImplDX12_RenderDrawData w e d pos fr
      = if !(uiSyncStage (fr.begin_cmd_list w e.hook none e.beginResetOk).2.1 e d pos
              (fr.begin_cmd_list w e.hook none e.beginResetOk).2.2).1
        then ((uiSyncStage (fr.begin_cmd_list w e.hook none e.beginResetOk).2.1 e d pos
                (fr.begin_cmd_list w e.hook none e.beginResetOk).2.2).2.1,
              (uiSyncStage (fr.begin_cmd_list w e.hook none e.beginResetOk).2.1 e d pos
                (fr.begin_cmd_list w e.hook none e.beginResetOk).2.2).2.2.1,
              (uiSyncStage (fr.begin_cmd_list w e.hook none e.beginResetOk).2.1 e d pos
                (fr.begin_cmd_list w e.hook none e.beginResetOk).2.2).2.2.2)
        else uiRecordStage
          (uiSyncStage (fr.begin_cmd_list w e.hook none e.beginResetOk).2.1 e d pos
            (fr.begin_cmd_list w e.hook none e.beginResetOk).2.2).2.1 e d pos
          (uiSyncStage (fr.begin_cmd_list w e.hook none e.beginResetOk).2.1 e d pos
            (fr.begin_cmd_list w e.hook none e.beginResetOk).2.2).2.2.1 := by
    unfold ImGui_ImplDX12_RenderDrawData
    simp only [hguard, hbegin, Bool.not_true, Bool.false_eq_true, if_false]
  refine ⟨hA, hkeep.2.1.trans hb.1, ?_, ⟨_, hplain.1, ?_⟩, ?_⟩
  · rw [hrdd]
    split
    · exact hafter.1
    · exact hafter.1.then_grows (uiRecordStage_no_create _ _ _ _ _).any
  · intro hd
    have hcore : ((fr.begin_cmd_list w e.hook none e.beginResetOk).2.2.wait_for_gpu_core
        e.drainCloseOk e.drainSignalOk e.drainSetEventOk e.currentIdx).1 = true := by
      revert hd
      unfold FrameCtx.wait_for_gpu
      simp only []
      split
      · intro h; simp at h
      · exact id
    have hs := wait_for_gpu_core_signals _ _ _ _ _ hcore
    have hw := wait_for_gpu_core_waits _ _ _ _ _ hcore
    rw [hbk.2.2.2, hbk.2.2.1] at hs hw
    exact ⟨hs, hw.1, hw.2.1, hw.2.2⟩
  · intro hd
    have hst := hafter.2 hd
    have hr : ImGui_ImplDX12_RenderDrawData w e d pos fr
        = ((FrameCtx.wait_for_gpu (fr.begin_cmd_list w e.hook none e.beginResetOk).2.1 pos
            (fr.begin_cmd_list w e.hook none e.beginResetOk).2.2 e.drainCloseOk
            e.drainSignalOk e.drainSetEventOk e.currentIdx e.release).2.1,
          (FrameCtx.wait_for_gpu (fr.begin_cmd_list w e.hook none e.beginResetOk).2.1 pos
            (fr.begin_cmd_list w e.hook none e.beginResetOk).2.2 e.drainCloseOk
            e.drainSignalOk e.drainSetEventOk e.currentIdx e.release).2.2.1, false) := by
      rw [hrdd, hst]
      rfl
    refine ⟨hr, ?_, ?_⟩
    · rw [hr]
      exact hkeep.2.1.trans hb.1
    · rw [hr]
      exact hA

/-- C16: for every draw data whose `TotalVtxCount` and `TotalIdxCount` are the
sums of its lists' `VtxBuffer.Size` and `IdxBuffer.Size` (with over-allocated
counts that an `INT` holds) and every slot of the heap array: whenever the
block guarded by `sync_cmd_list` lets `ImGui_ImplDX12_RenderDrawData` go on to
the copy stage, both upload buffers of the slot are present with `Vb.size >=
TotalVtxCount` and `Ib.size >= TotalIdxCount`; the copy loop writes exactly
`TotalVtxCount` vertices and `TotalIdxCount` indices, so never past capacity;
and what it has written is the concatenation, in list order, of the lists'
vertex arrays (as the loop leaves them: transformed with alpha stripping,
untouched without) and of their index arrays. -/
theorem copy_stage_within_capacity (w : World) (e : UiEnv) (d : ImDrawData) (pos : Nat)
    (fr : FrameCtx) (strip_alpha : Bool)
    (hsumV : d.TotalVtxCount = (vtxTotal d.CmdLists : Int))
    (hsumI : d.TotalIdxCount = (idxTotal d.CmdLists : Int))
    (hslot : fr.iBufferIdx < w.imgui.frame_heaps.length)
    (hfitV : d.TotalVtxCount + 5000 < 2 ^ 31)
    (hfitI : d.TotalIdxCount + 10000 < 2 ^ 31)
    (hcont : (uiSyncStage w e d pos fr).1 = true) :
    (heapAt (uiSyncStage w e d pos fr).2.1 fr.iBufferIdx).Vb.p.isSome = true ∧
    (heapAt (uiSyncStage w e d pos fr).2.1 fr.iBufferIdx).Ib.p.isSome = true ∧
    d.TotalVtxCount ≤ (heapAt (uiSyncStage w e d pos fr).2.1 fr.iBufferIdx).Vb.size ∧
    d.TotalIdxCount ≤ (heapAt (uiSyncStage w e d pos fr).2.1 fr.iBufferIdx).Ib.size ∧
    ((copyLists strip_alpha [] [] d.CmdLists).2.1.length : Int) = d.TotalVtxCount ∧
    ((copyLists strip_alpha [] [] d.CmdLists).2.2.length : Int) = d.TotalIdxCount ∧
    ((copyLists strip_alpha [] [] d.CmdLists).2.1.length : Int)
      ≤ (heapAt (uiSyncStage w e d pos fr).2.1 fr.iBufferIdx).Vb.size ∧
    ((copyLists strip_alpha [] [] d.CmdLists).2.2.length : Int)
      ≤ (heapAt (uiSyncStage w e d pos fr).2.1 fr.iBufferIdx).Ib.size ∧
    (copyLists strip_alpha [] [] d.CmdLists).1 = d.CmdLists.map (copiedList strip_alpha) ∧
    (copyLists strip_alpha [] [] d.CmdLists).2.1
      = ((copyLists strip_alpha [] [] d.CmdLists).1.map (fun l => l.VtxBuffer)).flatten ∧
    (copyLists strip_alpha [] [] d.CmdLists).2.2
      = (d.CmdLists.map (fun l => l.IdxBuffer)).flatten ∧
    (copyLists false [] [] d.CmdLists).2.1
      = (d.CmdLists.map (fun l => l.VtxBuffer)).flatten := by
  have hV0 : (0 : Int) ≤ d.TotalVtxCount := by rw [hsumV]; exact Int.natCast_nonneg _
  have hI0 : (0 : Int) ≤ d.TotalIdxCount := by rw [hsumI]; exact Int.natCast_nonneg _
  have hcap := uiSyncStage_capacity w e d pos fr hslot ⟨by omega, hfitV⟩ ⟨by omega, hfitI⟩ hcont
  have hc := copyLists_spec strip_alpha d.CmdLists [] []
  have hl := copiedList_lengths strip_alpha d.CmdLists
  have hc0 := copyLists_spec false d.CmdLists [] []
  have hid : d.CmdLists.map (copiedList false) = d.CmdLists := by
    have : copiedList false = id := by
      funext l
      rfl
    rw [this, List.map_id]
  have hlenV :
      ((copyLists strip_alpha [] [] d.CmdLists).2.1.length : Int) = d.TotalVtxCount := by
    rw [hc.2.1, List.nil_append, hl.1, hsumV]
  have hlenI :
      ((copyLists strip_alpha [] [] d.CmdLists).2.2.length : Int) = d.TotalIdxCount := by
    rw [hc.2.2, List.nil_append, hl.2, hsumI]
  refine ⟨hcap.1, hcap.2.2.1, hcap.2.1, hcap.2.2.2, hlenV, hlenI, ?_, ?_, hc.1, ?_, ?_, ?_⟩
  · rw [hlenV]; exact hcap.2.1
  · rw [hlenI]; exact hcap.2.2.2
  · rw [hc.2.1, hc.1, List.nil_append]
  · rw [hc.2.2, List.nil_append]
  · rw [hc0.2.1, hid, List.nil_append]

/-- C16, at a concrete input: the first UI frame of slot 0 of a two-buffer
manager, three vertices and three indices in one list. -/
theorem copy_stage_within_capacity_witness :
    sampleDrawData.TotalVtxCount = (vtxTotal sampleDrawData.CmdLists : Int) ∧
    (uiSyncStage readyWorld (okUi 0) sampleDrawData 0
      (readyWorld.rbk.frames_.getD 0 sampleFreshFrame)).1 = true ∧
    sampleDrawData.TotalVtxCount
      ≤ (heapAt (uiSyncStage readyWorld (okUi 0) sampleDrawData 0
          (readyWorld.rbk.frames_.getD 0 sampleFreshFrame)).2.1
          (readyWorld.rbk.frames_.getD 0 sampleFreshFrame).iBufferIdx).Vb.size ∧
    ((copyLists false [] [] sampleDrawData.CmdLists).2.1.length : Int)
      = sampleDrawData.TotalVtxCount :=
  ⟨by decide, by decide,
    (copy_stage_within_capacity readyWorld (okUi 0) sampleDrawData 0
      (readyWorld.rbk.frames_.getD 0 sampleFreshFrame) false (by decide) (by decide)
      (by decide) (by decide) (by decide) (by decide)).2.2.1,
    (copy_stage_within_capacity readyWorld (okUi 0) sampleDrawData 0
      (readyWorld.rbk.frames_.getD 0 sampleFreshFrame) false (by decide) (by decide)
      (by decide) (by decide) (by decide) (by decide)).2.2.2.2.1⟩

/-- C18, as the code has it: at alpha 92 the boost `(93 - 92) / 2` is zero in
integer division, so the adjusted alpha equals the alpha and does not strictly
increase. -/
theorem boost_is_not_strict_at_92 :
    0 < 92 ∧ 92 < 93 ∧ (93 - 92) / 2 = 0 ∧ boostAlpha 92 = 92 := by
  decide

/-- C18, amended: for every 8-bit alpha `a` with `0 < a < 93` the adjusted alpha
is `a + (93 - a) / 2` (integer division); it satisfies `a <= a' < 93`, so it
never decreases and cannot overflow 8 bits, and it strictly increases exactly
for `a < 92` (at `a = 92` it is `92`).  For every other alpha the adjusted alpha
is the alpha itself.  The adjusted alpha of a colour's alpha byte is what each
colour byte is multiplied with. -/
theorem boosted_alpha_formula (a : Nat) (h0 : 0 < a) (h93 : a < 93) :
    boostAlpha a = a + (93 - a) / 2 ∧
    a ≤ boostAlpha a ∧ boostAlpha a < 93 ∧
    (a < boostAlpha a ↔ a < 92) ∧
    (∀ b, ¬ (0 < b ∧ b < 93) → boostAlpha b = b) ∧
    (∀ color, stripAlpha color % 256
      = color % 256 * boostAlpha (color / 2 ^ 24 % 256) / 255) := by
  have hb : boostAlpha a = a + (93 - a) / 2 := by
    unfold boostAlpha
    rw [if_pos ⟨h93, by omega⟩]
    exact Nat.mod_eq_of_lt (by omega)
  refine ⟨hb, by omega, by omega, by omega, ?_, ?_⟩
  · intro b hbn
    unfold boostAlpha
    rw [if_neg]
    intro h
    exact hbn ⟨by omega, h.1⟩
  · intro color
    have hA := boostAlpha_lt (color / 2 ^ 24 % 256) (Nat.mod_lt _ (by norm_num))
    have b0 := div255_le (color % 256) _ hA
    have h0 := Nat.mod_lt color (by norm_num : 0 < 256)
    rw [stripAlpha_bytes]
    omega

/-- C18, amended, at the alpha of the specification: 30 becomes 61. -/
theorem boosted_alpha_formula_witness :
    0 < 30 ∧ 30 < 93 ∧ boostAlpha 30 = 30 + (93 - 30) / 2 ∧ boostAlpha 30 = 61 :=
  ⟨by decide, by decide, (boosted_alpha_formula 30 (by decide) (by decide)).1, by decide⟩

/-- C19: the alpha-stripping transform of a packed 32-bit colour is idempotent,
with the `float` channel arithmetic of the source: applying it twice gives the
same packed colour as applying it once, for every colour, those with alpha
`>= 93` or `== 0` among them. -/
theorem stripAlpha_idempotent (color : Nat) :
    stripAlpha (stripAlpha color) = stripAlpha color := by
  have hA := boostAlpha_lt (color / 2 ^ 24 % 256) (Nat.mod_lt _ (by norm_num))
  have b2 := div255_le (color / 2 ^ 16 % 256) _ hA
  have b1 := div255_le (color / 2 ^ 8 % 256) _ hA
  have b0 := div255_le (color % 256) _ hA
  have h2 := Nat.mod_lt (color / 2 ^ 16) (by norm_num : 0 < 256)
  have h1 := Nat.mod_lt (color / 2 ^ 8) (by norm_num : 0 < 256)
  have h0 := Nat.mod_lt color (by norm_num : 0 < 256)
  have hS := stripAlpha_bytes color
  generalize color / 2 ^ 16 % 256 * boostAlpha (color / 2 ^ 24 % 256) / 255 = B2 at hS b2
  generalize color / 2 ^ 8 % 256 * boostAlpha (color / 2 ^ 24 % 256) / 255 = B1 at hS b1
  generalize color % 256 * boostAlpha (color / 2 ^ 24 % 256) / 255 = B0 at hS b0
  generalize stripAlpha color = S at hS ⊢
  have e24 : S / 2 ^ 24 % 256 = 255 := by omega
  have e16 : S / 2 ^ 16 % 256 = B2 := by omega
  have e8 : S / 2 ^ 8 % 256 = B1 := by omega
  have e0 : S % 256 = B0 := by omega
  have hb : boostAlpha 255 = 255 := by decide
  rw [stripAlpha_bytes S, e24, e16, e8, e0, hb, Nat.mul_div_cancel _ (by norm_num),
    Nat.mul_div_cancel _ (by norm_num), Nat.mul_div_cancel _ (by norm_num)]
  omega

/-- C20: for every packed colour, with `a'` the adjusted alpha of its alpha byte:
the `float` computation of the source gives for every channel byte `c` exactly
`c * a' / 255` rounded down; the transformed colour fits 32 bits, its alpha byte
is `0xFF`, and each colour byte is that quotient of the byte in the same lane,
which is at most the byte; a colour with alpha byte 0 becomes `0xFF000000`. -/
theorem stripAlpha_premultiplies (color : Nat) :
    (∀ c a, c < 256 → a < 256 → premultiply c a = c * a / 255) ∧
    stripAlpha color < 2 ^ 32 ∧
    stripAlpha color / 2 ^ 24 % 256 = 0xFF ∧
    stripAlpha color / 2 ^ 16 % 256
      = color / 2 ^ 16 % 256 * boostAlpha (color / 2 ^ 24 % 256) / 255 ∧
    stripAlpha color / 2 ^ 8 % 256
      = color / 2 ^ 8 % 256 * boostAlpha (color / 2 ^ 24 % 256) / 255 ∧
    stripAlpha color % 256 = color % 256 * boostAlpha (color / 2 ^ 24 % 256) / 255 ∧
    color / 2 ^ 16 % 256 * boostAlpha (color / 2 ^ 24 % 256) / 255 ≤ color / 2 ^ 16 % 256 ∧
    color / 2 ^ 8 % 256 * boostAlpha (color / 2 ^ 24 % 256) / 255 ≤ color / 2 ^ 8 % 256 ∧
    color % 256 * boostAlpha (color / 2 ^ 24 % 256) / 255 ≤ color % 256 ∧
    (color / 2 ^ 24 % 256 = 0 → stripAlpha color = 0xFF000000) := by
  have hA := boostAlpha_lt (color / 2 ^ 24 % 256) (Nat.mod_lt _ (by norm_num))
  have b2 := div255_le (color / 2 ^ 16 % 256) _ hA
  have b1 := div255_le (color / 2 ^ 8 % 256) _ hA
  have b0 := div255_le (color % 256) _ hA
  have h2 := Nat.mod_lt (color / 2 ^ 16) (by norm_num : 0 < 256)
  have h1 := Nat.mod_lt (color / 2 ^ 8) (by norm_num : 0 < 256)
  have h0 := Nat.mod_lt color (by norm_num : 0 < 256)
  have hS := stripAlpha_bytes color
  refine ⟨premultiply_exact, ?_, ?_, ?_, ?_, ?_, b2, b1, b0, ?_⟩
  · omega
  · omega
  · omega
  · omega
  · omega
  · intro hz
    rw [hS, hz]
    have hb : boostAlpha 0 = 0 := by decide
    rw [hb]
    simp

/-- C21: for a draw command without a user callback the render loop records the
texture binding, then `RSSetScissorRects` with one rectangle `r`, then the draw;
`r` is the component-wise truncation toward zero of
`(ClipRect.x - ox, ClipRect.y - oy, ClipRect.z - ox, ClipRect.w - oy)`, where
`(ox, oy) = (0, 0)` is the display origin the loop works with (its local `pos`).
With the four coordinates inside the 32-bit range the four components are
representable as `LONG`, and `ClipRect.x <= ClipRect.z`, `ClipRect.y <= ClipRect.w`
give `r.left <= r.right` and `r.top <= r.bottom`, the condition the loop asserts. -/
theorem scissor_rect_truncates_clip_rect (This : Handle) (vtx_offset : Int) (w : World)
    (idx_offset : Nat) (pcmd : ImDrawCmd)
    (hcb : pcmd.UserCallback = none)
    (hx : -2 ^ 31 < pcmd.ClipRect.x ∧ pcmd.ClipRect.x < 2 ^ 31)
    (hy : -2 ^ 31 < pcmd.ClipRect.y ∧ pcmd.ClipRect.y < 2 ^ 31)
    (hz : -2 ^ 31 < pcmd.ClipRect.z ∧ pcmd.ClipRect.z < 2 ^ 31)
    (hw : -2 ^ 31 < pcmd.ClipRect.w ∧ pcmd.ClipRect.w < 2 ^ 31) :
    ∃ r : D3D12_RECT,
      (renderCmds This vtx_offset w idx_offset [pcmd]).1
        = callDrawIndexedInstanced
            (w.emit [Event.call This (Cmd.SetGraphicsRootDescriptorTable 1 pcmd.TextureId),
                     Event.call This (Cmd.RSSetScissorRects r)])
            This pcmd.ElemCount 1 idx_offset vtx_offset 0 ∧
      Truncates (pcmd.ClipRect.x - 0) r.left ∧ Truncates (pcmd.ClipRect.y - 0) r.top ∧
      Truncates (pcmd.ClipRect.z - 0) r.right ∧ Truncates (pcmd.ClipRect.w - 0) r.bottom ∧
      (-2 ^ 31 ≤ r.left ∧ r.left < 2 ^ 31) ∧ (-2 ^ 31 ≤ r.top ∧ r.top < 2 ^ 31) ∧
      (-2 ^ 31 ≤ r.right ∧ r.right < 2 ^ 31) ∧ (-2 ^ 31 ≤ r.bottom ∧ r.bottom < 2 ^ 31) ∧
      (pcmd.ClipRect.x ≤ pcmd.ClipRect.z → r.left ≤ r.right) ∧
      (pcmd.ClipRect.y ≤ pcmd.ClipRect.w → r.top ≤ r.bottom) := by
  refine ⟨{ left := toLONG (pcmd.ClipRect.x - 0), top := toLONG (pcmd.ClipRect.y - 0),
            right := toLONG (pcmd.ClipRect.z - 0), bottom := toLONG (pcmd.ClipRect.w - 0) },
    ?_, toLONG_truncates _, toLONG_truncates _, toLONG_truncates _, toLONG_truncates _,
    toLONG_fits _ (by linarith [hx.1]) (by linarith [hx.2]),
    toLONG_fits _ (by linarith [hy.1]) (by linarith [hy.2]),
    toLONG_fits _ (by linarith [hz.1]) (by linarith [hz.2]),
    toLONG_fits _ (by linarith [hw.1]) (by linarith [hw.2]),
    fun h => toLONG_mono (by linarith), fun h => toLONG_mono (by linarith)⟩
  simp only [renderCmds, hcb]

/-- C21, at a concrete input: the clip rectangle (-2.5, 0.75, 639.5, 479.67) gives
the scissor rectangle (-2, 0, 639, 479). -/
theorem scissor_rect_truncates_clip_rect_witness :
    fractionalClipCmd.UserCallback = none ∧
    (∃ r : D3D12_RECT,
      (renderCmds 300 0 readyWorld 0 [fractionalClipCmd]).1
        = callDrawIndexedInstanced
            (readyWorld.emit
              [Event.call 300 (Cmd.SetGraphicsRootDescriptorTable 1 fractionalClipCmd.TextureId),
               Event.call 300 (Cmd.RSSetScissorRects r)])
            300 fractionalClipCmd.ElemCount 1 0 0 0 ∧
      Truncates (fractionalClipCmd.ClipRect.x - 0) r.left ∧
      Truncates (fractionalClipCmd.ClipRect.y - 0) r.top ∧
      Truncates (fractionalClipCmd.ClipRect.z - 0) r.right ∧
      Truncates (fractionalClipCmd.ClipRect.w - 0) r.bottom ∧
      (-2 ^ 31 ≤ r.left ∧ r.left < 2 ^ 31) ∧ (-2 ^ 31 ≤ r.top ∧ r.top < 2 ^ 31) ∧
      (-2 ^ 31 ≤ r.right ∧ r.right < 2 ^ 31) ∧ (-2 ^ 31 ≤ r.bottom ∧ r.bottom < 2 ^ 31) ∧
      (fractionalClipCmd.ClipRect.x ≤ fractionalClipCmd.ClipRect.z → r.left ≤ r.right) ∧
      (fractionalClipCmd.ClipRect.y ≤ fractionalClipCmd.ClipRect.w → r.top ≤ r.bottom)) ∧
    Event.call 300 (Cmd.RSSetScissorRects { left := -2, top := 0, right := 639, bottom := 479 })
      ∈ (renderCmds 300 0 readyWorld 0 [fractionalClipCmd]).1.trace :=
  ⟨rfl,
    scissor_rect_truncates_clip_rect 300 0 readyWorld 0 fractionalClipCmd rfl
      (by constructor <;> norm_num [fractionalClipCmd])
      (by constructor <;> norm_num [fractionalClipCmd])
      (by constructor <;> norm_num [fractionalClipCmd])
      (by constructor <;> norm_num [fractionalClipCmd]),
    by decide!⟩

/-- C22: for a display size with `W` and `H` nonzero, in exact arithmetic, the
projection matrix sends the row vector `(x, y, 0, 1)` to
`(2x/W - 1, 1 - 2y/H, 1/2, 1)`: the display's top-left corner `(0, 0)` goes to
`(-1, +1)`, its bottom-right corner `(W, H)` to `(+1, -1)`, and the depth
component `1/2` lies in `[0, 1]`. -/
theorem projection_maps_display_to_clip_space (W H x y : Rat) (hW : W ≠ 0) (hH : H ≠ 0) :
    Matrix.vecMul ![x, y, 0, 1] (mvp (W, H)) = ![2 * x / W - 1, 1 - 2 * y / H, 1 / 2, 1] ∧
    Matrix.vecMul ![0, 0, 0, 1] (mvp (W, H)) = ![-1, 1, 1 / 2, 1] ∧
    Matrix.vecMul ![W, H, 0, 1] (mvp (W, H)) = ![1, -1, 1 / 2, 1] ∧
    0 ≤ Matrix.vecMul ![x, y, 0, 1] (mvp (W, H)) 2 ∧
    Matrix.vecMul ![x, y, 0, 1] (mvp (W, H)) 2 ≤ 1 := by
  have hW2 : (0 : Rat) - (0 + W) ≠ 0 := by simpa using hW
  have hW3 : (0 : Rat) + W - 0 ≠ 0 := by simpa using hW
  have hH2 : (0 : Rat) - (0 + H) ≠ 0 := by simpa using hH
  have hH3 : (0 : Rat) + H - 0 ≠ 0 := by simpa using hH
  have key : ∀ a b : Rat,
      Matrix.vecMul ![a, b, 0, 1] (mvp (W, H)) = ![2 * a / W - 1, 1 - 2 * b / H, 1 / 2, 1] := by
    intro a b
    funext i
    simp only [Matrix.vecMul, Matrix.dotProduct, Fin.sum_univ_four]
    fin_cases i
    · show a * (2 / (0 + W - 0)) + b * 0 + 0 * 0 + 1 * ((0 + W + 0) / (0 - (0 + W)))
        = 2 * a / W - 1
      field_simp
      ring
    · show a * 0 + b * (2 / (0 - (0 + H))) + 0 * 0 + 1 * ((0 + (0 + H)) / (0 + H - 0))
        = 1 - 2 * b / H
      have h1 : (0 + (0 + H)) / (0 + H - 0) = (1 : Rat) := by
        rw [div_eq_one_iff_eq hH3]
        ring
      rw [h1, show (0 : Rat) - (0 + H) = -H by ring, div_neg]
      ring
    · show a * 0 + b * 0 + 0 * (1 / 2) + 1 * (1 / 2) = (1 / 2 : Rat)
      ring
    · show a * 0 + b * 0 + 0 * 0 + 1 * 1 = (1 : Rat)
      ring
  refine ⟨key x y, ?_, ?_, ?_, ?_⟩
  · rw [key]
    funext i
    fin_cases i
    · show 2 * 0 / W - 1 = (-1 : Rat)
      simp
    · show 1 - 2 * 0 / H = (1 : Rat)
      simp
    · rfl
    · rfl
  · rw [key]
    funext i
    fin_cases i
    · show 2 * W / W - 1 = (1 : Rat)
      field_simp
      ring
    · show 1 - 2 * H / H = (-1 : Rat)
      field_simp
      ring
    · rfl
    · rfl
  · rw [key]
    show (0 : Rat) ≤ 1 / 2
    norm_num
  · rw [key]
    show (1 / 2 : Rat) ≤ 1
    norm_num

/-- C22, at a concrete input: a 640 by 480 display and the point (160, 120), which
goes to (-1/2, 1/2, 1/2, 1). -/
theorem projection_maps_display_to_clip_space_witness :
    (640 : Rat) ≠ 0 ∧ (480 : Rat) ≠ 0 ∧
    (Matrix.vecMul ![160, 120, 0, 1] (mvp (640, 480))
        = ![2 * 160 / 640 - 1, 1 - 2 * 120 / 480, 1 / 2, 1] ∧
      Matrix.vecMul ![0, 0, 0, 1] (mvp (640, 480)) = ![-1, 1, 1 / 2, 1] ∧
      Matrix.vecMul ![640, 480, 0, 1] (mvp (640, 480)) = ![1, -1, 1 / 2, 1] ∧
      0 ≤ Matrix.vecMul ![160, 120, 0, 1] (mvp (640, 480)) 2 ∧
      Matrix.vecMul ![160, 120, 0, 1] (mvp (640, 480)) 2 ≤ 1) ∧
    Matrix.vecMul ![160, 120, 0, 1] (mvp (640, 480)) 0 = -1 / 2 ∧
    Matrix.vecMul ![160, 120, 0, 1] (mvp (640, 480)) 1 = 1 / 2 :=
  ⟨by norm_num, by norm_num,
    projection_maps_display_to_clip_space 640 480 160 120 (by norm_num) (by norm_num),
    by decide!, by decide!⟩

/-- C23: after a successful `init` on a swapchain of `N` buffers whose descriptor
ranges fit the address space, `frames_` has exactly `N` frame contexts, and the
context at index `i` has buffer index `i`, fence value 0, is not recording,
refers back to the manager, and has each of its five descriptor handles (the
render-target view, and the CPU and GPU handles of the HDR and of the HDR
copy-assist views) equal to the heap start plus `i` times the increment size.
Each handle's entry lies inside the `N`-entry heap, and with a nonzero increment
the handles of two different contexts differ. -/
theorem init_lays_out_frame_contexts (w : World) (sc q : Option Handle) (e : InitEnv)
    (hok : (SK_D3D12_RenderCtx.init w sc q e).1 = true) (hfit : e.HeapsFit) :
    (SK_D3D12_RenderCtx.init w sc q e).2.rbk.frames_.length = e.BufferCount ∧
    (∀ (i : Nat) (fr : FrameCtx),
      (SK_D3D12_RenderCtx.init w sc q e).2.rbk.frames_[i]? = some fr →
        fr.iBufferIdx = i ∧ fr.fence.value = 0 ∧ fr.bCmdListRecording = false ∧
        fr.pRoot = true ∧
        fr.hRenderOutput = e.rtvHeapStart + i * e.rtvDescriptorSize ∧
        fr.hdr.hSwapChainCopy_CPU = e.hdrCpuStart + i * e.srvDescriptorSize ∧
        fr.hdr.hSwapChainCopy_GPU = e.hdrGpuStart + i * e.srvDescriptorSize ∧
        fr.hdr.hBufferCopy_CPU = e.copyAssistCpuStart + i * e.srvDescriptorSize ∧
        fr.hdr.hBufferCopy_GPU = e.copyAssistGpuStart + i * e.srvDescriptorSize ∧
        fr.hRenderOutput + e.rtvDescriptorSize
          ≤ e.rtvHeapStart + e.BufferCount * e.rtvDescriptorSize ∧
        fr.hdr.hSwapChainCopy_CPU + e.srvDescriptorSize
          ≤ e.hdrCpuStart + e.BufferCount * e.srvDescriptorSize ∧
        fr.hdr.hSwapChainCopy_GPU + e.srvDescriptorSize
          ≤ e.hdrGpuStart + e.BufferCount * e.srvDescriptorSize ∧
        fr.hdr.hBufferCopy_CPU + e.srvDescriptorSize
          ≤ e.copyAssistCpuStart + e.BufferCount * e.srvDescriptorSize ∧
        fr.hdr.hBufferCopy_GPU + e.srvDescriptorSize
          ≤ e.copyAssistGpuStart + e.BufferCount * e.srvDescriptorSize) ∧
    (∀ (i j : Nat) (fi fj : FrameCtx),
      (SK_D3D12_RenderCtx.init w sc q e).2.rbk.frames_[i]? = some fi →
      (SK_D3D12_RenderCtx.init w sc q e).2.rbk.frames_[j]? = some fj → i ≠ j →
        (0 < e.rtvDescriptorSize → fi.hRenderOutput ≠ fj.hRenderOutput) ∧
        (0 < e.srvDescriptorSize →
          fi.hdr.hSwapChainCopy_CPU ≠ fj.hdr.hSwapChainCopy_CPU ∧
          fi.hdr.hSwapChainCopy_GPU ≠ fj.hdr.hSwapChainCopy_GPU ∧
          fi.hdr.hBufferCopy_CPU ≠ fj.hdr.hBufferCopy_CPU ∧
          fi.hdr.hBufferCopy_GPU ≠ fj.hdr.hBufferCopy_GPU)) := by
  have hlen := (init_ok w sc q e hok).2.2.2.2.2.2.2.1
  have hcomplete := (init_ok w sc q e hok).2.2.2.2.2.2.2.2
  have hall : ∀ (i : Nat) (fr : FrameCtx),
      (SK_D3D12_RenderCtx.init w sc q e).2.rbk.frames_[i]? = some fr →
        fr.hRenderOutput = e.rtvHeapStart + i * e.rtvDescriptorSize ∧
        fr.hdr.hSwapChainCopy_CPU = e.hdrCpuStart + i * e.srvDescriptorSize ∧
        fr.hdr.hSwapChainCopy_GPU = e.hdrGpuStart + i * e.srvDescriptorSize ∧
        fr.hdr.hBufferCopy_CPU = e.copyAssistCpuStart + i * e.srvDescriptorSize ∧
        fr.hdr.hBufferCopy_GPU = e.copyAssistGpuStart + i * e.srvDescriptorSize ∧
        i < e.BufferCount := by
    intro i fr hi
    have hlt : i < e.BufferCount := by
      rw [← hlen]
      exact (List.getElem?_eq_some_iff.mp hi).1
    obtain ⟨f0, h0, rfl⟩ := init_each w sc q e hok i fr hi
    have hh := initFrame_handles e i f0 h0
    obtain ⟨f1, f2, f3, f4, f5⟩ := hfit
    rw [hh.1, hh.2.1, hh.2.2.1, hh.2.2.2.1, hh.2.2.2.2,
      (handle_of_fits _ _ _ i hlt f1).1, (handle_of_fits _ _ _ i hlt f2).2.1,
      (handle_of_fits _ _ _ i hlt f3).2.1, (handle_of_fits _ _ _ i hlt f4).2.1,
      (handle_of_fits _ _ _ i hlt f5).2.1]
    exact ⟨rfl, rfl, rfl, rfl, rfl, hlt⟩
  refine ⟨hlen, ?_, ?_⟩
  · intro i fr hi
    obtain ⟨a1, a2, a3, a4, a5, hlt⟩ := hall i fr hi
    have hc := hcomplete i fr hi
    obtain ⟨f1, f2, f3, f4, f5⟩ := hfit
    refine ⟨hc.1, hc.2.1, hc.2.2.1, hc.2.2.2.1, a1, a2, a3, a4, a5, ?_, ?_, ?_, ?_, ?_⟩
    · rw [a1]; exact (handle_of_fits _ _ _ i hlt f1).2.2
    · rw [a2]; exact (handle_of_fits _ _ _ i hlt f2).2.2
    · rw [a3]; exact (handle_of_fits _ _ _ i hlt f3).2.2
    · rw [a4]; exact (handle_of_fits _ _ _ i hlt f4).2.2
    · rw [a5]; exact (handle_of_fits _ _ _ i hlt f5).2.2
  · intro i j fi fj hi hj hij
    obtain ⟨a1, a2, a3, a4, a5, _⟩ := hall i fi hi
    obtain ⟨b1, b2, b3, b4, b5, _⟩ := hall j fj hj
    rw [a1, a2, a3, a4, a5, b1, b2, b3, b4, b5]
    exact ⟨fun h => handle_injective _ _ i j h hij,
      fun h => ⟨handle_injective _ _ i j h hij, handle_injective _ _ i j h hij,
        handle_injective _ _ i j h hij, handle_injective _ _ i j h hij⟩⟩

/-- C23, at a concrete input: `init` on a three-buffer swapchain with increments 32
(render-target views) and 64 (shader resource views); the context at index 2 has
its render-target view at 4096 + 2 * 32 and its HDR copy-assist view at
16384 + 2 * 64. -/
theorem init_lays_out_frame_contexts_witness :
    (SK_D3D12_RenderCtx.init (bootWorld 0) (some 5) (some 1) (okInit 3)).1 = true ∧
    (okInit 3).HeapsFit ∧
    (SK_D3D12_RenderCtx.init (bootWorld 0) (some 5) (some 1) (okInit 3)).2.rbk.frames_.length
      = (okInit 3).BufferCount ∧
    ((SK_D3D12_RenderCtx.init (bootWorld 0) (some 5) (some 1) (okInit 3)).2.rbk.frames_.map
        fun fr => (fr.iBufferIdx, fr.hRenderOutput, fr.hdr.hBufferCopy_CPU))
      = [(0, 4096, 16384), (1, 4128, 16448), (2, 4160, 16512)] :=
  ⟨by decide, by decide,
    (init_lays_out_frame_contexts (bootWorld 0) (some 5) (some 1) (okInit 3) (by decide)
      (by decide)).1,
    by decide⟩

/-- C24: the `CopyResource` hook, for a destination `dst` and a source `src`.
The original `CopyResource` is skipped (no `CopyResource` reaches the command
list) if and only if the override is active, the destination is a 2D texture of
format `R16G16B16A16_FLOAT`, and source and destination differ both in typeless
format and in bits per pixel.  A skipped copy is handed to the HDR blitter, with
the same command list and the source, exactly when the list is a direct one and
there is no swapchain or the source has the swapchain's width and height and the
source or the destination has its format; otherwise it is dropped and nothing
changes.  In every other case the original is called once, with the arguments
as received; with the override inactive that holds for any two pointers. -/
theorem copyResource_hook_skips_iff (w : World) (e : CopyEnv) (This dst src : Handle) :
    (specCopyResourceSkips e dst src ↔
      TraceGrows (fun ev => !ev.isCopyResource) w
        (D3D12GraphicsCommandList_CopyResource_Detour w e This (some dst) (some src))) ∧
    (specCopyResourceSkips e dst src → specCopyResourceBlits e dst src →
      D3D12GraphicsCommandList_CopyResource_Detour w e This (some dst) (some src)
        = SK_D3D12_HDR_CopyBuffer w e.blit This (some src)) ∧
    (specCopyResourceSkips e dst src → ¬ specCopyResourceBlits e dst src →
      D3D12GraphicsCommandList_CopyResource_Detour w e This (some dst) (some src) = w) ∧
    (¬ specCopyResourceSkips e dst src →
      D3D12GraphicsCommandList_CopyResource_Detour w e This (some dst) (some src)
        = w.emit [Event.call This (Cmd.CopyResource (some dst) (some src))]) ∧
    (∀ pDst pSrc : Option Handle, e.hdr16BitSwap = false →
      D3D12GraphicsCommandList_CopyResource_Detour w e This pDst pSrc
        = w.emit [Event.call This (Cmd.CopyResource pDst pSrc)]) := by
  have hblit : specCopyResourceBlits e dst src ↔
      (e.listType = D3D12_COMMAND_LIST_TYPE_DIRECT ∧
        e.swapChainCopy (e.desc src) (e.desc dst) = true) := by
    unfold specCopyResourceBlits CopyEnv.swapChainCopy
    cases hs : e.swapDesc with
    | none => simp
    | some sd => simp [and_assoc]
  have hno : ¬ specCopyResourceSkips e dst src →
      D3D12GraphicsCommandList_CopyResource_Detour w e This (some dst) (some src)
        = w.emit [Event.call This (Cmd.CopyResource (some dst) (some src))] := by
    intro h
    unfold specCopyResourceSkips at h
    unfold D3D12GraphicsCommandList_CopyResource_Detour
    simp only []
    split_ifs with h1 h2 h3 h4 h5
    all_goals first
      | rfl
      | exact absurd ⟨h1, h2.1, h2.2, h3.1, h3.2⟩ h
  have hyes : specCopyResourceSkips e dst src →
      D3D12GraphicsCommandList_CopyResource_Detour w e This (some dst) (some src)
        = if e.listType = D3D12_COMMAND_LIST_TYPE_DIRECT ∧
              e.swapChainCopy (e.desc src) (e.desc dst) = true
          then SK_D3D12_HDR_CopyBuffer w e.blit This (some src) else w := by
    intro h
    obtain ⟨h1, h2, h3, h4, h5⟩ := h
    unfold D3D12GraphicsCommandList_CopyResource_Detour
    simp only [h1, if_true, h2, h3, and_self, ne_eq, h4, not_false_eq_true, h5]
    split_ifs <;> simp_all
  refine ⟨⟨?_, ?_⟩, ?_, ?_, hno, ?_⟩
  · intro h
    rw [hyes h]
    split
    · exact (blitter_no_copy w e.blit This (some src)).mono (fun ev hev => by
        simp only [Bool.and_eq_true] at hev
        exact hev.1)
    · exact TraceGrows.id_grows _ w
  · intro h
    by_contra hn
    rw [hno hn] at h
    obtain ⟨es, h1, h2⟩ := h
    have : es = [Event.call This (Cmd.CopyResource (some dst) (some src))] :=
      (List.append_cancel_left h1).symm
    subst this
    simp [Event.isCopyResource] at h2
  · intro h hb
    rw [hyes h, if_pos (hblit.mp hb)]
  · intro h hb
    rw [hyes h, if_neg (fun hh => hb (hblit.mpr hh))]
  · intro pDst pSrc h
    unfold D3D12GraphicsCommandList_CopyResource_Detour
    simp [h]

/-- C25, refuted at a concrete input: the override is active, the source is
backbuffer 400 (a 2D texture), both footprints are `R16G16B16A16_FLOAT`, and the
source footprint is 536870913 texels wide with a row pitch of 16 bytes, far below
536870913 * 8.  The hook computes the product in 32 bits, where it is 8, finds
the row pitch large enough, and calls the original `CopyTextureRegion`. -/
theorem row_pitch_product_wraps_and_copy_is_forwarded :
    okCopy.hdr16BitSwap = true ∧
    (okCopy.desc (placedAt 400 10 536870913 16).pResource).Dimension
      = D3D12_RESOURCE_DIMENSION_TEXTURE2D ∧
    okCopy.makeTypeless (placedAt 400 10 536870913 16).Footprint.Format
      = DXGI_FORMAT_R16G16B16A16_TYPELESS ∧
    (placedAt 400 10 536870913 16).Footprint.RowPitch
      < (placedAt 400 10 536870913 16).Footprint.Width
          * (okCopy.bitsPerPixel
              (okCopy.makeTypeless (placedAt 400 10 536870913 16).Footprint.Format) / 8) ∧
    wrapUINT ((placedAt 400 10 536870913 16).Footprint.Width
      * wrapUINT (okCopy.bitsPerPixel
          (okCopy.makeTypeless (placedAt 400 10 536870913 16).Footprint.Format) / 8)) = 8 ∧
    D3D12GraphicsCommandList_CopyTextureRegion_Detour readyWorld okCopy 300
        (placedAt 701 10 640 5120) 0 0 0 (placedAt 400 10 536870913 16) none
      = readyWorld.emit [Event.call 300 (Cmd.CopyTextureRegion (placedAt 701 10 640 5120) 0 0 0
          (placedAt 400 10 536870913 16) none)] := by
  decide

/-- C25, amended: the `CopyTextureRegion` hook with the override active, a source
that is a 2D texture, and a placed footprint (source or destination) whose
typeless format is `R16G16B16A16_TYPELESS`.  The hook's row pitch of a footprint
is its width times its bytes per pixel (`BitsPerPixel / 8` of the typeless
format) as a 32-bit product, that is modulo 2^32.  If the source's `RowPitch` is
below the hook's row pitch of the source footprint, or the destination's below
that of the destination footprint, no `CopyTextureRegion` reaches the command
list: the call leaves the world as it was (the copy is dropped), unless the
earlier swapchain-copy branch already handed the source to the HDR blitter,
which records no copy either.  When width times bytes per pixel is below 2^32
the hook's row pitch is that product itself. -/
theorem copyTextureRegion_hook_drops_short_row_pitch (w : World) (e : CopyEnv) (This : Handle)
    (pDst : D3D12_TEXTURE_COPY_LOCATION) (DstX DstY DstZ : Nat)
    (pSrc : D3D12_TEXTURE_COPY_LOCATION) (pSrcBox : Option D3D12_BOX)
    (hov : e.hdr16BitSwap = true)
    (hsrc : (e.desc pSrc.pResource).Dimension = D3D12_RESOURCE_DIMENSION_TEXTURE2D)
    (hfmt : e.makeTypeless pSrc.Footprint.Format = DXGI_FORMAT_R16G16B16A16_TYPELESS ∨
      e.makeTypeless pDst.Footprint.Format = DXGI_FORMAT_R16G16B16A16_TYPELESS)
    (hpitch :
      pSrc.Footprint.RowPitch
        < wrapUINT (pSrc.Footprint.Width
            * wrapUINT (e.bitsPerPixel (e.makeTypeless pSrc.Footprint.Format) / 8)) ∨
      pDst.Footprint.RowPitch
        < wrapUINT (pDst.Footprint.Width
            * wrapUINT (e.bitsPerPixel (e.makeTypeless pDst.Footprint.Format) / 8))) :
    TraceGrows (fun ev => !ev.isCopyTextureRegion) w
      (D3D12GraphicsCommandList_CopyTextureRegion_Detour w e This pDst DstX DstY DstZ pSrc
        pSrcBox) ∧
    (D3D12GraphicsCommandList_CopyTextureRegion_Detour w e This pDst DstX DstY DstZ pSrc pSrcBox
        = w ∨
      D3D12GraphicsCommandList_CopyTextureRegion_Detour w e This pDst DstX DstY DstZ pSrc pSrcBox
        = SK_D3D12_HDR_CopyBuffer w e.blit This (some pSrc.pResource)) ∧
    (pSrc.Footprint.Width * (e.bitsPerPixel (e.makeTypeless pSrc.Footprint.Format) / 8) < 2 ^ 32 →
      wrapUINT (pSrc.Footprint.Width
          * wrapUINT (e.bitsPerPixel (e.makeTypeless pSrc.Footprint.Format) / 8))
        = pSrc.Footprint.Width * (e.bitsPerPixel (e.makeTypeless pSrc.Footprint.Format) / 8)) ∧
    (pDst.Footprint.Width * (e.bitsPerPixel (e.makeTypeless pDst.Footprint.Format) / 8) < 2 ^ 32 →
      wrapUINT (pDst.Footprint.Width
          * wrapUINT (e.bitsPerPixel (e.makeTypeless pDst.Footprint.Format) / 8))
        = pDst.Footprint.Width
            * (e.bitsPerPixel (e.makeTypeless pDst.Footprint.Format) / 8)) := by
  have hd : dumpStage w e This pDst DstX DstY DstZ pSrc pSrcBox = w :=
    dumpStage_skipped w e This pDst DstX DstY DstZ pSrc pSrcBox (by
      rw [hsrc]
      decide)
  have hcases :
      D3D12GraphicsCommandList_CopyTextureRegion_Detour w e This pDst DstX DstY DstZ pSrc pSrcBox
        = w ∨
      D3D12GraphicsCommandList_CopyTextureRegion_Detour w e This pDst DstX DstY DstZ pSrc pSrcBox
        = SK_D3D12_HDR_CopyBuffer w e.blit This (some pSrc.pResource) := by
    unfold D3D12GraphicsCommandList_CopyTextureRegion_Detour
    simp only [hd, hov, if_true, hsrc, hfmt, hpitch]
    split_ifs <;> simp
  refine ⟨?_, hcases, row_pitch_of_fits _ _, row_pitch_of_fits _ _⟩
  rcases hcases with h | h
  · rw [h]
    exact TraceGrows.id_grows _ w
  · rw [h]
    exact (blitter_no_copy w e.blit This (some pSrc.pResource)).mono (fun ev hev => by
      simp only [Bool.and_eq_true] at hev
      exact hev.2)

/-- C25 amended, at a concrete input: with the override active, a copy from
backbuffer 400 (640 by 480, `R16G16B16A16_FLOAT`) into a buffer whose source
footprint asks for a row pitch of 2560 bytes, the pitch of a 32-bit format, where
640 * 8 = 5120 are needed: the hook returns without any call; with a row pitch of
5120 the copy is forwarded. -/
theorem copyTextureRegion_hook_drops_short_row_pitch_witness :
    okCopy.hdr16BitSwap = true ∧
    (okCopy.desc (placedAt 400 10 640 2560).pResource).Dimension
      = D3D12_RESOURCE_DIMENSION_TEXTURE2D ∧
    (placedAt 400 10 640 2560).Footprint.RowPitch
      < wrapUINT ((placedAt 400 10 640 2560).Footprint.Width
          * wrapUINT (okCopy.bitsPerPixel
              (okCopy.makeTypeless (placedAt 400 10 640 2560).Footprint.Format) / 8)) ∧
    TraceGrows (fun ev => !ev.isCopyTextureRegion) readyWorld
      (D3D12GraphicsCommandList_CopyTextureRegion_Detour readyWorld okCopy 300
        (placedAt 701 10 640 5120) 0 0 0 (placedAt 400 10 640 2560) none) ∧
    D3D12GraphicsCommandList_CopyTextureRegion_Detour readyWorld okCopy 300
        (placedAt 701 10 640 5120) 0 0 0 (placedAt 400 10 640 2560) none = readyWorld ∧
    D3D12GraphicsCommandList_CopyTextureRegion_Detour readyWorld okCopy 300
        (placedAt 701 10 640 5120) 0 0 0 (placedAt 400 10 640 5120) none
      = readyWorld.emit [Event.call 300 (Cmd.CopyTextureRegion (placedAt 701 10 640 5120) 0 0 0
          (placedAt 400 10 640 5120) none)] :=
  ⟨by decide, by decide, by decide,
    (copyTextureRegion_hook_drops_short_row_pitch readyWorld okCopy 300
      (placedAt 701 10 640 5120) 0 0 0 (placedAt 400 10 640 2560) none (by decide) (by decide)
      (by decide) (by decide)).1,
    by decide, by decide⟩

/-- C26: with the override inactive, or with it active and a source that is not a
2D texture, the `CopyTextureRegion` hook calls the original exactly once, with
exactly the arguments it received, as the last thing it does.  Before that the
texture-dump branch either did nothing or handed the destination to the dumper,
and nothing else of the world changed. -/
theorem copyTextureRegion_hook_forwards (w : World) (e : CopyEnv) (This : Handle)
    (pDst : D3D12_TEXTURE_COPY_LOCATION) (DstX DstY DstZ : Nat)
    (pSrc : D3D12_TEXTURE_COPY_LOCATION) (pSrcBox : Option D3D12_BOX)
    (h : e.hdr16BitSwap = false ∨
      (e.desc pSrc.pResource).Dimension ≠ D3D12_RESOURCE_DIMENSION_TEXTURE2D) :
    (D3D12GraphicsCommandList_CopyTextureRegion_Detour w e This pDst DstX DstY DstZ pSrc pSrcBox
        = w.emit [Event.call This (Cmd.CopyTextureRegion pDst DstX DstY DstZ pSrc pSrcBox)] ∨
      D3D12GraphicsCommandList_CopyTextureRegion_Detour w e This pDst DstX DstY DstZ pSrc pSrcBox
        = w.emit [Event.Dump This pDst.pResource,
                  Event.call This (Cmd.CopyTextureRegion pDst DstX DstY DstZ pSrc pSrcBox)]) ∧
    ((D3D12GraphicsCommandList_CopyTextureRegion_Detour w e This pDst DstX DstY DstZ pSrc
        pSrcBox).trace.drop w.trace.length).filter Event.isCopyTextureRegion
      = [Event.call This (Cmd.CopyTextureRegion pDst DstX DstY DstZ pSrc pSrcBox)] := by
  have hfw :
      D3D12GraphicsCommandList_CopyTextureRegion_Detour w e This pDst DstX DstY DstZ pSrc pSrcBox
        = (dumpStage w e This pDst DstX DstY DstZ pSrc pSrcBox).emit
            [Event.call This (Cmd.CopyTextureRegion pDst DstX DstY DstZ pSrc pSrcBox)] := by
    unfold D3D12GraphicsCommandList_CopyTextureRegion_Detour
    rcases h with h | h
    · simp [h]
    · simp only []
      split
      · rw [if_neg (fun hh => h hh.symm)]
      · rfl
  rw [hfw]
  rcases dumpStage_trace w e This pDst DstX DstY DstZ pSrc pSrcBox with hd | hd
  · rw [hd]
    refine ⟨Or.inl rfl, ?_⟩
    simp [World.emit, Event.isCopyTextureRegion]
  · rw [hd]
    refine ⟨Or.inr ?_, ?_⟩
    · simp [World.emit]
    · simp [World.emit, Event.isCopyTextureRegion]

/-- C26, at concrete inputs: an upload from a buffer into texture 700 with the
override active and texture injection on passes the dump branch and is forwarded
once; the backbuffer copy that the override would drop is forwarded once when the
override is inactive. -/
theorem copyTextureRegion_hook_forwards_witness :
    (okCopy.desc (placedAt 701 28 640 2560).pResource).Dimension
      ≠ D3D12_RESOURCE_DIMENSION_TEXTURE2D ∧
    ((D3D12GraphicsCommandList_CopyTextureRegion_Detour readyWorld okCopy 300
          (placedAt 700 28 640 2560) 0 0 0 (placedAt 701 28 640 2560) none
        = readyWorld.emit [Event.call 300 (Cmd.CopyTextureRegion (placedAt 700 28 640 2560) 0 0 0
            (placedAt 701 28 640 2560) none)] ∨
      D3D12GraphicsCommandList_CopyTextureRegion_Detour readyWorld okCopy 300
          (placedAt 700 28 640 2560) 0 0 0 (placedAt 701 28 640 2560) none
        = readyWorld.emit [Event.Dump 300 (placedAt 700 28 640 2560).pResource,
            Event.call 300 (Cmd.CopyTextureRegion (placedAt 700 28 640 2560) 0 0 0
              (placedAt 701 28 640 2560) none)]) ∧
    ((D3D12GraphicsCommandList_CopyTextureRegion_Detour readyWorld okCopy 300
        (placedAt 700 28 640 2560) 0 0 0 (placedAt 701 28 640 2560)
        none).trace.drop readyWorld.trace.length).filter Event.isCopyTextureRegion
      = [Event.call 300 (Cmd.CopyTextureRegion (placedAt 700 28 640 2560) 0 0 0
          (placedAt 701 28 640 2560) none)]) ∧
    D3D12GraphicsCommandList_CopyTextureRegion_Detour readyWorld okCopy 300
        (placedAt 700 28 640 2560) 0 0 0 (placedAt 701 28 640 2560) none
      = readyWorld.emit [Event.Dump 300 700,
          Event.call 300 (Cmd.CopyTextureRegion (placedAt 700 28 640 2560) 0 0 0
            (placedAt 701 28 640 2560) none)] ∧
    D3D12GraphicsCommandList_CopyTextureRegion_Detour readyWorld
        { okCopy with hdr16BitSwap := false } 300
        (placedAt 701 10 640 5120) 0 0 0 (placedAt 400 10 640 2560) none
      = readyWorld.emit [Event.call 300 (Cmd.CopyTextureRegion (placedAt 701 10 640 5120) 0 0 0
          (placedAt 400 10 640 2560) none)] :=
  ⟨by decide,
    copyTextureRegion_hook_forwards readyWorld okCopy 300 (placedAt 700 28 640 2560) 0 0 0
      (placedAt 701 28 640 2560) none (Or.inr (by decide)),
    by decide, by decide⟩

/-- C27: the HDR tonemap pass of `present` with the draw hooks installed, for
every state of the world before it, in particular for every value stored under
`SKID_D3D12DisablePipelineState` on the HDR pipeline `pso` or on the command
list.  The pass records exactly the calls below: the flag on the pipeline is
false when `SetPipelineState (pso)` goes through its hook, the hook copies it to
the command list, the `DrawInstanced` hook reads false there, and
`DrawInstanced (3, 1, 0, 0)` reaches the command list. -/
theorem hdr_pass_draw_is_never_suppressed (w : World) (e : PresentEnv) (This pso : Handle)
    (fr : FrameCtx) (hp : w.rbk.pHDRPipeline = some pso) (hh : w.drawHooks = true) :
    (presentHDR w e This fr).getDisable pso = some false ∧
    (presentHDR w e This fr).getDisable This = some false ∧
    (presentHDR w e This fr).trace = w.trace ++
      [Event.call This (Cmd.SetGraphicsRootSignature w.rbk.pHDRSignature),
       Event.call This (Cmd.SetPipelineState (some pso)),
       Event.call This (Cmd.SetGraphicsRoot32BitConstants 0 4),
       Event.call This (Cmd.SetGraphicsRoot32BitConstants 1 16),
       Event.call This Cmd.OMSetBlendFactor,
       Event.call This (Cmd.IASetPrimitiveTopology true),
       Event.call This (Cmd.CopyResource fr.hdr.pSwapChainCopy fr.pRenderOutput),
       Event.call This (Cmd.ResourceBarrier 2),
       Event.call This (Cmd.SetDescriptorHeaps w.rbk.descriptorHeaps.pHDR),
       Event.call This (Cmd.SetGraphicsRootDescriptorTable 2 fr.hdr.hSwapChainCopy_GPU),
       Event.call This (Cmd.OMSetRenderTargets fr.hRenderOutput),
       Event.call This Cmd.RSSetViewports,
       Event.call This (Cmd.RSSetScissorRects
         { left := 0, top := 0, right := fr.hdr.scissorRight, bottom := fr.hdr.scissorBottom }),
       Event.call This (Cmd.DrawInstanced 3 1 0 0),
       Event.call This (Cmd.ResourceBarrier 1)] := by
  by_cases hk : pso ∈ w.knownVtxShader <;> cases hg : e.ui.hook.getDeviceOk <;>
    cases hc : w.hdrCriticalOnce <;>
    simp [presentHDR, callSetPipelineState, callDrawInstanced,
      D3D12GraphicsCommandList_SetPipelineState_Detour,
      D3D12GraphicsCommandList_DrawInstanced_Detour, _InitCopyTextureRegionHook,
      World.emit, World.setDisable, World.getDisable, hp, hh, hk, hg, hc, List.lookup] <;>
    cases pso == This <;> rfl

/-- C27, at a concrete input: the flag is true on the HDR pipeline and on the
command list before the pass; after the pass both read false and the draw is
recorded. -/
theorem hdr_pass_draw_is_never_suppressed_witness :
    hdrDisabledWorld.rbk.pHDRPipeline = some 21 ∧ hdrDisabledWorld.drawHooks = true ∧
    hdrDisabledWorld.getDisable 21 = some true ∧ hdrDisabledWorld.getDisable 300 = some true ∧
    (presentHDR hdrDisabledWorld (okPresent 2 0 none) 300 sampleRecordingFrame).getDisable 21
      = some false ∧
    (presentHDR hdrDisabledWorld (okPresent 2 0 none) 300 sampleRecordingFrame).getDisable 300
      = some false ∧
    Event.call 300 (Cmd.DrawInstanced 3 1 0 0)
      ∈ (presentHDR hdrDisabledWorld (okPresent 2 0 none) 300 sampleRecordingFrame).trace :=
  ⟨by decide, by decide, by decide, by decide,
    (hdr_pass_draw_is_never_suppressed hdrDisabledWorld (okPresent 2 0 none) 300 21
      sampleRecordingFrame (by decide) (by decide)).1,
    (hdr_pass_draw_is_never_suppressed hdrDisabledWorld (okPresent 2 0 none) 300 21
      sampleRecordingFrame (by decide) (by decide)).2.1,
    by decide⟩

/-- C28: `exec_cmd_list` on a recording frame context, with one swapchain index
serving the whole call.  If `Close` fails, nothing but the failed `Close` is
recorded, nothing is submitted, and the context stays recording.  If `Close`
succeeds, the context is no longer recording, and its command list is submitted
if and only if the swapchain's current backbuffer index equals the context's
buffer index: with equal indices the call adds exactly the `Close` and the
submission; with different indices the list is only closed and `release` runs. -/
theorem exec_cmd_list_submits_iff_index_matches (w : World) (pos : Nat) (fr : FrameCtx)
    (closeOk : Bool) (currentIdx : Nat) (re : ReleaseEnv)
    (hrec : fr.bCmdListRecording = true)
    (hidx : ∀ k, (re.dtor k).currentIdx = currentIdx) :
    (closeOk = false →
      (fr.exec_cmd_list w pos closeOk currentIdx re).1 = w.emit [Event.Close fr.iBufferIdx false] ∧
      (fr.exec_cmd_list w pos closeOk currentIdx re).2.1 = fr ∧
      (fr.exec_cmd_list w pos closeOk currentIdx re).2.1.bCmdListRecording = true) ∧
    (closeOk = true →
      (fr.exec_cmd_list w pos closeOk currentIdx re).2.1.bCmdListRecording = false ∧
      (currentIdx = fr.iBufferIdx →
        (fr.exec_cmd_list w pos closeOk currentIdx re).1
          = w.emit [Event.Close fr.iBufferIdx true,
                    Event.ExecuteCommandLists fr.iBufferIdx fr.pCmdList] ∧
        (fr.exec_cmd_list w pos closeOk currentIdx re).2.2 = false) ∧
      (currentIdx ≠ fr.iBufferIdx →
        (fr.exec_cmd_list w pos closeOk currentIdx re).2.2 = true)) ∧
    (∃ es, (fr.exec_cmd_list w pos closeOk currentIdx re).1.trace = w.trace ++ es ∧
      (Event.ExecuteCommandLists fr.iBufferIdx fr.pCmdList ∈ es ↔
        closeOk = true ∧ currentIdx = fr.iBufferIdx)) := by
  cases closeOk with
  | false =>
    refine ⟨fun _ => ⟨?_, ?_, ?_⟩, fun h => by simp at h, ⟨[Event.Close fr.iBufferIdx false], ?_, ?_⟩⟩
    · simp [FrameCtx.exec_cmd_list, FrameCtx.exec_cmd_list_core]
    · simp [FrameCtx.exec_cmd_list, FrameCtx.exec_cmd_list_core]
    · simpa [FrameCtx.exec_cmd_list, FrameCtx.exec_cmd_list_core] using hrec
    · simp [FrameCtx.exec_cmd_list, FrameCtx.exec_cmd_list_core, World.emit]
    · simp
  | true =>
    by_cases hi : currentIdx = fr.iBufferIdx
    · refine ⟨fun h => by simp at h, fun _ => ⟨?_, fun _ => ⟨?_, ?_⟩, fun h => absurd hi h⟩,
        ⟨[Event.Close fr.iBufferIdx true, Event.ExecuteCommandLists fr.iBufferIdx fr.pCmdList],
          ?_, ?_⟩⟩
      · simp [FrameCtx.exec_cmd_list, FrameCtx.exec_cmd_list_core, hi]
      · simp [FrameCtx.exec_cmd_list, FrameCtx.exec_cmd_list_core, hi]
      · simp [FrameCtx.exec_cmd_list, FrameCtx.exec_cmd_list_core, hi]
      · simp [FrameCtx.exec_cmd_list, FrameCtx.exec_cmd_list_core, hi, World.emit]
      · simp [hi]
    · have hcore : fr.exec_cmd_list_core true currentIdx
          = ({ fr with bCmdListRecording := false }, [Event.Close fr.iBufferIdx true], true) := by
        simp [FrameCtx.exec_cmd_list_core, hi]
      refine ⟨fun h => by simp at h, fun _ => ⟨?_, fun h => absurd h hi, fun _ => ?_⟩, ?_⟩
      · simp [FrameCtx.exec_cmd_list, hcore, FrameCtx.destroy]
      · simp [FrameCtx.exec_cmd_list, hcore]
      · simp only [FrameCtx.exec_cmd_list, hcore, if_true]
        obtain ⟨es, h1, h2⟩ := release_submits_at_current
          ({ w.emit [Event.Close fr.iBufferIdx true] with
              rbk := { (w.emit [Event.Close fr.iBufferIdx true]).rbk with
                frames_ := (w.emit [Event.Close fr.iBufferIdx true]).rbk.frames_.set pos
                  { fr with bCmdListRecording := false } } })
          (w.emit [Event.Close fr.iBufferIdx true]).rbk._pSwapChain re currentIdx hidx
        refine ⟨Event.Close fr.iBufferIdx true :: es, ?_, ?_⟩
        · rw [h1]
          simp [World.emit]
        · simp only [List.mem_cons, reduceCtorEq, false_or, hi, and_false, iff_false]
          intro hm
          exact hi (h2 _ _ hm).symm

/-- C28, at concrete inputs: the recording context of buffer 0 (command list 300)
while the swapchain is at index 1 is closed, not submitted, and `release` runs;
at index 0 it is closed and submitted; with a failing `Close` it stays
recording. -/
theorem exec_cmd_list_submits_iff_index_matches_witness :
    sampleRecordingFrame.bCmdListRecording = true ∧
    (∀ k, ((okRelease 1).dtor k).currentIdx = 1) ∧
    (∃ es, (sampleRecordingFrame.exec_cmd_list (recordingWorld 0) 0 true 1 (okRelease 1)).1.trace
        = (recordingWorld 0).trace ++ es ∧
      (Event.ExecuteCommandLists sampleRecordingFrame.iBufferIdx sampleRecordingFrame.pCmdList
          ∈ es ↔ true = true ∧ 1 = sampleRecordingFrame.iBufferIdx)) ∧
    Event.Close 0 true
      ∈ (sampleRecordingFrame.exec_cmd_list (recordingWorld 0) 0 true 1 (okRelease 1)).1.trace ∧
    Event.ExecuteCommandLists 0 (some 300)
      ∉ (sampleRecordingFrame.exec_cmd_list (recordingWorld 0) 0 true 1 (okRelease 1)).1.trace ∧
    (sampleRecordingFrame.exec_cmd_list (recordingWorld 0) 0 true 1 (okRelease 1)).2.2 = true ∧
    (sampleRecordingFrame.exec_cmd_list (recordingWorld 0) 0 true 0 (okRelease 0)).1.trace
      = (recordingWorld 0).trace
          ++ [Event.Close 0 true, Event.ExecuteCommandLists 0 (some 300)] ∧
    (sampleRecordingFrame.exec_cmd_list (recordingWorld 0) 0 false 0
      (okRelease 0)).2.1.bCmdListRecording = true :=
  ⟨by decide, fun _ => rfl,
    (exec_cmd_list_submits_iff_index_matches (recordingWorld 0) 0 sampleRecordingFrame true 1
      (okRelease 1) (by decide) (fun _ => rfl)).2.2,
    by decide, by decide, by decide, by decide, by decide⟩

/-- C29, at the failing input and in general.  An idle frame context whose fence
stands at 4, a `Signal` that succeeds and a `SetEventOnCompletion` that fails:
`wait_for_gpu` returns true and stores 5 without having waited.  For every
input: a call that returns true has signalled the queue with the old value plus
one, has asked for the completion event at that value, stores that value, and
has waited on the event exactly when `SetEventOnCompletion` succeeded; with the
event handle missing or the signal failing the call returns false, and the
stored value is unchanged unless the flush ran `release` and destroyed the
frame context. -/
theorem wait_for_gpu_true_without_wait :
    ((sampleIdleFrame.wait_for_gpu readyWorld 0 true true false 0 (okRelease 0)).1 = true ∧
      (sampleIdleFrame.wait_for_gpu readyWorld 0 true true false 0 (okRelease 0)).2.2.1.fence.value
        = 5 ∧
      (sampleIdleFrame.wait_for_gpu readyWorld 0 true true false 0 (okRelease 0)).2.1.trace
        = readyWorld.trace ++ [Event.Signal 0 (some 100) 5 true,
                               Event.SetEventOnCompletion 0 5 false] ∧
      Event.Wait 0
        ∉ (sampleIdleFrame.wait_for_gpu readyWorld 0 true true false 0 (okRelease 0)).2.1.trace) ∧
    (∀ (w : World) (pos : Nat) (fr : FrameCtx) (closeOk signalOk setEventOk : Bool)
        (currentIdx : Nat) (re : ReleaseEnv),
      ((fr.wait_for_gpu w pos closeOk signalOk setEventOk currentIdx re).1 = true →
        (fr.wait_for_gpu w pos closeOk signalOk setEventOk currentIdx re).2.2.2 = false ∧
        (fr.wait_for_gpu w pos closeOk signalOk setEventOk currentIdx re).2.2.1.fence.value
          = fr.fence.value + 1 ∧
        ∃ es, (fr.wait_for_gpu w pos closeOk signalOk setEventOk currentIdx re).2.1.trace
            = w.trace ++ es ∧
          Event.Signal fr.iBufferIdx fr.fence.p (fr.fence.value + 1) true ∈ es ∧
          Event.SetEventOnCompletion fr.iBufferIdx (fr.fence.value + 1) setEventOk ∈ es ∧
          (Event.Wait fr.iBufferIdx ∈ es ↔ setEventOk = true)) ∧
      (fr.fence.event = none ∨ signalOk = false →
        (fr.wait_for_gpu w pos closeOk signalOk setEventOk currentIdx re).1 = false ∧
        ((fr.wait_for_gpu w pos closeOk signalOk setEventOk currentIdx re).2.2.2 = false →
          (fr.wait_for_gpu w pos closeOk signalOk setEventOk currentIdx re).2.2.1.fence.value
            = fr.fence.value))) := by
  refine ⟨by decide, ?_⟩
  intro w pos fr c s v idx re
  unfold FrameCtx.wait_for_gpu FrameCtx.wait_for_gpu_core FrameCtx.exec_cmd_list_core
  cases hr : fr.bCmdListRecording <;> cases c <;> by_cases hi : idx = fr.iBufferIdx <;>
    cases he : fr.fence.event <;> cases s <;> cases v <;>
    simp [hr, hi, he, World.emit]

/-- C30, refuted at concrete inputs: growth is by a fixed headroom, not by a
factor.  From absent buffers a required count of 10,000 vertices gives a
capacity of 15,000, below twice the count; and a run of 1,000,000 calls whose
required count goes 1, 2, 3, ... creates the vertex buffer anew 200 times, at
the counts 1, 5002, 10003, ..., once every 5001 calls. -/
theorem growth_is_not_geometric :
    (growBuffers { Vb := buffer_s.empty, Ib := buffer_s.empty } (countData 10000)
      (okUi 0)).2.1.Vb.size = 15000 ∧
    ¬ (2 * 10000 ≤ (growBuffers { Vb := buffer_s.empty, Ib := buffer_s.empty } (countData 10000)
      (okUi 0)).2.1.Vb.size) ∧
    (growRun (okUi 0) { Vb := buffer_s.empty, Ib := buffer_s.empty }
      (risingCounts 1 1000000)).2
      = (List.range 200).map (fun (j : Nat) => 1 + 5001 * (j : Int)) ∧
    (growRun (okUi 0) { Vb := buffer_s.empty, Ib := buffer_s.empty }
      (risingCounts 1 1000000)).2.length = 200 := by
  have h := growRun_from_absent (okUi 0) rfl rfl 1000000
    { Vb := buffer_s.empty, Ib := buffer_s.empty } 1 rfl (by norm_num) (by norm_num)
  refine ⟨by decide, by decide, h, ?_⟩
  rw [h]
  simp

/-- C30, amended: when both creations succeed and the over-allocated counts fit
an `INT`, a reallocation of the vertex buffer triggered by the required count
`n` gives the capacity `n + 5000` exactly, so for a factor `k` the capacity is at
least `k * n` exactly when `(k - 1) * n <= 5000`, and the buffer is next created
anew as soon as a count exceeds `n + 5000`; likewise the index buffer, with
10000.  A run of calls whose required count goes up by one each time, from an
absent vertex buffer, creates it anew at the counts `first`, `first + 5001`,
`first + 2 * 5001`, ...: once every 5001 calls. -/
theorem reallocation_adds_fixed_headroom (h : FrameHeap) (d : ImDrawData) (e : UiEnv)
    (hcv : e.createVb.isSome = true) (hci : e.createIb.isSome = true)
    (hfitV : -2 ^ 31 ≤ d.TotalVtxCount + 5000 ∧ d.TotalVtxCount + 5000 < 2 ^ 31)
    (hfitI : -2 ^ 31 ≤ d.TotalIdxCount + 10000 ∧ d.TotalIdxCount + 10000 < 2 ^ 31) :
    (h.Vb.lacks d.TotalVtxCount = true →
      (growBuffers h d e).2.1.Vb.size = d.TotalVtxCount + 5000 ∧
      (∀ k : Rat, k * (d.TotalVtxCount : Rat) ≤ ((growBuffers h d e).2.1.Vb.size : Rat) ↔
        (k - 1) * (d.TotalVtxCount : Rat) ≤ 5000) ∧
      (∀ m : Int, (growBuffers h d e).2.1.Vb.lacks m = true ↔ d.TotalVtxCount + 5000 < m)) ∧
    (h.Ib.lacks d.TotalIdxCount = true →
      (growBuffers h d e).2.1.Ib.size = d.TotalIdxCount + 10000 ∧
      (∀ k : Rat, k * (d.TotalIdxCount : Rat) ≤ ((growBuffers h d e).2.1.Ib.size : Rat) ↔
        (k - 1) * (d.TotalIdxCount : Rat) ≤ 10000) ∧
      (∀ m : Int, (growBuffers h d e).2.1.Ib.lacks m = true ↔ d.TotalIdxCount + 10000 < m)) ∧
    (∀ (calls : Nat) (first : Int), h.Vb.p = none → -2 ^ 31 ≤ first + 5000 →
      first + calls + 5000 ≤ 2 ^ 31 →
      (growRun e h (risingCounts first calls)).2
        = (List.range ((calls + 5000) / 5001)).map
            (fun (j : Nat) => first + 5001 * (j : Int))) := by
  have hg := growBuffers_heap_fits h d e (fun _ => hcv) (fun _ => hci) (fun _ => hfitV)
    (fun _ => hfitI)
  refine ⟨?_, ?_, ?_⟩
  · intro hl
    have hs : (growBuffers h d e).2.1.Vb = { p := e.createVb, size := d.TotalVtxCount + 5000 } := by
      rw [hg]
      simp [grownHeap, hl]
    refine ⟨by rw [hs], ?_, ?_⟩
    · intro k
      rw [hs]
      push_cast
      constructor <;> intro hk <;> linarith
    · intro m
      rw [hs]
      simp [buffer_s.lacks, Option.isSome_iff_ne_none.mp hcv]
  · intro hl
    have hs : (growBuffers h d e).2.1.Ib
        = { p := e.createIb, size := d.TotalIdxCount + 10000 } := by
      rw [hg]
      simp [grownHeap, hl]
    refine ⟨by rw [hs], ?_, ?_⟩
    · intro k
      rw [hs]
      push_cast
      constructor <;> intro hk <;> linarith
    · intro m
      rw [hs]
      simp [buffer_s.lacks, Option.isSome_iff_ne_none.mp hci]
  · intro calls first hp hlo hhi
    exact growRun_from_absent e hcv hci calls h first hp hlo hhi

/-- C30 amended, at a concrete input: absent buffers and a payload of 10,000
vertices and 30,000 indices give capacities 15,000 and 40,000; twelve calls with
counts 1 to 12 create the vertex buffer once, at count 1. -/
theorem reallocation_adds_fixed_headroom_witness :
    (okUi 0).createVb.isSome = true ∧ (okUi 0).createIb.isSome = true ∧
    (growBuffers { Vb := buffer_s.empty, Ib := buffer_s.empty } bigDrawData (okUi 0)).2.1.Vb.size
      = bigDrawData.TotalVtxCount + 5000 ∧
    (growBuffers { Vb := buffer_s.empty, Ib := buffer_s.empty } bigDrawData (okUi 0)).2.1.Ib.size
      = bigDrawData.TotalIdxCount + 10000 ∧
    (growBuffers { Vb := buffer_s.empty, Ib := buffer_s.empty } bigDrawData (okUi 0)).2.1.Vb.size
      = 15000 ∧
    (growRun (okUi 0) { Vb := buffer_s.empty, Ib := buffer_s.empty } (risingCounts 1 12)).2
      = [1] :=
  ⟨by decide, by decide,
    ((reallocation_adds_fixed_headroom { Vb := buffer_s.empty, Ib := buffer_s.empty }
      bigDrawData (okUi 0) (by decide) (by decide) (by decide) (by decide)).1 (by decide)).1,
    ((reallocation_adds_fixed_headroom { Vb := buffer_s.empty, Ib := buffer_s.empty }
      bigDrawData (okUi 0) (by decide) (by decide) (by decide) (by decide)).2.1 (by decide)).1,
    by decide, by decide⟩

end SKD3D12
